import Mathlib

/-!
# MovieMate: the response aggregation and caching layer of `server.js`

A shallow embedding of the request handlers of `src/server.js`, of the
in-memory freshness cache they share and of the client's `loadMore`
(`src/public/app.js`), followed by the properties proved about them.

Conventions of the embedding.

* Time (`Date.now()`) is an integer number of milliseconds.
* A JavaScript string is a Lean `String`; the text functions work on its list
  of characters.
* A value read from a parsed JSON body is a `JsVal`; equality of `JsVal` is the
  `SameValueZero` of `Map` keys, which is `===` on every value JSON can hold:
  nested objects are compared by reference.
* A JavaScript number is a `JsNum`: `NaN`, the two infinities, or the exact
  rational value of a finite double.
* Upstream answers (`fetch`, `response.text()`, `response.json()`), the
  rearrangement made by `sort(() => 0.5 - Math.random())` and the language
  built-ins `String(·)`, `parseFloat`, `parseInt` and `toLowerCase` are inputs
  of the handlers, so every theorem holds for all of them.
* An `await` that rejects and a failing property access raise a `JsError`,
  which the enclosing `try`/`catch` of the handler turns into a response.
* A response is its status and the object passed to `res.json`. The text of a
  request sent upstream is not part of the model: a request is recorded by its
  kind and by the search term, the title and year, or the model it names.
-/

set_option autoImplicit false

namespace MovieMate

/-! ## JavaScript values -/

/-- A JavaScript number: `NaN`, `-Infinity`, a finite value, `+Infinity`. -/
inductive JsNum where
  | nan
  | ninf
  | fin (q : ℚ)
  | pinf
  deriving DecidableEq

/-- A value found in a parsed JSON document (or `undefined` for a missing
property). A nested object or array is only known by its reference; the objects
represented are those whose conversion `String(v)` returns, which leaves out an
object whose own `toString` and `valueOf` make the conversion raise. -/
inductive JsVal where
  | undefined
  | null
  | bool (b : Bool)
  | num (n : JsNum)
  | str (s : String)
  | obj (ref : Nat)
  deriving DecidableEq

/-- JavaScript truthiness (`ToBoolean`). -/
def JsVal.truthy : JsVal → Bool
  | .undefined => false
  | .null => false
  | .bool b => b
  | .num .nan => false
  | .num (.fin q) => decide (q ≠ 0)
  | .num _ => true
  | .str s => decide (s ≠ "")
  | .obj _ => true

/-- An exception raised inside a handler; `message` is `error.message`. -/
structure JsError where
  name : String
  message : String
  deriving DecidableEq

/-- The error of reading property `p` of `null`/`undefined`. -/
def typeErrorReading (p : String) : JsError :=
  ⟨"TypeError", "Cannot read properties of null (reading '" ++ p ++ "')"⟩

/-- The error of calling a method the receiver does not have. -/
def typeErrorNotFunction (what : String) : JsError :=
  ⟨"TypeError", what ++ " is not a function"⟩

/-- The error of evaluating an identifier that no enclosing scope declares. -/
def referenceError (ident : String) : JsError :=
  ⟨"ReferenceError", ident ++ " is not defined"⟩

/-! ## The in-memory cache (`server.js` lines 16-36) -/

/-- A stored cache entry `{ v: value, t: Date.now() }`. -/
structure Hit (α : Type) where
  v : α
  t : Int

/-- The `CACHE` map: key to stored entry. -/
abbrev Cache (α : Type) := String → Option (Hit α)

/-- The value of `new Map()`. -/
def emptyCache {α : Type} : Cache α := fun _ => none

/-- The constant `const TTL = 1000 * 60 * 5`. -/
def TTL : Int := 1000 * 60 * 5

/-- The call `getCached(key)` evaluated when `Date.now()` is `now`; `none` is `null`. -/
def getCached {α : Type} (CACHE : Cache α) (now : Int) (key : String) : Option α :=
  match CACHE key with
  | some hit => if now - hit.t < TTL then some hit.v else none
  | none => none

/-- The call `setCache(key, value)` evaluated when `Date.now()` is `now`. -/
def setCache {α : Type} (CACHE : Cache α) (now : Int) (key : String) (value : α) : Cache α :=
  fun k => if k = key then some ⟨value, now⟩ else CACHE k

/-- A `setCache` call with its key, its value and the time it runs at. -/
structure SetCall (α : Type) where
  key : String
  value : α
  at_ : Int

/-- A sequence of `setCache` calls applied in order. -/
def setCacheAll {α : Type} (CACHE : Cache α) : List (SetCall α) → Cache α
  | [] => CACHE
  | c :: rest => setCacheAll (setCache CACHE c.at_ c.key c.value) rest

/-! ## Numbers and the built-ins taken as inputs -/

/-- The comparison `a <= b` of two JavaScript numbers (false when either is `NaN`). -/
def JsNum.le : JsNum → JsNum → Bool
  | .nan, _ => false
  | _, .nan => false
  | .ninf, _ => true
  | .fin _, .ninf => false
  | .fin a, .fin b => decide (a ≤ b)
  | .fin _, .pinf => true
  | .pinf, .pinf => true
  | .pinf, _ => false

/-- The subtraction `a - b`. The difference of two finite doubles is rounded,
but keeps the sign of the exact difference, which is all the callers use. -/
def JsNum.sub : JsNum → JsNum → JsNum
  | .nan, _ => .nan
  | _, .nan => .nan
  | .pinf, .pinf => .nan
  | .ninf, .ninf => .nan
  | .pinf, _ => .pinf
  | .ninf, _ => .ninf
  | .fin _, .pinf => .ninf
  | .fin _, .ninf => .pinf
  | .fin a, .fin b => .fin (a - b)

/-- The test `v > 0` applied to the result of a comparator. -/
def JsNum.positive : JsNum → Bool
  | .pinf => true
  | .fin q => decide (0 < q)
  | _ => false

/-- The global `isNaN` on a number. -/
def isNaN : JsNum → Bool
  | .nan => true
  | _ => false

/-- The language built-ins the handlers call on values of unknown type. -/
structure Builtins where
  /-- The conversion `String(v)` a template literal applies; it returns on every
  value a `JsVal` represents -/
  toStr : JsVal → String
  /-- The global `parseFloat(v)` -/
  parseFloat : JsVal → JsNum
  /-- The global `parseInt(v)` -/
  parseInt : JsVal → JsNum
  /-- The method `s.toLowerCase()` -/
  toLowerCase : String → String

/-- The method `Array.prototype.sort(comparefn)` for a consistent comparator: the
specification requires a stable sort, whose result is the one computed here
(insert each element before the first one it does not have to follow). -/
def jsSort {α : Type} (comparefn : α → α → JsNum) : List α → List α
  | [] => []
  | x :: xs => List.orderedInsert (fun a b => (comparefn a b).positive = false) x (jsSort comparefn xs)

/-! ## Text -/

/-- The code points matched by `\s` and stripped by `trim`: WhiteSpace and
LineTerminator. -/
def isJsSpace (c : Char) : Bool :=
  [9, 10, 11, 12, 13, 32, 160, 5760, 8232, 8233, 8239, 8287, 12288, 65279].contains c.toNat
    || (8192 ≤ c.toNat && c.toNat ≤ 8202)

/-- The code points `.` does not match. -/
def isLineTerminator (c : Char) : Bool :=
  [10, 13, 8232, 8233].contains c.toNat

/-- The code points matched by `\d`. -/
def isDigit (c : Char) : Bool :=
  48 ≤ c.toNat && c.toNat ≤ 57

/-- The method `String.prototype.trim` on a list of characters. -/
def trimChars (cs : List Char) : List Char :=
  ((cs.dropWhile isJsSpace).reverse.dropWhile isJsSpace).reverse

/-- The call `s.trim()`. -/
def trim (s : String) : String := String.mk (trimChars s.data)

/-- The call `s.split('\n')` on a list of characters. -/
def splitNewline : List Char → List (List Char)
  | [] => [[]]
  | c :: cs =>
    if c = '\n' then [] :: splitNewline cs
    else match splitNewline cs with
      | [] => [[c]]
      | l :: ls => (c :: l) :: ls

/-- The pattern `\((\d{4})\)` at the head of the input: the captured digits. -/
def yearGroup : List Char → Option (List Char)
  | '(' :: a :: b :: c :: d :: ')' :: _ =>
    if isDigit a && isDigit b && isDigit c && isDigit d then some [a, b, c, d] else none
  | _ => none

/-- The pattern `(.+?)\s*\((\d{4})\)` at the head of the input: the lazy group
takes the fewest characters (at least one, none a line terminator) after which
`\s*\((\d{4})\)` matches. The greedy `\s*` can only succeed on the whole run of
white space, since `(` is not white space. Returns both captures. -/
def titleYear : List Char → Option (List Char × List Char)
  | [] => none
  | c :: cs =>
    if isLineTerminator c then none
    else match yearGroup (cs.dropWhile isJsSpace) with
      | some y => some ([c], y)
      | none =>
        match titleYear cs with
        | some (t, y) => some (c :: t, y)
        | none => none

/-- The greedy `\s*` of the numbering group followed by the rest of the
pattern: the longest run of white space is tried first, then shorter ones. -/
def afterSpaces : List Char → Option (List Char × List Char)
  | [] => titleYear []
  | c :: cs =>
    if isJsSpace c then
      match afterSpaces cs with
      | some r => some r
      | none => titleYear (c :: cs)
    else titleYear (c :: cs)

/-- The `\.` of the numbering group followed by the rest of the pattern. -/
def afterDot : List Char → Option (List Char × List Char)
  | '.' :: cs => afterSpaces cs
  | _ => none

/-- The greedy `\d+` of the numbering group once one digit is consumed,
followed by the rest of the pattern. -/
def afterDigits : List Char → Option (List Char × List Char)
  | [] => afterDot []
  | c :: cs =>
    if isDigit c then
      match afterDigits cs with
      | some r => some r
      | none => afterDot (c :: cs)
    else afterDot (c :: cs)

/-- The call `line.match(/^(?:\d+\.\s*)?(.+?)\s*\((\d{4})\)/)`: the two captures. The
optional group is tried first and skipped only if no match follows it. -/
def lineMatch (line : List Char) : Option (List Char × List Char) :=
  let numbered :=
    match line with
    | c :: cs => if isDigit c then afterDigits cs else none
    | [] => none
  match numbered with
  | some r => some r
  | none => titleYear line

/-- The call `s.replace(/\(\d{4}\)/, '')`: the first parenthesised year removed. -/
def removeYear : List Char → List Char
  | [] => []
  | c :: cs =>
    match yearGroup (c :: cs) with
    | some _ => (c :: cs).drop 6
    | none => c :: removeYear cs

/-! ## Requests, upstream answers and responses -/

/-- The environment variables the handlers read (`process.env`). -/
structure Env where
  OMDB_API_KEY : Option String
  GEMINI_API_KEY : Option String
  GEMINI_MODEL : Option String

/-- The test `!KEY || KEY === placeholder` of the credential checks. -/
def credentialMissing (key : Option String) (placeholder : String) : Bool :=
  match key with
  | none => true
  | some k => k = "" || k = placeholder

/-- What `await fetch(url)` followed by `await response.json()` gives: either
call may reject, otherwise the parsed body is obtained. -/
inductive Fetched (α : Type) where
  | fetchRejects (e : JsError)
  | jsonRejects (e : JsError)
  | body (data : α)

/-- An element of the catalog's `Search` array that is not `null`: the four
properties the handlers read (`undefined` when missing). A primitive element
has none of them. -/
structure RawMovie where
  imdbID : JsVal
  Title : JsVal
  Year : JsVal
  Poster : JsVal
  deriving DecidableEq

/-- The `Search` property of a catalog search answer: an array (its elements
`none` when `null`), or any other value. -/
inductive SearchField where
  | array (xs : List (Option RawMovie))
  | value (v : JsVal)

/-- JavaScript truthiness of the `Search` property (an array is truthy). -/
def SearchField.truthy : SearchField → Bool
  | .array _ => true
  | .value v => v.truthy

/-- A parsed catalog search answer that is not `null`. -/
structure SearchData where
  Response : JsVal
  Search : SearchField
  Error : JsVal
  totalResults : JsVal

/-- A parsed catalog by-title or by-id answer that is not `null`. -/
structure OmdbData where
  Response : JsVal
  Error : JsVal
  imdbID : JsVal
  Title : JsVal
  Year : JsVal
  Released : JsVal
  Poster : JsVal
  Plot : JsVal
  imdbRating : JsVal
  Runtime : JsVal
  Genre : JsVal
  Director : JsVal
  Actors : JsVal
  Awards : JsVal

/-- The answer of the generative model to one `fetch`: `ok` and `status` of the
response; the outcome of `await response.text()`, which is the body as text or
the error `text()` rejects with; and the outcome of `await response.json()`,
reduced to the value at `?.candidates?.[0]?.content?.parts?.[0]?.text`
(`undefined` when the chain stops early), or the error `json()` rejects
with. -/
structure GeminiResponse where
  ok : Bool
  status : Nat
  text : Except JsError String
  json : Except JsError JsVal

/-- An upstream request issued by a handler. -/
inductive Call where
  | omdbSearch (term : String)
  | omdbTitle (title : String) (year : String)
  | omdbId (id : String)
  | gemini (model : String)
  deriving DecidableEq

/-- Whether an upstream request goes to the generative model. -/
def isModelCall : Call → Bool
  | .gemini _ => true
  | _ => false

/-- The record `{id, title, release_date, poster_path, overview: ''}` of the
trending and search listings. -/
structure Movie where
  id : JsVal
  title : JsVal
  release_date : JsVal
  poster_path : JsVal
  overview : String
  deriving DecidableEq

/-- The record of the genre-filter listing. -/
structure FilterMovie where
  id : JsVal
  title : JsVal
  release_date : JsVal
  poster_path : JsVal
  overview : JsVal
  rating : JsNum
  deriving DecidableEq

/-- The payload `{results, total_results}` of `/api/trending`. -/
structure TrendingResult where
  results : List Movie
  total_results : Nat
  deriving DecidableEq

/-- The payload `{results, total_results, page}` of `/api/search`, with
`message` on the not-found answer. -/
structure SearchResult where
  results : List Movie
  total_results : JsNum
  page : JsNum
  message : Option JsVal
  deriving DecidableEq

/-- The payload `{results, total_results}` of `/api/filter`. -/
structure FilterResult where
  results : List FilterMovie
  total_results : Nat
  deriving DecidableEq

/-- The `movieData` object of `/api/suggest`. -/
structure MovieData where
  id : JsVal
  title : JsVal
  year : JsVal
  poster : JsVal
  plot : JsVal
  rating : JsVal
  genre : JsVal
  director : JsVal
  actors : JsVal
  runtime : JsVal
  awards : JsVal
  deriving DecidableEq

/-- The record `normalized` of `/api/movie` (lines 200-212). -/
structure Detail where
  id : JsVal
  title : JsVal
  release_date : JsVal
  poster_path : JsVal
  overview : JsVal
  vote_average : JsNum
  runtime : JsVal
  genre : JsVal
  director : JsVal
  actors : JsVal
  awards : JsVal
  deriving DecidableEq

/-- A payload a handler stores in the cache. -/
inductive Payload where
  | trending (p : TrendingResult)
  | search (p : SearchResult)
  | filter (p : FilterResult)
  | movie (p : Detail)
  deriving DecidableEq

/-- The JSON object a handler answers with: a listing payload, `{error}`,
`{error, details}`, `{suggestion, movieData: null}`,
`{movieData, explanation, suggestion}`, or `{error: data.Error}` with the
value the catalog sent. -/
inductive Body where
  | payload (p : Payload)
  | error (error : String)
  | errorDetails (error : String) (details : String)
  | textSuggestion (suggestion : String)
  | fullSuggestion (movieData : MovieData) (explanation : String) (suggestion : String)
  | upstreamError (error : JsVal)
  deriving DecidableEq

/-- What a handler run leaves behind: the status and body of the response, the
cache, and the upstream requests issued, in order. -/
structure Outcome where
  status : Nat
  body : Body
  cache : Cache Payload
  calls : List Call

/-- The result of the `try` block of a handler: the exception it ended with
or the response and cache it produced, and the upstream requests issued. -/
structure Attempt where
  result : Except JsError (Nat × Body × Cache Payload)
  calls : List Call

/-- The `catch (error)` clause shared by the handlers:
`res.status(500).json({ error: label + error.message })`. -/
def catchAs (label : String) (CACHE : Cache Payload) (a : Attempt) : Outcome :=
  match a.result with
  | .ok (status, body, cache) => ⟨status, body, cache, a.calls⟩
  | .error e => ⟨500, .error (label ++ e.message), CACHE, a.calls⟩

/-- The test `movie.Poster && movie.Poster !== 'N/A'`. -/
def hasPoster (Poster : JsVal) : Bool :=
  Poster.truthy && decide (Poster ≠ .str "N/A")

/-- The mapping `movie => ({ id: movie.imdbID, title: movie.Title,
release_date: movie.Year, poster_path: movie.Poster, overview: '' })`. -/
def normalize (movie : RawMovie) : Movie :=
  { id := movie.imdbID, title := movie.Title, release_date := movie.Year,
    poster_path := movie.Poster, overview := "" }

/-! ## `GET /api/trending` (lines 41-104) -/

/-- The `popularSearches` array. -/
def popularSearches : List String :=
  ["Avengers", "Star Wars", "Batman", "Spider-Man", "Harry Potter",
   "Marvel", "Iron Man", "Thor", "Superman", "X-Men", "Deadpool",
   "Fast Furious", "Mission Impossible", "James Bond", "Jurassic",
   "Lord Rings", "Pirates Caribbean", "Transformers", "Indiana Jones",
   "Captain America", "Guardians Galaxy", "Ant-Man", "Doctor Strange"]

/-- A primitive array element: none of the properties read is defined. -/
def primitiveEntry : RawMovie := ⟨.undefined, .undefined, .undefined, .undefined⟩

/-- The value `data.Search.slice(0, 4)` spread into an argument list: the first four
elements of an array; the first four characters of a string, each a primitive;
any other value has no `slice` method. -/
def sliceTop4 : SearchField → Except JsError (List (Option RawMovie))
  | .array xs => .ok (xs.take 4)
  | .value (.str s) => .ok ((s.data.take 4).map (fun _ => some primitiveEntry))
  | .value _ => .error (typeErrorNotFunction "data.Search.slice")

/-- The `for (const searchTerm of popularSearches)` loop: `allMovies` after the
loop, or the exception that ended it, with the requests issued so far. -/
def trendingLoop (fetchSearch : String → Fetched (Option SearchData)) :
    List String → List (Option RawMovie) → List Call →
      Except JsError (List (Option RawMovie)) × List Call
  | [], allMovies, calls => (.ok allMovies, calls)
  | searchTerm :: rest, allMovies, calls =>
    let calls1 := calls ++ [Call.omdbSearch searchTerm]
    match fetchSearch searchTerm with
    | .fetchRejects e => (.error e, calls1)
    | .jsonRejects e => (.error e, calls1)
    | .body none => (.error (typeErrorReading "Response"), calls1)
    | .body (some data) =>
      if data.Response = .str "True" && data.Search.truthy then
        match sliceTop4 data.Search with
        | .error e => (.error e, calls1)
        | .ok top => trendingLoop fetchSearch rest (allMovies ++ top) calls1
      else trendingLoop fetchSearch rest allMovies calls1

/-- The pairs `allMovies.map(m => [m.imdbID, m])`: reading `imdbID` of a `null` element
raises. -/
def keyedById : List (Option RawMovie) → Except JsError (List (JsVal × RawMovie))
  | [] => .ok []
  | none :: _ => .error (typeErrorReading "imdbID")
  | some m :: rest =>
    match keyedById rest with
    | .error e => .error e
    | .ok ps => .ok ((m.imdbID, m) :: ps)

/-- The method `Map.prototype.set`: an existing key keeps its position and takes the new
value, a new key is appended. -/
def mapSet {α : Type} : List (JsVal × α) → JsVal → α → List (JsVal × α)
  | [], k, v => [(k, v)]
  | (k1, v1) :: rest, k, v =>
    if k1 = k then (k1, v) :: rest else (k1, v1) :: mapSet rest k v

/-- The map `new Map(pairs)`: the entries are set one after the other. -/
def newMap {α : Type} (pairs : List (JsVal × α)) : List (JsVal × α) :=
  pairs.foldl (fun m p => mapSet m p.1 p.2) []

/-- The array `Array.from(map.values())`. -/
def mapValues {α : Type} (m : List (JsVal × α)) : List α := m.map Prod.snd

/-- Lines 81-95: `uniqueMovies`, `shuffled` and `normalized` from `allMovies`.
`shuffle` is the effect of `sort(() => 0.5 - Math.random())`. -/
def trendingNormalized (shuffle : List RawMovie → List RawMovie)
    (allMovies : List (Option RawMovie)) : Except JsError TrendingResult :=
  match keyedById allMovies with
  | .error e => .error e
  | .ok pairs =>
    let uniqueMovies := (mapValues (newMap pairs)).filter (fun movie => hasPoster movie.Poster)
    let shuffled := (shuffle uniqueMovies).take 72
    .ok { results := shuffled.map normalize, total_results := shuffled.length }

/-- The cache key of the trending listing. -/
def trendingKey : String := "trending:movies:v2"

/-- The `try` block of the `/api/trending` handler: `now` is `Date.now()` at
the cache lookup, `done` is `Date.now()` when the result is stored. -/
def trendingTry (env : Env) (now done : Int) (CACHE : Cache Payload)
    (fetchSearch : String → Fetched (Option SearchData))
    (shuffle : List RawMovie → List RawMovie) : Attempt :=
  match getCached CACHE now trendingKey with
  | some cached => ⟨.ok (200, .payload cached, CACHE), []⟩
  | none =>
    if credentialMissing env.OMDB_API_KEY "your_omdb_api_key_here" then
      ⟨.ok (500, .error
        "OMDB_API_KEY not set. Get your free key at https://www.omdbapi.com/apikey.aspx",
        CACHE), []⟩
    else
      match trendingLoop fetchSearch popularSearches [] [] with
      | (.error e, calls) => ⟨.error e, calls⟩
      | (.ok allMovies, calls) =>
        match trendingNormalized shuffle allMovies with
        | .error e => ⟨.error e, calls⟩
        | .ok normalized =>
          ⟨.ok (200, .payload (.trending normalized),
            setCache CACHE done trendingKey (.trending normalized)), calls⟩

/-- The `/api/trending` handler run on cache `CACHE`. -/
def trending (env : Env) (now done : Int) (CACHE : Cache Payload)
    (fetchSearch : String → Fetched (Option SearchData))
    (shuffle : List RawMovie → List RawMovie) : Outcome :=
  catchAs "Failed to fetch trending movies: " CACHE
    (trendingTry env now done CACHE fetchSearch shuffle)

/-! ## `GET /api/search` (lines 107-167) -/

/-- A destructuring default: `{ x = d }` takes `d` when `x` is `undefined`. -/
def orDefault (v d : JsVal) : JsVal := if v = .undefined then d else v

/-- The cache key `search:q:year:page` of a search. -/
def searchKey (B : Builtins) (q year page : JsVal) : String :=
  "search:" ++ B.toStr q ++ ":" ++ B.toStr year ++ ":" ++ B.toStr page

/-- The array `data.Search.filter(movie => movie.Poster && movie.Poster !== 'N/A')`:
reading `Poster` of a `null` element raises. -/
def filterPosters : List (Option RawMovie) → Except JsError (List RawMovie)
  | [] => .ok []
  | none :: _ => .error (typeErrorReading "Poster")
  | some movie :: rest =>
    match filterPosters rest with
    | .error e => .error e
    | .ok ms => .ok (if hasPoster movie.Poster then movie :: ms else ms)

/-- The `results` of lines 147-155. -/
def searchResults : SearchField → Except JsError (List Movie)
  | .array xs =>
    match filterPosters xs with
    | .error e => .error e
    | .ok ms => .ok (ms.map normalize)
  | .value v =>
    if v.truthy then .error (typeErrorNotFunction "data.Search.filter") else .ok []

/-- The `try` block of the `/api/search` handler; `q0`, `year0`, `page0` are
the properties of `req.query`. -/
def searchTry (env : Env) (B : Builtins) (now done : Int) (CACHE : Cache Payload)
    (q0 year0 page0 : JsVal) (fetchSearch : String → Fetched (Option SearchData)) : Attempt :=
  let q := orDefault q0 (.str "")
  let year := orDefault year0 (.str "")
  let page := orDefault page0 (.str "1")
  let cacheKey := searchKey B q year page
  match getCached CACHE now cacheKey with
  | some cached => ⟨.ok (200, .payload cached, CACHE), []⟩
  | none =>
    if credentialMissing env.OMDB_API_KEY "your_omdb_api_key_here" then
      ⟨.ok (500, .error
        "OMDB_API_KEY not set. Get your free key at https://www.omdbapi.com/apikey.aspx",
        CACHE), []⟩
    else
      let term := if q.truthy then B.toStr q else "avengers"
      let calls := [Call.omdbSearch term]
      match fetchSearch term with
      | .fetchRejects e => ⟨.error e, calls⟩
      | .jsonRejects e => ⟨.error e, calls⟩
      | .body none => ⟨.error (typeErrorReading "Response"), calls⟩
      | .body (some data) =>
        if data.Response = .str "False" then
          ⟨.ok (200, .payload (.search
            { results := [], total_results := .fin 0, page := B.parseInt page,
              message := some data.Error }), CACHE), calls⟩
        else
          match searchResults data.Search with
          | .error e => ⟨.error e, calls⟩
          | .ok results =>
            let normalized : SearchResult :=
              { results := results,
                total_results :=
                  if data.totalResults.truthy then B.parseInt data.totalResults else .fin 0,
                page := B.parseInt page,
                message := none }
            ⟨.ok (200, .payload (.search normalized),
              setCache CACHE done cacheKey (.search normalized)), calls⟩

/-- The `/api/search` handler run on cache `CACHE`. -/
def search (env : Env) (B : Builtins) (now done : Int) (CACHE : Cache Payload)
    (q0 year0 page0 : JsVal) (fetchSearch : String → Fetched (Option SearchData)) : Outcome :=
  catchAs "Failed to fetch movies: " CACHE
    (searchTry env B now done CACHE q0 year0 page0 fetchSearch)

/-! ## `GET /api/movie` (lines 170-221) -/

/-- The cache key `movie:id` of a movie's details. -/
def movieKey (B : Builtins) (id : JsVal) : String := "movie:" ++ B.toStr id

/-- The object `normalized` of lines 200-212. -/
def normalizeDetail (B : Builtins) (data : OmdbData) : Detail :=
  { id := data.imdbID,
    title := data.Title,
    release_date := data.Released,
    poster_path := if data.Poster ≠ .str "N/A" then data.Poster else .null,
    overview := if data.Plot ≠ .str "N/A" then data.Plot else .str "",
    vote_average := if data.imdbRating ≠ .str "N/A" then B.parseFloat data.imdbRating else .fin 0,
    runtime := data.Runtime,
    genre := data.Genre,
    director := data.Director,
    actors := data.Actors,
    awards := data.Awards }

/-- The `try` block of the `/api/movie` handler; `id` is `req.query.id`
(`undefined` when the parameter is missing). -/
def movieTry (env : Env) (B : Builtins) (now done : Int) (CACHE : Cache Payload)
    (id : JsVal) (fetchId : String → Fetched (Option OmdbData)) : Attempt :=
  if !id.truthy then ⟨.ok (400, .error "id required", CACHE), []⟩
  else
    let cacheKey := movieKey B id
    match getCached CACHE now cacheKey with
    | some cached => ⟨.ok (200, .payload cached, CACHE), []⟩
    | none =>
      if credentialMissing env.OMDB_API_KEY "your_omdb_api_key_here" then
        ⟨.ok (500, .error "OMDB_API_KEY not set", CACHE), []⟩
      else
        let calls := [Call.omdbId (B.toStr id)]
        match fetchId (B.toStr id) with
        | .fetchRejects e => ⟨.error e, calls⟩
        | .jsonRejects e => ⟨.error e, calls⟩
        | .body none => ⟨.error (typeErrorReading "Response"), calls⟩
        | .body (some data) =>
          if data.Response = .str "False" then
            ⟨.ok (404, .upstreamError data.Error, CACHE), calls⟩
          else
            let normalized := normalizeDetail B data
            ⟨.ok (200, .payload (.movie normalized),
              setCache CACHE done cacheKey (.movie normalized)), calls⟩

/-- The `/api/movie` handler run on cache `CACHE`. -/
def movie (env : Env) (B : Builtins) (now done : Int) (CACHE : Cache Payload)
    (id : JsVal) (fetchId : String → Fetched (Option OmdbData)) : Outcome :=
  catchAs "Failed to fetch movie details: " CACHE (movieTry env B now done CACHE id fetchId)

/-! ## `POST /api/filter` (lines 383-494) -/

/-- The configured model: `process.env.GEMINI_MODEL || 'gemini-2.0-flash-exp'`. -/
def geminiModel (env : Env) : String :=
  match env.GEMINI_MODEL with
  | some m => if m = "" then "gemini-2.0-flash-exp" else m
  | none => "gemini-2.0-flash-exp"

/-- The expression `text?.trim() || ''` at the end of the optional chain on
the model's answer: a missing text gives `''`, a text that is not a string has
no `trim` method. -/
def firstText : JsVal → Except JsError String
  | .undefined => .ok ""
  | .null => .ok ""
  | .str s => .ok (trim s)
  | _ => .error (typeErrorNotFunction
      "geminiJson?.candidates?.[0]?.content?.parts?.[0]?.text?.trim")

/-- The array `aiResponse.split('\n').filter(line => line.trim())`. -/
def movieLines (aiResponse : String) : List String :=
  ((splitNewline aiResponse.data).map String.mk).filter (fun line => decide (trim line ≠ ""))

/-- The title and the year a line gives: `match[1].trim()` and `match[2]`, or
nothing when the pattern does not match. -/
def parseLine (line : String) : Option (String × String) :=
  match lineMatch line.data with
  | some (t, y) => some (trim (String.mk t), String.mk y)
  | none => none

/-- The body of the `try` of a candidate (lines 454-470) and its `catch`: the
record returned, or `null`. -/
def lookupRecord (B : Builtins) : Fetched (Option OmdbData) → Option FilterMovie
  | .body (some data) =>
    if data.Response = .str "True" && hasPoster data.Poster then
      let rating := B.parseFloat data.imdbRating
      if !isNaN rating && JsNum.le (.fin 7) rating then
        some { id := data.imdbID, title := data.Title, release_date := data.Year,
               poster_path := data.Poster,
               overview := if data.Plot ≠ .str "N/A" then data.Plot else .str "",
               rating := rating }
      else none
    else none
  | _ => none

/-- The result of the promise of the line at position `i` of `movieLines`;
`lookup i title year` is the catalog's answer to its request. -/
def moviePromise (B : Builtins) (lookup : Nat → String → String → Fetched (Option OmdbData))
    (i : Nat) (line : String) : Option FilterMovie :=
  match parseLine line with
  | none => none
  | some (title, year) => lookupRecord B (lookup i title year)

/-- The comparator `(a, b) => b.rating - a.rating`. -/
def byRatingDesc (a b : FilterMovie) : JsNum := JsNum.sub b.rating a.rating

/-- Lines 444-486: the `response` object computed from the model's text. -/
def filterResponse (B : Builtins) (lookup : Nat → String → String → Fetched (Option OmdbData))
    (aiResponse : String) : FilterResult :=
  let moviePromises := (movieLines aiResponse).enum.map (fun p => moviePromise B lookup p.1 p.2)
  let results := jsSort byRatingDesc (moviePromises.filterMap id)
  { results := results, total_results := results.length }

/-- The catalog requests of the candidates, in the order of the lines. -/
def filterCalls (aiResponse : String) : List Call :=
  (movieLines aiResponse).filterMap (fun line =>
    match parseLine line with
    | none => none
    | some (title, year) => some (Call.omdbTitle title year))

/-- The cache key `filter:genre:page` of a genre filter. -/
def filterKey (B : Builtins) (genre page : JsVal) : String :=
  "filter:" ++ B.toStr genre ++ ":" ++ B.toStr page

/-- The `try` block of the `/api/filter` handler; `genre` and `page0` are the
properties of `req.body`. -/
def filterTry (env : Env) (B : Builtins) (now done : Int) (CACHE : Cache Payload)
    (genre page0 : JsVal) (geminiFetch : String → Except JsError GeminiResponse)
    (lookup : Nat → String → String → Fetched (Option OmdbData)) : Attempt :=
  let page := orDefault page0 (.num (.fin 1))
  let cacheKey := filterKey B genre page
  match getCached CACHE now cacheKey with
  | some cached => ⟨.ok (200, .payload cached, CACHE), []⟩
  | none =>
    if credentialMissing env.GEMINI_API_KEY "your_gemini_key_here" then
      ⟨.ok (500, .error
        "GEMINI_API_KEY not set. Get your free key at https://ai.google.dev/", CACHE), []⟩
    else
      let model := geminiModel env
      let calls := [Call.gemini model]
      match geminiFetch model with
      | .error e => ⟨.error e, calls⟩
      | .ok geminiResponse =>
        if !geminiResponse.ok then
          ⟨.ok (500, .error "Failed to get AI recommendations", CACHE), calls⟩
        else
          match geminiResponse.json with
          | .error e => ⟨.error e, calls⟩
          | .ok text =>
            match firstText text with
            | .error e => ⟨.error e, calls⟩
            | .ok aiResponse =>
              let response := filterResponse B lookup aiResponse
              ⟨.ok (200, .payload (.filter response),
                setCache CACHE done cacheKey (.filter response)),
                calls ++ filterCalls aiResponse⟩

/-- The `/api/filter` handler run on cache `CACHE`. -/
def filter (env : Env) (B : Builtins) (now done : Int) (CACHE : Cache Payload)
    (genre page0 : JsVal) (geminiFetch : String → Except JsError GeminiResponse)
    (lookup : Nat → String → String → Fetched (Option OmdbData)) : Outcome :=
  catchAs "Failed to filter movies: " CACHE
    (filterTry env B now done CACHE genre page0 geminiFetch lookup)

/-! ## `POST /api/suggest` (lines 224-380) -/

/-- The `sampleMovies` property of the request body: a value for which
`sampleMovies?.length > 0` is false, an array (its elements `none` when
nullish, else their `title` and `release_date`), or a value with a positive
`length` and no `map` method. -/
inductive SampleMovies where
  | absent
  | array (ms : List (Option (JsVal × JsVal)))
  | lengthOnly

/-- The titles `sampleMovies.map(m => ...)` produces: reading `title` of a
nullish element raises. -/
def sampleTitles (B : Builtins) : List (Option (JsVal × JsVal)) → Except JsError (List String)
  | [] => .ok []
  | none :: _ => .error (typeErrorReading "title")
  | some (title, release_date) :: rest =>
    match sampleTitles B rest with
    | .error e => .error e
    | .ok ts => .ok ((B.toStr title ++ " (" ++ B.toStr release_date ++ ")") :: ts)

/-- The `movieList` of lines 238-240. -/
def movieList (B : Builtins) : SampleMovies → Except JsError String
  | .absent => .ok "popular movies"
  | .array [] => .ok "popular movies"
  | .array ms =>
    match sampleTitles B ms with
    | .error e => .error e
    | .ok ts => .ok (", ".intercalate ts)
  | .lengthOnly => .error (typeErrorNotFunction "sampleMovies.map")

/-- The fallback model `stableModel`. -/
def stableModel : String := "gemini-1.5-flash"

/-- The identifiers declared at module level (lines 1-36). -/
def moduleScope : List String :=
  ["express", "cors", "dotenv", "path", "fileURLToPath", "fetch", "__filename", "__dirname",
   "app", "PORT", "CACHE", "TTL", "getCached", "setCache"]

/-- The identifiers declared in the body of the `/api/suggest` callback and
its `try` block (lines 224-373), with its parameters. `geminiUrl` is declared
inside `makeGeminiRequest` (line 265) and inside the `/api/filter` callback
(line 419), in no scope that encloses line 356. -/
def suggestScope : List String :=
  ["req", "res", "prefs", "sampleMovies", "API_KEY", "GEMINI_KEY", "movieList", "prompt",
   "model", "stableModel", "makeGeminiRequest", "geminiResponse", "geminiJson",
   "movieTitleRaw", "match", "movieTitle", "year", "omdbUrl", "omdbResponse", "omdbData",
   "movieData", "explanationPrompt", "explanationResponse", "explanationJson", "explanation"]

/-- The evaluation of an identifier in a scope: a `ReferenceError` when no
declaration is visible. -/
def resolveIdent (scope : List String) (ident : String) : Except JsError Unit :=
  if scope.contains ident then .ok () else .error (referenceError ident)

/-- The pattern `v !== 'N/A' ? v : d`. -/
def unlessNA (v d : JsVal) : JsVal := if v ≠ .str "N/A" then v else d

/-- The `movieData` object of lines 333-345. -/
def buildMovieData (omdbData : OmdbData) : MovieData :=
  { id := omdbData.imdbID,
    title := omdbData.Title,
    year := omdbData.Year,
    poster := unlessNA omdbData.Poster .null,
    plot := unlessNA omdbData.Plot (.str ""),
    rating := unlessNA omdbData.imdbRating (.str "N/A"),
    genre := unlessNA omdbData.Genre (.str ""),
    director := unlessNA omdbData.Director (.str ""),
    actors := unlessNA omdbData.Actors (.str ""),
    runtime := unlessNA omdbData.Runtime (.str ""),
    awards := unlessNA omdbData.Awards (.str "") }

/-- The `explanation` of lines 366-367: the trimmed text of the answer, or the
sentence built from `prefs.toLowerCase()` when there is none. -/
def explanationText (B : Builtins) (movieData : MovieData) (prefs : JsVal) (text : String) :
    Except JsError String :=
  if text ≠ "" then .ok text
  else match prefs with
    | .str p => .ok ("This " ++ B.toStr movieData.genre ++ " film matches your preference for "
        ++ B.toLowerCase p ++ ".")
    | .undefined => .error (typeErrorReading "toLowerCase")
    | .null => .error (typeErrorReading "toLowerCase")
    | _ => .error (typeErrorNotFunction "prefs.toLowerCase")

/-- Lines 332-373, the branch taken when the catalog resolves the title. The
argument `geminiUrl` of `fetch` is evaluated in the scope of the callback
before any request is sent. -/
def suggestResolved (B : Builtins) (CACHE : Cache Payload) (prefs : JsVal)
    (omdbData : OmdbData) (explainFetch : Except JsError GeminiResponse)
    (model : String) (calls : List Call) : Attempt :=
  let movieData := buildMovieData omdbData
  match resolveIdent (suggestScope ++ moduleScope) "geminiUrl" with
  | .error e => ⟨.error e, calls⟩
  | .ok () =>
    let calls2 := calls ++ [Call.gemini model]
    match explainFetch with
    | .error e => ⟨.error e, calls2⟩
    | .ok explanationResponse =>
      match explanationResponse.json with
      | .error e => ⟨.error e, calls2⟩
      | .ok text =>
        match firstText text with
        | .error e => ⟨.error e, calls2⟩
        | .ok t =>
          match explanationText B movieData prefs t with
          | .error e => ⟨.error e, calls2⟩
          | .ok explanation =>
            ⟨.ok (200, .fullSuggestion movieData explanation
              ("**" ++ B.toStr movieData.title ++ " (" ++ B.toStr movieData.year ++ ")**\n\n"
                ++ explanation), CACHE), calls2⟩

/-- The `movieTitle` of lines 313-314 for the text `movieTitleRaw`. -/
def suggestedTitle (movieTitleRaw : String) : String :=
  match titleYear movieTitleRaw.data with
  | some (t, _) => trim (String.mk t)
  | none => trim (String.mk (removeYear movieTitleRaw.data))

/-- The `year` of line 315 for the text `movieTitleRaw`. -/
def suggestedYear (movieTitleRaw : String) : String :=
  match titleYear movieTitleRaw.data with
  | some (_, y) => String.mk y
  | none => ""

/-- Lines 305-373: what follows a successful answer of the model. -/
def suggestAfterModel (B : Builtins) (CACHE : Cache Payload) (prefs : JsVal)
    (geminiResponse : GeminiResponse)
    (omdbFetch : String → String → Fetched (Option OmdbData))
    (explainFetch : Except JsError GeminiResponse)
    (model : String) (calls : List Call) : Attempt :=
  match geminiResponse.json with
  | .error e => ⟨.error e, calls⟩
  | .ok text =>
    match firstText text with
    | .error e => ⟨.error e, calls⟩
    | .ok movieTitleRaw =>
      let movieTitle := suggestedTitle movieTitleRaw
      let year := suggestedYear movieTitleRaw
      let calls1 := calls ++ [Call.omdbTitle movieTitle year]
      match omdbFetch movieTitle year with
      | .fetchRejects e => ⟨.error e, calls1⟩
      | .jsonRejects e => ⟨.error e, calls1⟩
      | .body none => ⟨.error (typeErrorReading "Response"), calls1⟩
      | .body (some omdbData) =>
        if omdbData.Response = .str "False" then
          ⟨.ok (200, .textSuggestion ("I recommend: " ++ movieTitleRaw
            ++ "\n\nThis movie matches your preferences: \"" ++ B.toStr prefs ++ "\""),
            CACHE), calls1⟩
        else suggestResolved B CACHE prefs omdbData explainFetch model calls1

/-- Lines 287-294: the request to the configured model and, when it answers
with a non-success status and is not `stableModel` itself, the request to
`stableModel`. Gives the last response with the model it came from, or the
exception of a rejected `fetch`, and the requests issued. -/
def modelAttempts (env : Env) (geminiFetch : String → Except JsError GeminiResponse) :
    Except JsError (GeminiResponse × String) × List Call :=
  let model := geminiModel env
  match geminiFetch model with
  | .error e => (.error e, [Call.gemini model])
  | .ok geminiResponse =>
    if !geminiResponse.ok && model ≠ stableModel then
      match geminiFetch stableModel with
      | .error e => (.error e, [Call.gemini model, Call.gemini stableModel])
      | .ok second => (.ok (second, stableModel), [Call.gemini model, Call.gemini stableModel])
    else (.ok (geminiResponse, model), [Call.gemini model])

/-- The body `{ error: 'Gemini API error: <status>. ...', details: errorText }`
of lines 299-302. -/
def geminiError (status : Nat) (errorText : String) : Body :=
  .errorDetails
    ("Gemini API error: " ++ toString status
      ++ ". Check your API key at https://ai.google.dev/")
    errorText

/-- The `try` block of the `/api/suggest` handler. `geminiFetch m` is the
outcome of `makeGeminiRequest(m)`, `omdbFetch` the catalog's answer to the
by-title request and `explainFetch` the answer the rationale request would
get. -/
def suggestTry (env : Env) (B : Builtins) (CACHE : Cache Payload)
    (prefs : JsVal) (sampleMovies : SampleMovies)
    (geminiFetch : String → Except JsError GeminiResponse)
    (omdbFetch : String → String → Fetched (Option OmdbData))
    (explainFetch : Except JsError GeminiResponse) : Attempt :=
  if credentialMissing env.GEMINI_API_KEY "your_gemini_key_here" then
    ⟨.ok (500, .error
      "GEMINI_API_KEY not set. Get your free key at https://ai.google.dev/", CACHE), []⟩
  else
    match movieList B sampleMovies with
    | .error e => ⟨.error e, []⟩
    | .ok _ =>
      match modelAttempts env geminiFetch with
      | (.error e, calls) => ⟨.error e, calls⟩
      | (.ok (geminiResponse, model), calls) =>
        if !geminiResponse.ok then
          match geminiResponse.text with
          | .error e => ⟨.error e, calls⟩
          | .ok errorText =>
            ⟨.ok (500, geminiError geminiResponse.status errorText, CACHE), calls⟩
        else
          suggestAfterModel B CACHE prefs geminiResponse omdbFetch explainFetch model calls

/-- The `/api/suggest` handler run on cache `CACHE`. -/
def suggest (env : Env) (B : Builtins) (CACHE : Cache Payload)
    (prefs : JsVal) (sampleMovies : SampleMovies)
    (geminiFetch : String → Except JsError GeminiResponse)
    (omdbFetch : String → String → Fetched (Option OmdbData))
    (explainFetch : Except JsError GeminiResponse) : Outcome :=
  catchAs "Failed to generate suggestion: " CACHE
    (suggestTry env B CACHE prefs sampleMovies geminiFetch omdbFetch explainFetch)

/-! ## The client's `loadMore` (`public/app.js` lines 170-212) -/

/-- A movie held by the client: its `id` and the rest of the record. -/
structure ClientMovie where
  id : JsVal
  title : JsVal
  deriving DecidableEq

/-- The client variables `loadMore` reads and writes. `currentGenre` is `none`
when no genre filter is active (`null`). -/
structure ClientState where
  allMovies : List ClientMovie
  currentPage : Nat
  currentGenre : Option String
  lastFetchedPage : Nat

/-- The constant `MOVIES_PER_PAGE`. -/
def MOVIES_PER_PAGE : Nat := 12

/-- What the `fetch` of `/api/filter` and `response.json()` give the client:
a rejection, a response that is not `ok`, or the parsed body reduced to
`data.results || []`. -/
inductive PageAnswer where
  | rejects
  | notOk
  | results (newMovies : List ClientMovie)

/-- Lines 197-207: the new movies whose id is not in `existingIds` are
appended, when there is any. -/
def appendUnique (st : ClientState) (pageToFetch : Nat) (newMovies : List ClientMovie) :
    ClientState :=
  let existingIds := st.allMovies.map (fun m => m.id)
  let uniqueNewMovies := newMovies.filter (fun m => !existingIds.contains m.id)
  if uniqueNewMovies.length > 0 then
    { st with allMovies := st.allMovies ++ uniqueNewMovies, lastFetchedPage := pageToFetch }
  else st

/-- The effect of `loadMore` on the client variables (lines 178-212);
`answer` is what the server answers to the request for the next page. A genre
name is truthy when it is not the empty string. -/
def loadMore (st : ClientState) (answer : PageAnswer) : ClientState :=
  let st1 := { st with currentPage := st.currentPage + 1 }
  match st1.currentGenre with
  | none => st1
  | some genre =>
    if genre ≠ "" ∧ st1.allMovies.length < st1.currentPage * MOVIES_PER_PAGE then
      let pageToFetch := st1.lastFetchedPage + 1
      match answer with
      | .rejects => st1
      | .notOk => st1
      | .results newMovies => appendUnique st1 pageToFetch newMovies
    else st1

/-! ## Sample inputs -/

/-- Built-ins for the sample runs: `String(v)` on strings, `undefined`,
`null`, booleans, integers and plain objects (the samples use no other value),
`parseFloat` and `parseInt` on the strings the samples use. -/
def sampleBuiltins : Builtins where
  toStr := fun v =>
    match v with
    | .str s => s
    | .undefined => "undefined"
    | .null => "null"
    | .bool true => "true"
    | .bool false => "false"
    | .num .nan => "NaN"
    | .num .pinf => "Infinity"
    | .num .ninf => "-Infinity"
    | .num (.fin q) => toString q.num
    | .obj _ => "[object Object]"
  parseFloat := fun v =>
    if v = .str "8.8" then .fin (44 / 5)
    else if v = .str "8.1" then .fin (81 / 10)
    else if v = .str "7.0" then .fin 7
    else if v = .str "6.9" then .fin (69 / 10)
    else .nan
  parseInt := fun v => if v = .str "1" then .fin 1 else if v = .str "2" then .fin 2 else .nan
  toLowerCase := fun s => s

/-- An environment with both credentials set and no model override. -/
def sampleEnv : Env := ⟨some "k1", some "k2", none⟩

/-- A model answer with status 200 whose text is `t`. -/
def geminiOk (t : String) : GeminiResponse := ⟨true, 200, .ok "", .ok (.str t)⟩

/-- A model answer with the non-success status `status` whose body reads as
the text `unavailable`. -/
def geminiFail (status : Nat) : GeminiResponse :=
  ⟨false, status, .ok "unavailable", .ok .undefined⟩

/-- A model answer with the non-success status `status` whose body cannot be
read: `text()` rejects. -/
def geminiAborted (status : Nat) : GeminiResponse :=
  ⟨false, status, .error ⟨"TypeError", "terminated"⟩, .error ⟨"TypeError", "terminated"⟩⟩

/-- A catalog by-title answer for a found movie. -/
def omdbFound (id title year poster rating : String) : OmdbData :=
  { Response := .str "True", Error := .undefined, imdbID := .str id, Title := .str title,
    Year := .str year, Released := .str year, Poster := .str poster, Plot := .str "N/A",
    imdbRating := .str rating, Runtime := .str "N/A", Genre := .str "Action",
    Director := .str "N/A", Actors := .str "N/A", Awards := .str "N/A" }

/-- The catalog's not-found answer. -/
def omdbNotFound : OmdbData :=
  { Response := .str "False", Error := .str "Movie not found!", imdbID := .undefined,
    Title := .undefined, Year := .undefined, Released := .undefined, Poster := .undefined,
    Plot := .undefined, imdbRating := .undefined, Runtime := .undefined, Genre := .undefined,
    Director := .undefined, Actors := .undefined, Awards := .undefined }

/-- A run of `/api/suggest` in which the model names a title the catalog
resolves. -/
def resolvedRun : Outcome :=
  suggest sampleEnv sampleBuiltins emptyCache (.str "time loop action") .absent
    (fun _ => .ok (geminiOk "Edge of Tomorrow (2014)"))
    (fun _ _ => .body (some
      (omdbFound "tt1631867" "Edge of Tomorrow" "2014" "https://img.example/e.jpg" "7.9")))
    (.ok (geminiOk "A great match."))

/-- A run of `/api/suggest` configured with `GEMINI_MODEL=gemini-1.5-flash`
in which the model answers 503. -/
def stableOnlyRun : Outcome :=
  suggest ⟨some "k1", some "k2", some "gemini-1.5-flash"⟩ sampleBuiltins emptyCache
    (.str "time loop action") .absent
    (fun _ => .ok (geminiFail 503))
    (fun _ _ => .body (some omdbNotFound))
    (.ok (geminiOk "A great match."))

/-- A run of `/api/suggest` in which the model's text starts with two spaces
and the catalog does not know the title. -/
def untrimmedRun : Outcome :=
  suggest sampleEnv sampleBuiltins emptyCache (.str "heist") .absent
    (fun _ => .ok (geminiOk "  Inception (2010)"))
    (fun _ _ => .body (some omdbNotFound))
    (.ok (geminiOk "A great match."))

/-- A run of `/api/suggest` with the default model, which answers 404, and
the fallback model, which answers with a title. -/
def fallbackFetch (m : String) : Except JsError GeminiResponse :=
  if m = stableModel then .ok (geminiOk "Inception (2010)") else .ok (geminiFail 404)

/-! ## The genre filter in the words of the specification -/

/-- In the words of the specification: the record of a candidate line at
position `i` whose title and year parse and whose catalog lookup succeeded with
`Response` `'True'`, a poster that is present and not `'N/A'`, and a parseable
rating of at least 7.0; nothing for any other line. -/
def survivorOf (B : Builtins) (lookup : Nat → String → String → Fetched (Option OmdbData))
    (i : Nat) (line : String) : Option FilterMovie :=
  match parseLine line with
  | none => none
  | some (title, year) =>
    match lookup i title year with
    | .body (some data) =>
      if data.Response = .str "True" ∧ data.Poster.truthy = true ∧ data.Poster ≠ .str "N/A"
          ∧ B.parseFloat data.imdbRating ≠ .nan
          ∧ JsNum.le (.fin 7) (B.parseFloat data.imdbRating) = true then
        some { id := data.imdbID, title := data.Title, release_date := data.Year,
               poster_path := data.Poster,
               overview := if data.Plot = .str "N/A" then .str "" else data.Plot,
               rating := B.parseFloat data.imdbRating }
      else none
    | _ => none

/-- The records of the surviving lines, one per line, in the order of the lines. -/
def survivors (B : Builtins) (lookup : Nat → String → String → Fetched (Option OmdbData))
    (lines : List String) : List FilterMovie :=
  lines.enum.filterMap (fun p => survivorOf B lookup p.1 p.2)

/-- The number of lines that survive. -/
def survivorCount (B : Builtins) (lookup : Nat → String → String → Fetched (Option OmdbData))
    (lines : List String) : Nat :=
  lines.enum.countP (fun p => (survivorOf B lookup p.1 p.2).isSome)

/-- The catalog's answers of the sample filter run: the lines at positions
0 and 2 resolve to rated, poster-bearing entries, the line at position 1 to an
entry rated 6.9. -/
def sampleLookup (i : Nat) (title year : String) : Fetched (Option OmdbData) :=
  if i = 0 then .body (some (omdbFound "tt1375666" title year "https://img.example/a.jpg" "8.1"))
  else if i = 1 then
    .body (some (omdbFound "tt0368226" title year "https://img.example/b.jpg" "6.9"))
  else if i = 2 then
    .body (some (omdbFound "tt6751668" title year "https://img.example/c.jpg" "8.8"))
  else .fetchRejects ⟨"FetchError", "socket hang up"⟩

/-- A run of `/api/filter` on an empty cache in which the model lists three
titles and a line that is no title. -/
def filterRun : Outcome :=
  filter sampleEnv sampleBuiltins 1000 2000 emptyCache (.str "thriller") .undefined
    (fun _ => .ok (geminiOk "1. Inception (2010)\nThe Room (2003)\n\nParasite (2019)\nEnjoy!"))
    sampleLookup

/-- The two records of the sample filter run, in the order of the answer. -/
def filterRunResults : List FilterMovie :=
  [ { id := .str "tt6751668", title := .str "Parasite", release_date := .str "2019",
      poster_path := .str "https://img.example/c.jpg", overview := .str "",
      rating := .fin (44 / 5) },
    { id := .str "tt1375666", title := .str "Inception", release_date := .str "2010",
      poster_path := .str "https://img.example/a.jpg", overview := .str "",
      rating := .fin (81 / 10) } ]

/-- A model answer of twelve well-formed lines. -/
def twelveLines : String :=
  "Get Out (2017)\nHereditary (2018)\nThe Witch (2015)\nIt Follows (2014)\n"
    ++ "A Quiet Place (2018)\nThe Babadook (2014)\nMidsommar (2019)\nThe Conjuring (2013)\n"
    ++ "Train to Busan (2016)\nLet the Right One In (2008)\nThe Others (2001)\nREC (2007)"

/-- The catalog's answers to the twelve lines: the lines at the even positions
below 10 resolve to poster-bearing entries rated 8.1, the others are not found. -/
def twelveLookup (i : Nat) (title year : String) : Fetched (Option OmdbData) :=
  if i % 2 = 0 ∧ i < 10 then
    .body (some (omdbFound ("tt" ++ toString i) title year "https://img.example/p.jpg" "8.1"))
  else .body (some omdbNotFound)

/-- A catalog search answer with the given entries. -/
def searchFound (xs : List (Option RawMovie)) : SearchData :=
  { Response := .str "True", Search := .array xs, Error := .undefined,
    totalResults := .str "2" }

/-- The catalog's not-found answer to a search. -/
def searchNotFound : SearchData :=
  { Response := .str "False", Search := .value .undefined, Error := .str "Movie not found!",
    totalResults := .undefined }

/-- The entries the sample catalog returns for `Avengers`. -/
def avengersEntries : List (Option RawMovie) :=
  [ some ⟨.str "tt0848228", .str "The Avengers", .str "2012", .str "https://img.example/1.jpg"⟩,
    some ⟨.str "tt4154796", .str "Avengers: Endgame", .str "2019", .str "N/A"⟩ ]

/-- The entries the sample catalog returns for `Marvel`: the first one is
also an `Avengers` entry. -/
def marvelEntries : List (Option RawMovie) :=
  [ some ⟨.str "tt0848228", .str "The Avengers", .str "2012", .str "https://img.example/1.jpg"⟩,
    some ⟨.str "tt4154664", .str "Captain Marvel", .str "2019", .str "https://img.example/2.jpg"⟩ ]

/-- A sample catalog: two search terms have entries, the others none. -/
def sampleSearch (term : String) : Fetched (Option SearchData) :=
  if term = "Avengers" then .body (some (searchFound avengersEntries))
  else if term = "Marvel" then .body (some (searchFound marvelEntries))
  else .body (some searchNotFound)

/-- The sample catalog with the sub-search for `Batman` failing in transport. -/
def batmanDown (term : String) : Fetched (Option SearchData) :=
  if term = "Batman" then .fetchRejects ⟨"FetchError", "socket hang up"⟩ else sampleSearch term

/-- A run of `/api/trending` on an empty cache against the sample catalog;
the shuffle reverses the list. -/
def trendingRun : Outcome :=
  trending sampleEnv 1000 2000 emptyCache sampleSearch List.reverse

/-- The records of the sample trending run. -/
def trendingRunResults : List Movie :=
  [ ⟨.str "tt4154664", .str "Captain Marvel", .str "2019", .str "https://img.example/2.jpg", ""⟩,
    ⟨.str "tt0848228", .str "The Avengers", .str "2012", .str "https://img.example/1.jpg", ""⟩ ]

/-- A run of `/api/trending` on an empty cache in which the third of the 23
sub-searches fails and all others answer. -/
def partialFailureRun : Outcome :=
  trending sampleEnv 1000 2000 emptyCache batmanDown List.reverse

/-- A run of `/api/search` for `avengers` on an empty cache. -/
def searchRun : Outcome :=
  search sampleEnv sampleBuiltins 1000 2000 emptyCache (.str "Avengers") .undefined .undefined
    sampleSearch

/-- The records of the sample search run. -/
def searchRunResults : List Movie :=
  [ ⟨.str "tt0848228", .str "The Avengers", .str "2012", .str "https://img.example/1.jpg", ""⟩ ]

/-- Whether a catalog request raised: `fetch` or `response.json()` rejected. -/
def raised {α : Type} : Fetched α → Bool
  | .fetchRejects _ => true
  | .jsonRejects _ => true
  | .body _ => false

/-- The catalog's answers `lookup`, except that the request of each line at a
position marked by `failing` ends as `failure` says. -/
def withFailures (lookup failure : Nat → String → String → Fetched (Option OmdbData))
    (failing : Nat → Bool) : Nat → String → String → Fetched (Option OmdbData) :=
  fun i title year => if failing i then failure i title year else lookup i title year

/-- A run of `/api/filter` in which the model's answer carries no text. -/
def emptyTextRun : Outcome :=
  filter sampleEnv sampleBuiltins 1000 2000 emptyCache (.str "thriller") .undefined
    (fun _ => .ok ⟨true, 200, .ok "", .ok .undefined⟩) sampleLookup

/-- The sample filter run with the lookups of the lines at positions 0 and 3
failing in transport. -/
def failingLookupRun : Outcome :=
  filter sampleEnv sampleBuiltins 1000 2000 emptyCache (.str "thriller") .undefined
    (fun _ => .ok (geminiOk "1. Inception (2010)\nThe Room (2003)\n\nParasite (2019)\nEnjoy!"))
    (withFailures sampleLookup (fun _ _ _ => .fetchRejects ⟨"FetchError", "socket hang up"⟩)
      (fun i => decide (i = 0 ∨ i = 3)))

/-- An environment with no credential set. -/
def noKeyEnv : Env := ⟨none, none, none⟩

/-- An environment with the generative-model credential only. -/
def geminiOnlyEnv : Env := ⟨none, some "k2", none⟩

/-- A cache holding the answer of the sample search, stored at time 500. -/
def warmSearchCache : Cache Payload :=
  setCache emptyCache 500
    (searchKey sampleBuiltins (.str "Avengers") (.str "") (.str "1"))
    (.search ⟨searchRunResults, .fin 2, .fin 1, none⟩)

/-- The catalog's answer to a request whose `apikey` it does not accept. -/
def omdbNoKey : OmdbData := { omdbNotFound with Error := .str "Invalid API key!" }

/-- A run of `/api/search` on an empty cache with the generative-model
credential set and no catalog credential. -/
def searchNoCatalogKeyRun : Outcome :=
  search geminiOnlyEnv sampleBuiltins 1000 2000 emptyCache (.str "Avengers") .undefined
    .undefined sampleSearch

/-- A run of `/api/filter` on an empty cache with the generative-model
credential set and no catalog credential; the catalog refuses the lookup. -/
def filterNoCatalogKeyRun : Outcome :=
  filter geminiOnlyEnv sampleBuiltins 1000 2000 emptyCache (.str "thriller") .undefined
    (fun _ => .ok (geminiOk "Inception (2010)")) (fun _ _ _ => .body (some omdbNoKey))

/-- A run of `/api/suggest` with the generative-model credential set and no
catalog credential; the catalog refuses the lookup. -/
def suggestNoCatalogKeyRun : Outcome :=
  suggest geminiOnlyEnv sampleBuiltins emptyCache (.str "heist") .absent
    (fun _ => .ok (geminiOk "Inception (2010)")) (fun _ _ => .body (some omdbNoKey))
    (.ok (geminiOk "A great match."))

/-- A model answer with status 200 whose body is not JSON. -/
def geminiUnparsable : GeminiResponse :=
  ⟨true, 200, .ok "<html>", .error ⟨"SyntaxError", "Unexpected token < in JSON at position 0"⟩⟩

/-- A run of `/api/filter` in which the model answers status 200 with a body
that is not JSON. -/
def unparsableBodyRun : Outcome :=
  filter sampleEnv sampleBuiltins 1000 2000 emptyCache (.str "thriller") .undefined
    (fun _ => .ok geminiUnparsable) sampleLookup

/-- A run of `/api/filter` in which the model answers status 200 with the
number 42 where the text is expected. -/
def numericTextRun : Outcome :=
  filter sampleEnv sampleBuiltins 1000 2000 emptyCache (.str "thriller") .undefined
    (fun _ => .ok ⟨true, 200, .ok "", .ok (.num (.fin 42))⟩) sampleLookup

/-- A run of `/api/movie` for an id the catalog does not know. -/
def unknownMovieRun : Outcome :=
  movie sampleEnv sampleBuiltins 1000 2000 emptyCache (.str "tt9999999")
    (fun _ => .body (some { omdbNotFound with Error := .str "Incorrect IMDb ID." }))

/-- A run of `/api/search` for which the catalog reports no match. -/
def noMatchRun : Outcome :=
  search sampleEnv sampleBuiltins 1000 2000 emptyCache (.str "zzzz") .undefined (.str "2")
    sampleSearch

/-- Whether the record list of a search answer is absent or an array without
a `null` entry (its entries may lack any property). -/
def noNullEntry : SearchField → Bool
  | .array xs => xs.all Option.isSome
  | .value v => !v.truthy

/-- A catalog where the answer for `Avengers` holds a `null` entry before a
well-formed one. -/
def nullEntrySearch (term : String) : Fetched (Option SearchData) :=
  if term = "Avengers" then .body (some (searchFound (none :: avengersEntries)))
  else .body (some searchNotFound)

/-- A run of `/api/search` against the catalog with the `null` entry. -/
def nullEntrySearchRun : Outcome :=
  search sampleEnv sampleBuiltins 1000 2000 emptyCache (.str "Avengers") .undefined .undefined
    nullEntrySearch

/-- A run of `/api/trending` against the catalog with the `null` entry. -/
def nullEntryTrendingRun : Outcome :=
  trending sampleEnv 1000 2000 emptyCache nullEntrySearch List.reverse

/-- A catalog whose entries are partial: one lacks every property but the
poster, one has only a title. -/
def partialSearch (term : String) : Fetched (Option SearchData) :=
  if term = "Avengers" then
    .body (some (searchFound
      [ some ⟨.undefined, .undefined, .undefined, .str "https://img.example/1.jpg"⟩,
        some ⟨.undefined, .str "The Avengers", .undefined, .undefined⟩ ]))
  else .body (some searchNotFound)

/-- A run of `/api/movie` whose upstream payload has the `'N/A'` sentinel in
`Poster`, `Plot`, `Runtime`, `Director`, `Actors` and `Awards`, and the rating
string `abc`, which does not parse. -/
def sentinelDetailRun : Outcome :=
  movie sampleEnv sampleBuiltins 1000 2000 emptyCache (.str "tt0000001")
    (fun _ => .body (some (omdbFound "tt0000001" "Untitled" "2001" "N/A" "abc")))

/-- A run of `/api/filter` in which the model lists the same title twice. -/
def repeatedTitleRun : Outcome :=
  filter sampleEnv sampleBuiltins 1000 2000 emptyCache (.str "thriller") .undefined
    (fun _ => .ok (geminiOk "Inception (2010)\nInception (2010)"))
    (fun _ title year =>
      .body (some (omdbFound "tt1375666" title year "https://img.example/a.jpg" "8.8")))

/-- The record both lines of the repeated-title run resolve to. -/
def inceptionRecord : FilterMovie :=
  { id := .str "tt1375666", title := .str "Inception", release_date := .str "2010",
    poster_path := .str "https://img.example/a.jpg", overview := .str "",
    rating := .fin (44 / 5) }

/-- A client in genre-filter mode holding one movie. -/
def clientBefore : ClientState :=
  { allMovies := [⟨.str "tt1", .str "Get Out"⟩], currentPage := 1,
    currentGenre := some "horror", lastFetchedPage := 1 }

/-- A page of results in which two records have the same id. -/
def pageWithRepeat : List ClientMovie :=
  [⟨.str "tt2", .str "Hereditary"⟩, ⟨.str "tt2", .str "Hereditary"⟩]

/-! ## The line pattern in the words of the specification -/

/-- Whether the text contains a parenthesised four-digit group `(dddd)`. -/
def containsYearGroup : List Char → Bool
  | [] => false
  | c :: cs => (yearGroup (c :: cs)).isSome || containsYearGroup cs

/-- Whether the text begins with digits followed by `.`. -/
def startsNumbered : List Char → Bool
  | [] => false
  | c :: cs => isDigit c && decide ((cs.dropWhile isDigit).head? = some '.')

/-- The text `(Y)` preceded by a space: what follows the title on a line. -/
def yearSuffix (a b c d : Char) : List Char := [' ', '(', a, b, c, d, ')']

/-- A sample title. -/
def sampleTitle : List Char := "Blade Runner 2049".data

/-- A catalog that knows the search term `Mission: Impossible` only. -/
def missionSearch (term : String) : Fetched (Option SearchData) :=
  if term = "Mission: Impossible" then
    .body (some (searchFound
      [ some ⟨.str "tt0117060", .str "Mission: Impossible", .str "1996",
          .str "https://img.example/m.jpg"⟩ ]))
  else .body (some searchNotFound)

/-- The records of the search for `Mission: Impossible`. -/
def missionResults : List Movie :=
  [ ⟨.str "tt0117060", .str "Mission: Impossible", .str "1996",
      .str "https://img.example/m.jpg", ""⟩ ]

/-- A run of `/api/search` with `q=Mission: Impossible`, no year, page 1, on
an empty cache. -/
def missionRun : Outcome :=
  search sampleEnv sampleBuiltins 1000 2000 emptyCache (.str "Mission: Impossible") (.str "")
    (.str "1") missionSearch

/-- A later run of `/api/search` with `q=Mission`, `year= Impossible:`, page 1,
on the cache the first run left. -/
def collidingRun : Outcome :=
  search sampleEnv sampleBuiltins 3000 4000 missionRun.cache (.str "Mission")
    (.str " Impossible:") (.str "1") missionSearch

/-- The text `Number::toString` gives a non-negative safe integer (one below
`2 ^ 53`): its decimal digits, most significant first. -/
def decimal (n : Nat) : List Char :=
  if n = 0 then ['0'] else (Nat.digits 10 n).reverse.map Nat.digitChar

/-- The sample built-ins with `String(n)` written in decimal for every
non-negative integer `n`; the properties use it on safe integers only. -/
def decimalBuiltins : Builtins :=
  { sampleBuiltins with
    toStr := fun v =>
      match v with
      | .num (.fin q) =>
        if q.den = 1 ∧ 0 ≤ q.num then String.mk (decimal q.num.toNat)
        else sampleBuiltins.toStr v
      | _ => sampleBuiltins.toStr v }

/-! ## Properties -/

theorem setCacheAll_other {α : Type} (calls : List (SetCall α)) (CACHE : Cache α) (k : String)
    (hk : ∀ c ∈ calls, c.key ≠ k) : setCacheAll CACHE calls k = CACHE k := by
  induction calls generalizing CACHE with
  | nil => rfl
  | cons c rest ih =>
    have h1 : c.key ≠ k := hk c (List.mem_cons_self _ _)
    have h2 : ∀ d ∈ rest, d.key ≠ k := fun d hd => hk d (List.mem_cons_of_mem _ hd)
    simp only [setCacheAll]
    rw [ih _ h2]
    simp [setCache, Ne.symm h1]

/-- C1: after `setCache(k, v)` at time `T`, with no `setCache` on `k` in
between, `getCached(k)` at time `T' ≥ T` returns exactly `v` when
`T' - T < 300000` and `null` when `T' - T ≥ 300000`; and `getCached` on a key
that was never set returns `null`. -/
theorem getCached_after_setCache {α : Type} (CACHE : Cache α) (k : String) (v : α) (T T' : Int)
    (between : List (SetCall α)) (_hT : T ≤ T') (hk : ∀ c ∈ between, c.key ≠ k) :
    (T' - T < 300000 →
        getCached (setCacheAll (setCache CACHE T k v) between) T' k = some v) ∧
    (T' - T ≥ 300000 →
        getCached (setCacheAll (setCache CACHE T k v) between) T' k = none) ∧
    getCached (setCacheAll emptyCache between) T' k = none := by
  have hTTL : TTL = 300000 := by decide
  refine ⟨fun h => ?_, fun h => ?_, ?_⟩
  · simp [getCached, setCacheAll_other between _ k hk, setCache, hTTL, h]
  · have h' : ¬ (T' - T < 300000) := not_lt.mpr h
    simp [getCached, setCacheAll_other between _ k hk, setCache, hTTL, h']
  · simp [getCached, setCacheAll_other between _ k hk, emptyCache]

/-- Witness of C1: a movie payload stored at time 1000, another key stored at
2000, read at 3000. -/
theorem getCached_after_setCache_witness :
    (1000 : Int) ≤ 3000 ∧
    (∀ c ∈ [(⟨"movie:tt2", 8, 2000⟩ : SetCall Nat)], c.key ≠ "movie:tt1") ∧
    getCached (setCacheAll (setCache emptyCache 1000 "movie:tt1" 7)
      [(⟨"movie:tt2", 8, 2000⟩ : SetCall Nat)]) 3000 "movie:tt1" = some 7 :=
  ⟨by decide, by decide,
    (getCached_after_setCache emptyCache "movie:tt1" 7 1000 3000
      [(⟨"movie:tt2", 8, 2000⟩ : SetCall Nat)] (by decide) (by decide)).1 (by decide)⟩

/-! ### The suggestion handler -/

theorem suggestResolved_raises (B : Builtins) (CACHE : Cache Payload) (prefs : JsVal)
    (omdbData : OmdbData) (explainFetch : Except JsError GeminiResponse)
    (model : String) (calls : List Call) :
    suggestResolved B CACHE prefs omdbData explainFetch model calls
      = ⟨.error (referenceError "geminiUrl"), calls⟩ := by
  have h : resolveIdent (suggestScope ++ moduleScope) "geminiUrl"
      = .error (referenceError "geminiUrl") := by rfl
  simp only [suggestResolved, h]

/-- C2 (defect of the code): with the credential configured, a successful
model answer and a title the catalog resolves, the handler answers status 500
with `Failed to generate suggestion: geminiUrl is not defined` and sends no
rationale request: the requests are the model request and the catalog lookup. -/
theorem suggest_resolved_answers_500 :
    resolvedRun.status = 500 ∧
    resolvedRun.body = .error "Failed to generate suggestion: geminiUrl is not defined" ∧
    resolvedRun.calls
      = [Call.gemini "gemini-2.0-flash-exp", Call.omdbTitle "Edge of Tomorrow" "2014"] := by
  decide!

theorem suggestResolved_calls (B : Builtins) (CACHE : Cache Payload) (prefs : JsVal)
    (omdbData : OmdbData) (explainFetch : Except JsError GeminiResponse)
    (model : String) (calls : List Call) :
    (suggestResolved B CACHE prefs omdbData explainFetch model calls).calls = calls ∨
    (suggestResolved B CACHE prefs omdbData explainFetch model calls).calls
      = calls ++ [Call.gemini model] := by
  unfold suggestResolved
  cases resolveIdent (suggestScope ++ moduleScope) "geminiUrl" with
  | error e => exact Or.inl rfl
  | ok u =>
    right
    cases explainFetch with
    | error e => rfl
    | ok r =>
      cases hj : r.json with
      | error e => simp [hj]
      | ok text =>
        cases ht : firstText text with
        | error e => simp [hj, ht]
        | ok t =>
          cases hx : explanationText B (buildMovieData omdbData) prefs t with
          | error e => simp [hj, ht, hx]
          | ok x => simp [hj, ht, hx]

theorem suggestResolved_body (B : Builtins) (CACHE : Cache Payload) (prefs : JsVal)
    (omdbData : OmdbData) (explainFetch : Except JsError GeminiResponse)
    (model : String) (calls : List Call) (status : Nat) (body : Body) (cache : Cache Payload)
    (h : (suggestResolved B CACHE prefs omdbData explainFetch model calls).result
      = .ok (status, body, cache)) :
    cache = CACHE ∧
    ∃ movieData explanation suggestion, body = .fullSuggestion movieData explanation suggestion := by
  unfold suggestResolved at h
  cases hi : resolveIdent (suggestScope ++ moduleScope) "geminiUrl" with
  | error e => simp [hi] at h
  | ok u =>
    cases explainFetch with
    | error e => simp [hi] at h
    | ok r =>
      cases hj : r.json with
      | error e => simp [hi, hj] at h
      | ok text =>
        cases ht : firstText text with
        | error e => simp [hi, hj, ht] at h
        | ok t =>
          cases hx : explanationText B (buildMovieData omdbData) prefs t with
          | error e => simp [hi, hj, ht, hx] at h
          | ok x =>
            simp [hi, hj, ht, hx] at h
            exact ⟨h.2.2.symm, _, _, _, h.2.1.symm⟩

theorem suggestAfterModel_stage (B : Builtins) (CACHE : Cache Payload) (prefs : JsVal)
    (geminiResponse : GeminiResponse) (omdbFetch : String → String → Fetched (Option OmdbData))
    (explainFetch : Except JsError GeminiResponse) (model : String) (calls : List Call)
    (hcalls : ∀ c ∈ calls, isModelCall c = true) :
    (suggestAfterModel B CACHE prefs geminiResponse omdbFetch explainFetch model
      calls).calls.takeWhile isModelCall = calls := by
  have hself : calls.takeWhile isModelCall = calls := List.takeWhile_eq_self_iff.mpr hcalls
  have hstop : ∀ (t y : String) (rest : List Call),
      (calls ++ [Call.omdbTitle t y] ++ rest).takeWhile isModelCall = calls := by
    intro t y rest
    rw [List.append_assoc, List.takeWhile_append_of_pos hcalls]
    simp [List.takeWhile, isModelCall]
  have hstop0 : ∀ (t y : String),
      (calls ++ [Call.omdbTitle t y]).takeWhile isModelCall = calls := by
    intro t y
    simpa using hstop t y []
  cases hj : geminiResponse.json with
  | error e => simp [suggestAfterModel, hj, hself]
  | ok text =>
    cases ht : firstText text with
    | error e => simp [suggestAfterModel, hj, ht, hself]
    | ok raw =>
      cases ho : omdbFetch (suggestedTitle raw) (suggestedYear raw) with
      | fetchRejects e => simp only [suggestAfterModel, hj, ht, ho, hstop0]
      | jsonRejects e => simp only [suggestAfterModel, hj, ht, ho, hstop0]
      | body d =>
        cases d with
        | none => simp only [suggestAfterModel, hj, ht, ho, hstop0]
        | some d =>
          by_cases hr : d.Response = .str "False"
          · simp only [suggestAfterModel, hj, ht, ho, hr, if_true, hstop0]
          · simp only [suggestAfterModel, hj, ht, ho, hr, if_false]
            rcases suggestResolved_calls B CACHE prefs d explainFetch model
              (calls ++ [Call.omdbTitle (suggestedTitle raw) (suggestedYear raw)]) with h | h
            · rw [h]; exact hstop0 _ _
            · rw [h]; exact hstop _ _ _

theorem suggestAfterModel_body (B : Builtins) (CACHE : Cache Payload) (prefs : JsVal)
    (geminiResponse : GeminiResponse) (omdbFetch : String → String → Fetched (Option OmdbData))
    (explainFetch : Except JsError GeminiResponse) (model : String) (calls : List Call)
    (status : Nat) (body : Body) (cache : Cache Payload)
    (h : (suggestAfterModel B CACHE prefs geminiResponse omdbFetch explainFetch model
      calls).result = .ok (status, body, cache)) :
    ∀ e d, body ≠ .errorDetails e d := by
  cases hj : geminiResponse.json with
  | error e => simp [suggestAfterModel, hj] at h
  | ok text =>
    cases ht : firstText text with
    | error e => simp [suggestAfterModel, hj, ht] at h
    | ok raw =>
      cases ho : omdbFetch (suggestedTitle raw) (suggestedYear raw) with
      | fetchRejects e => simp [suggestAfterModel, hj, ht, ho] at h
      | jsonRejects e => simp [suggestAfterModel, hj, ht, ho] at h
      | body d =>
        cases d with
        | none => simp [suggestAfterModel, hj, ht, ho] at h
        | some d =>
          by_cases hr : d.Response = .str "False"
          · simp [suggestAfterModel, hj, ht, ho, hr] at h
            intro e d
            rw [← h.2.1]
            simp
          · simp only [suggestAfterModel, hj, ht, ho, hr, if_false] at h
            obtain ⟨_, md, ex, sg, hb⟩ := suggestResolved_body B CACHE prefs d explainFetch model _
              status body cache h
            intro e d
            rw [hb]
            simp

/-- C3, as stated, fails: with `GEMINI_MODEL=gemini-1.5-flash` the primary
request answers a non-success status, no further request is made and the 500
is surfaced at once. -/
theorem suggest_no_retry_on_stable :
    (geminiFail 503).ok = false ∧
    stableOnlyRun.calls = [Call.gemini "gemini-1.5-flash"] ∧
    stableOnlyRun.status = 500 ∧
    stableOnlyRun.body = geminiError 503 "unavailable" := by
  decide!

/-- C3, amended: with the credential configured, the prompt built and the
primary request answered by `first`. If `first` is a success, the model
requests sent before the catalog lookup are the primary one alone and the
answer is not the `Gemini API error`. If `first` is a non-success and the
primary model is `gemini-1.5-flash` itself, no further request is made and a
500 is the answer: the `Gemini API error` with the response text when
`text()` gives it, the catch clause's error when `text()` rejects. If `first`
is a non-success and the primary model is another one, exactly one further
model request is made, against `gemini-1.5-flash`; when it is answered with a
non-success status no other request is made and a 500 is the answer in the same
two forms, and when it is answered with a success the answer is not the
`Gemini API error`. -/
theorem suggest_model_fallback (env : Env) (B : Builtins) (CACHE : Cache Payload)
    (prefs : JsVal) (sampleMovies : SampleMovies)
    (geminiFetch : String → Except JsError GeminiResponse)
    (omdbFetch : String → String → Fetched (Option OmdbData))
    (explainFetch : Except JsError GeminiResponse) (first : GeminiResponse)
    (hcred : credentialMissing env.GEMINI_API_KEY "your_gemini_key_here" = false)
    (hprompt : ∃ l, movieList B sampleMovies = .ok l)
    (hfirst : geminiFetch (geminiModel env) = .ok first) :
    (first.ok = true →
      (suggest env B CACHE prefs sampleMovies geminiFetch omdbFetch explainFetch).calls.takeWhile
          isModelCall = [Call.gemini (geminiModel env)] ∧
      ∀ e d, (suggest env B CACHE prefs sampleMovies geminiFetch omdbFetch explainFetch).body
        ≠ .errorDetails e d) ∧
    (first.ok = false → geminiModel env = stableModel →
      (suggest env B CACHE prefs sampleMovies geminiFetch omdbFetch explainFetch).calls
          = [Call.gemini stableModel] ∧
      (suggest env B CACHE prefs sampleMovies geminiFetch omdbFetch explainFetch).status = 500 ∧
      (∀ errorText, first.text = .ok errorText →
        (suggest env B CACHE prefs sampleMovies geminiFetch omdbFetch explainFetch).body
          = geminiError first.status errorText) ∧
      (∀ err, first.text = .error err →
        (suggest env B CACHE prefs sampleMovies geminiFetch omdbFetch explainFetch).body
          = .error ("Failed to generate suggestion: " ++ err.message))) ∧
    (first.ok = false → geminiModel env ≠ stableModel →
      (suggest env B CACHE prefs sampleMovies geminiFetch omdbFetch explainFetch).calls.takeWhile
          isModelCall = [Call.gemini (geminiModel env), Call.gemini stableModel] ∧
      ∀ second, geminiFetch stableModel = .ok second →
        (second.ok = false →
          (suggest env B CACHE prefs sampleMovies geminiFetch omdbFetch explainFetch).calls
              = [Call.gemini (geminiModel env), Call.gemini stableModel] ∧
          (suggest env B CACHE prefs sampleMovies geminiFetch omdbFetch explainFetch).status
              = 500 ∧
          (∀ errorText, second.text = .ok errorText →
            (suggest env B CACHE prefs sampleMovies geminiFetch omdbFetch explainFetch).body
              = geminiError second.status errorText) ∧
          (∀ err, second.text = .error err →
            (suggest env B CACHE prefs sampleMovies geminiFetch omdbFetch explainFetch).body
              = .error ("Failed to generate suggestion: " ++ err.message))) ∧
        (second.ok = true →
          ∀ e d, (suggest env B CACHE prefs sampleMovies geminiFetch omdbFetch explainFetch).body
            ≠ .errorDetails e d)) := by
  obtain ⟨l, hl⟩ := hprompt
  have after : ∀ (r : GeminiResponse) (m : String) (calls : List Call),
      (∀ c ∈ calls, isModelCall c = true) →
      (catchAs "Failed to generate suggestion: " CACHE
          (suggestAfterModel B CACHE prefs r omdbFetch explainFetch m calls)).calls.takeWhile
          isModelCall = calls ∧
      ∀ e d, (catchAs "Failed to generate suggestion: " CACHE
          (suggestAfterModel B CACHE prefs r omdbFetch explainFetch m calls)).body
        ≠ .errorDetails e d := by
    intro r m calls hcalls
    have hc := suggestAfterModel_stage B CACHE prefs r omdbFetch explainFetch m calls hcalls
    have hb := suggestAfterModel_body B CACHE prefs r omdbFetch explainFetch m calls
    cases hres : (suggestAfterModel B CACHE prefs r omdbFetch explainFetch m calls).result with
    | error e => simp [catchAs, hres, hc]
    | ok t =>
      obtain ⟨st, bd, ch⟩ := t
      have := hb st bd ch hres
      simp [catchAs, hres, hc, this]
  have failed : ∀ (r : GeminiResponse) (calls : List Call), r.ok = false →
      (catchAs "Failed to generate suggestion: " CACHE
        (match r.text with
          | .error e => (⟨.error e, calls⟩ : Attempt)
          | .ok errorText => ⟨.ok (500, geminiError r.status errorText, CACHE), calls⟩)).calls
        = calls ∧
      (catchAs "Failed to generate suggestion: " CACHE
        (match r.text with
          | .error e => (⟨.error e, calls⟩ : Attempt)
          | .ok errorText => ⟨.ok (500, geminiError r.status errorText, CACHE), calls⟩)).status
        = 500 ∧
      (∀ errorText, r.text = .ok errorText →
        (catchAs "Failed to generate suggestion: " CACHE
          (match r.text with
            | .error e => (⟨.error e, calls⟩ : Attempt)
            | .ok errorText => ⟨.ok (500, geminiError r.status errorText, CACHE), calls⟩)).body
          = geminiError r.status errorText) ∧
      (∀ err, r.text = .error err →
        (catchAs "Failed to generate suggestion: " CACHE
          (match r.text with
            | .error e => (⟨.error e, calls⟩ : Attempt)
            | .ok errorText => ⟨.ok (500, geminiError r.status errorText, CACHE), calls⟩)).body
          = .error ("Failed to generate suggestion: " ++ err.message)) := by
    intro r calls _
    cases ht : r.text with
    | error e => simp [catchAs]
    | ok t => simp [catchAs]
  refine ⟨fun h1 => ?_, fun h1 hm => ?_,
    fun h1 hm => ⟨?_, fun second hsecond => ⟨fun h2 => ?_, fun h2 => ?_⟩⟩⟩
  · have := after first (geminiModel env) [Call.gemini (geminiModel env)]
      (by simp [isModelCall])
    simpa [suggest, suggestTry, hcred, hl, modelAttempts, hfirst, h1] using this
  · have hfirst2 : geminiFetch stableModel = .ok first := hm ▸ hfirst
    have := failed first [Call.gemini stableModel] h1
    simpa [suggest, suggestTry, hcred, hl, modelAttempts, hfirst2, h1, hm] using this
  · cases hsecond : geminiFetch stableModel with
    | error e =>
      simp [suggest, suggestTry, hcred, hl, modelAttempts, hfirst, h1, hm, hsecond, catchAs,
        isModelCall]
    | ok second =>
      by_cases h2 : second.ok = true
      · have := (after second stableModel
          [Call.gemini (geminiModel env), Call.gemini stableModel] (by simp [isModelCall])).1
        simpa [suggest, suggestTry, hcred, hl, modelAttempts, hfirst, h1, hm, hsecond, h2]
          using this
      · have h2f : second.ok = false := by simpa using h2
        have := (failed second [Call.gemini (geminiModel env), Call.gemini stableModel] h2f).1
        have hcalls : (suggest env B CACHE prefs sampleMovies geminiFetch omdbFetch
            explainFetch).calls = [Call.gemini (geminiModel env), Call.gemini stableModel] := by
          simpa [suggest, suggestTry, hcred, hl, modelAttempts, hfirst, h1, hm, hsecond, h2f]
            using this
        rw [hcalls]
        simp [isModelCall]
  · have := failed second [Call.gemini (geminiModel env), Call.gemini stableModel] h2
    simpa [suggest, suggestTry, hcred, hl, modelAttempts, hfirst, h1, hm, hsecond, h2] using this
  · have := (after second stableModel [Call.gemini (geminiModel env), Call.gemini stableModel]
      (by simp [isModelCall])).2
    simpa [suggest, suggestTry, hcred, hl, modelAttempts, hfirst, h1, hm, hsecond, h2] using this

/-- Witness of C3 amended: the default model answers 404 and the fallback
model answers with a title; and the default model and the fallback model both
answer 404 with a body that cannot be read. -/
theorem suggest_model_fallback_witness :
    credentialMissing sampleEnv.GEMINI_API_KEY "your_gemini_key_here" = false ∧
    fallbackFetch (geminiModel sampleEnv) = .ok (geminiFail 404) ∧
    (suggest sampleEnv sampleBuiltins emptyCache (.str "heist") .absent fallbackFetch
        (fun _ _ => .body (some omdbNotFound)) (.ok (geminiOk "A great match."))).calls.takeWhile
      isModelCall = [Call.gemini (geminiModel sampleEnv), Call.gemini stableModel] ∧
    (suggest sampleEnv sampleBuiltins emptyCache (.str "heist") .absent
        (fun _ => .ok (geminiAborted 404))
        (fun _ _ => .body (some omdbNotFound)) (.ok (geminiOk "A great match."))).body
      = .error ("Failed to generate suggestion: " ++ "terminated") :=
  ⟨by decide, rfl,
    ((suggest_model_fallback sampleEnv sampleBuiltins emptyCache (.str "heist") .absent
      fallbackFetch (fun _ _ => .body (some omdbNotFound)) (.ok (geminiOk "A great match."))
      (geminiFail 404) (by decide) ⟨_, rfl⟩ rfl).2.2 (by decide) (by decide)).1,
    ((((suggest_model_fallback sampleEnv sampleBuiltins emptyCache (.str "heist") .absent
      (fun _ => .ok (geminiAborted 404)) (fun _ _ => .body (some omdbNotFound))
      (.ok (geminiOk "A great match."))
      (geminiAborted 404) (by decide) ⟨_, rfl⟩ rfl).2.2 (by decide) (by decide)).2
        (geminiAborted 404) rfl).1 rfl).2.2.2 ⟨"TypeError", "terminated"⟩ rfl⟩

/-- C4, as stated, fails: the model's text `"  Inception (2010)"` (two
leading spaces) is answered with a text suggestion that does not contain it. -/
theorem suggest_text_not_verbatim :
    ∃ s, untrimmedRun.body = .textSuggestion s ∧ ¬ ("  Inception (2010)".data <:+: s.data) :=
  ⟨"I recommend: Inception (2010)\n\nThis movie matches your preferences: \"heist\"",
    by decide!, by decide!⟩

/-- C4, amended: when the last model request succeeds with text `R` and the
catalog by-title lookup answers `Response === 'False'`, the answer is a success
(status 200) `{suggestion, movieData: null}` whose suggestion contains
`R.trim()` verbatim, and the requests issued are those to the model followed by
the catalog lookup, with no model request after it. -/
theorem suggest_unresolved_text (env : Env) (B : Builtins) (CACHE : Cache Payload)
    (prefs : JsVal) (sampleMovies : SampleMovies)
    (geminiFetch : String → Except JsError GeminiResponse)
    (omdbFetch : String → String → Fetched (Option OmdbData))
    (explainFetch : Except JsError GeminiResponse)
    (geminiResponse : GeminiResponse) (model : String) (calls : List Call) (R : String)
    (omdbData : OmdbData)
    (hcred : credentialMissing env.GEMINI_API_KEY "your_gemini_key_here" = false)
    (hprompt : ∃ l, movieList B sampleMovies = .ok l)
    (hmodel : modelAttempts env geminiFetch = (.ok (geminiResponse, model), calls))
    (hok : geminiResponse.ok = true)
    (htext : geminiResponse.json = .ok (.str R))
    (hlookup : omdbFetch (suggestedTitle (trim R)) (suggestedYear (trim R))
      = .body (some omdbData))
    (hnotfound : omdbData.Response = .str "False") :
    (suggest env B CACHE prefs sampleMovies geminiFetch omdbFetch explainFetch).status = 200 ∧
    (∃ s, (suggest env B CACHE prefs sampleMovies geminiFetch omdbFetch explainFetch).body
        = .textSuggestion s ∧ (trim R).data <:+: s.data) ∧
    (suggest env B CACHE prefs sampleMovies geminiFetch omdbFetch explainFetch).calls
      = calls ++ [Call.omdbTitle (suggestedTitle (trim R)) (suggestedYear (trim R))] ∧
    (suggest env B CACHE prefs sampleMovies geminiFetch omdbFetch explainFetch).calls.filter
      isModelCall = calls.filter isModelCall := by
  obtain ⟨l, hl⟩ := hprompt
  have hrun : suggestTry env B CACHE prefs sampleMovies geminiFetch omdbFetch explainFetch
      = ⟨.ok (200, .textSuggestion ("I recommend: " ++ trim R
          ++ "\n\nThis movie matches your preferences: \"" ++ B.toStr prefs ++ "\""), CACHE),
        calls ++ [Call.omdbTitle (suggestedTitle (trim R)) (suggestedYear (trim R))]⟩ := by
    simp [suggestTry, hcred, hl, hmodel, hok, suggestAfterModel, htext, firstText, hlookup,
      hnotfound]
  refine ⟨by simp [suggest, hrun, catchAs],
    ⟨"I recommend: " ++ trim R ++ "\n\nThis movie matches your preferences: \""
      ++ B.toStr prefs ++ "\"", by simp [suggest, hrun, catchAs], ?_⟩,
    by simp [suggest, hrun, catchAs], by simp [suggest, hrun, catchAs, isModelCall]⟩
  exact ⟨"I recommend: ".data,
    ("\n\nThis movie matches your preferences: \"" ++ B.toStr prefs ++ "\"").data,
    by simp [String.data_append]⟩

/-- Witness of C4 amended: the run on the text `"  Inception (2010)"`. -/
theorem suggest_unresolved_text_witness :
    modelAttempts sampleEnv (fun _ => .ok (geminiOk "  Inception (2010)"))
      = (.ok (geminiOk "  Inception (2010)", "gemini-2.0-flash-exp"),
          [Call.gemini "gemini-2.0-flash-exp"]) ∧
    omdbNotFound.Response = .str "False" ∧
    untrimmedRun.status = 200 ∧
    untrimmedRun.calls
      = [Call.gemini "gemini-2.0-flash-exp"]
        ++ [Call.omdbTitle (suggestedTitle (trim "  Inception (2010)"))
            (suggestedYear (trim "  Inception (2010)"))] :=
  have h := suggest_unresolved_text sampleEnv sampleBuiltins emptyCache (.str "heist") .absent
    (fun _ => .ok (geminiOk "  Inception (2010)")) (fun _ _ => .body (some omdbNotFound))
    (.ok (geminiOk "A great match.")) (geminiOk "  Inception (2010)") "gemini-2.0-flash-exp"
    [Call.gemini "gemini-2.0-flash-exp"] "  Inception (2010)" omdbNotFound
    (by decide) ⟨_, rfl⟩ rfl rfl rfl rfl rfl
  ⟨rfl, rfl, h.1, h.2.2.1⟩

/-! ### Numbers and sorting -/

theorem jsLe_trans {a b c : JsNum} (hab : JsNum.le a b = true) (hbc : JsNum.le b c = true) :
    JsNum.le a c = true := by
  cases a <;> cases b <;> cases c <;> simp_all [JsNum.le]
  exact le_trans hab hbc

theorem jsLe_of_not_positive {a b : JsNum} (ha : a ≠ .nan) (hb : b ≠ .nan)
    (h : (JsNum.sub b a).positive = false) : JsNum.le b a = true := by
  cases a <;> cases b <;> simp_all [JsNum.le, JsNum.sub, JsNum.positive]

theorem jsLe_of_positive {a b : JsNum} (h : (JsNum.sub b a).positive = true) :
    JsNum.le a b = true := by
  cases a <;> cases b <;> simp_all [JsNum.le, JsNum.sub, JsNum.positive]
  exact le_of_lt h

theorem jsLe_ne_nan {a b : JsNum} (h : JsNum.le a b = true) : b ≠ .nan := by
  cases a <;> cases b <;> simp_all [JsNum.le]

theorem jsSort_perm {α : Type} (comparefn : α → α → JsNum) (l : List α) :
    (jsSort comparefn l).Perm l := by
  induction l with
  | nil => exact List.Perm.refl _
  | cons x xs ih =>
    exact (List.perm_orderedInsert _ x (jsSort comparefn xs)).trans (List.Perm.cons x ih)

theorem orderedInsert_byRating (x : FilterMovie) (l : List FilterMovie)
    (hx : x.rating ≠ .nan) (hl : ∀ y ∈ l, y.rating ≠ .nan)
    (hs : l.Pairwise (fun a b => JsNum.le b.rating a.rating = true)) :
    (List.orderedInsert (fun a b => (byRatingDesc a b).positive = false) x l).Pairwise
      (fun a b => JsNum.le b.rating a.rating = true) := by
  induction l with
  | nil => simp
  | cons y ys ih =>
    have hy : y.rating ≠ .nan := hl y (List.mem_cons_self _ _)
    have hys : ∀ z ∈ ys, z.rating ≠ .nan := fun z hz => hl z (List.mem_cons_of_mem _ hz)
    obtain ⟨hyz, hsys⟩ := List.pairwise_cons.mp hs
    by_cases hxy : (byRatingDesc x y).positive = false
    · have hle : JsNum.le y.rating x.rating = true := jsLe_of_not_positive hx hy hxy
      rw [List.orderedInsert, if_pos hxy]
      refine List.pairwise_cons.mpr ⟨fun z hz => ?_, hs⟩
      rcases List.mem_cons.mp hz with rfl | hz
      · exact hle
      · exact jsLe_trans (hyz z hz) hle
    · have hpos : (byRatingDesc x y).positive = true := by simpa using hxy
      have hle : JsNum.le x.rating y.rating = true := jsLe_of_positive hpos
      rw [List.orderedInsert, if_neg hxy]
      refine List.pairwise_cons.mpr ⟨fun z hz => ?_, ih hys hsys⟩
      rcases (List.mem_orderedInsert _).mp hz with rfl | hz
      · exact hle
      · exact hyz z hz

theorem jsSort_byRating_sorted (l : List FilterMovie) (hl : ∀ y ∈ l, y.rating ≠ .nan) :
    (jsSort byRatingDesc l).Pairwise (fun a b => JsNum.le b.rating a.rating = true) := by
  induction l with
  | nil => simp [jsSort]
  | cons x xs ih =>
    have hxs : ∀ y ∈ xs, y.rating ≠ .nan := fun y hy => hl y (List.mem_cons_of_mem _ hy)
    refine orderedInsert_byRating x _ (hl x (List.mem_cons_self _ _)) (fun y hy => ?_) (ih hxs)
    exact hxs y ((jsSort_perm byRatingDesc xs).mem_iff.mp hy)

/-! ### The genre filter -/

theorem lookupRecord_floor (B : Builtins) (a : Fetched (Option OmdbData)) (r : FilterMovie)
    (h : lookupRecord B a = some r) :
    JsNum.le (.fin 7) r.rating = true ∧ hasPoster r.poster_path = true := by
  cases a with
  | fetchRejects e => simp [lookupRecord] at h
  | jsonRejects e => simp [lookupRecord] at h
  | body d =>
    cases d with
    | none => simp [lookupRecord] at h
    | some data =>
      simp only [lookupRecord] at h
      split at h
      · rename_i h1
        split at h
        · rename_i h2
          simp only [Option.some.injEq] at h
          subst h
          simp only [Bool.and_eq_true, decide_eq_true_eq] at h1 h2
          exact ⟨h2.2, h1.2⟩
        · simp at h
      · simp at h

theorem filterResponse_mem (B : Builtins)
    (lookup : Nat → String → String → Fetched (Option OmdbData)) (aiResponse : String)
    (r : FilterMovie) (h : r ∈ (filterResponse B lookup aiResponse).results) :
    ∃ a, lookupRecord B a = some r := by
  have h1 := (jsSort_perm byRatingDesc _).mem_iff.mp h
  simp only [List.mem_filterMap, List.mem_map, id] at h1
  obtain ⟨o, ⟨p, _, hp⟩, ho⟩ := h1
  subst ho
  simp only [moviePromise] at hp
  split at hp
  · simp at hp
  · exact ⟨_, hp⟩

theorem filter_fresh (env : Env) (B : Builtins) (now done : Int) (CACHE : Cache Payload)
    (genre page0 : JsVal) (geminiFetch : String → Except JsError GeminiResponse)
    (lookup : Nat → String → String → Fetched (Option OmdbData)) (q : Payload)
    (hmiss : getCached CACHE now (filterKey B genre (orDefault page0 (.num (.fin 1)))) = none)
    (hbody : (filter env B now done CACHE genre page0 geminiFetch lookup).body = .payload q) :
    ∃ resp text aiResponse, geminiFetch (geminiModel env) = .ok resp ∧ resp.ok = true ∧
      resp.json = .ok text ∧ firstText text = .ok aiResponse ∧
      q = .filter (filterResponse B lookup aiResponse) := by
  simp only [filter, filterTry, hmiss] at hbody
  by_cases hcred : credentialMissing env.GEMINI_API_KEY "your_gemini_key_here" = true
  · simp [hcred, catchAs] at hbody
  · cases hf : geminiFetch (geminiModel env) with
    | error e => simp [hcred, hf, catchAs] at hbody
    | ok resp =>
      cases hok : resp.ok with
      | false => simp [hcred, hf, hok, catchAs] at hbody
      | true =>
        cases hj : resp.json with
        | error e => simp [hcred, hf, hok, hj, catchAs] at hbody
        | ok text =>
          cases ht : firstText text with
          | error e => simp [hcred, hf, hok, hj, ht, catchAs] at hbody
          | ok aiResponse =>
            simp [hcred, hf, hok, hj, ht, catchAs] at hbody
            exact ⟨resp, text, aiResponse, rfl, hok, hj, ht, hbody.symm⟩

/-- C5: each record in the results of a freshly computed `/api/filter` response
has a numeric rating of at least 7.0, and the results are sorted in
non-increasing order of rating. -/
theorem filter_floor_sorted (env : Env) (B : Builtins) (now done : Int) (CACHE : Cache Payload)
    (genre page0 : JsVal) (geminiFetch : String → Except JsError GeminiResponse)
    (lookup : Nat → String → String → Fetched (Option OmdbData)) (p : FilterResult)
    (hmiss : getCached CACHE now (filterKey B genre (orDefault page0 (.num (.fin 1)))) = none)
    (hbody : (filter env B now done CACHE genre page0 geminiFetch lookup).body
      = .payload (.filter p)) :
    (∀ r ∈ p.results, JsNum.le (.fin 7) r.rating = true) ∧
    p.results.Pairwise (fun a b => JsNum.le b.rating a.rating = true) := by
  obtain ⟨resp, text, aiResponse, _, _, _, _, hq⟩ :=
    filter_fresh env B now done CACHE genre page0 geminiFetch lookup _ hmiss hbody
  have hp : p = filterResponse B lookup aiResponse := by simpa using hq
  subst hp
  have hfloor : ∀ r ∈ (filterResponse B lookup aiResponse).results,
      JsNum.le (.fin 7) r.rating = true := by
    intro r hr
    obtain ⟨a, ha⟩ := filterResponse_mem B lookup aiResponse r hr
    exact (lookupRecord_floor B a r ha).1
  refine ⟨hfloor, ?_⟩
  refine jsSort_byRating_sorted _ (fun y hy => ?_)
  exact jsLe_ne_nan (hfloor y ((jsSort_perm byRatingDesc _).mem_iff.mpr hy))

/-- Witness of C5: the sample run answers two records, rated 8.8 and 8.1. -/
theorem filter_floor_sorted_witness :
    getCached (emptyCache : Cache Payload) 1000
      (filterKey sampleBuiltins (.str "thriller") (orDefault .undefined (.num (.fin 1)))) = none ∧
    filterRun.body = .payload (.filter ⟨filterRunResults, 2⟩) ∧
    (∀ r ∈ filterRunResults, JsNum.le (.fin 7) r.rating = true) ∧
    filterRunResults.Pairwise (fun a b => JsNum.le b.rating a.rating = true) :=
  ⟨rfl, by decide!,
    filter_floor_sorted sampleEnv sampleBuiltins 1000 2000 emptyCache (.str "thriller") .undefined
      (fun _ => .ok (geminiOk "1. Inception (2010)\nThe Room (2003)\n\nParasite (2019)\nEnjoy!"))
      sampleLookup ⟨filterRunResults, 2⟩ rfl (by decide!)⟩

theorem moviePromise_eq_survivorOf (B : Builtins)
    (lookup : Nat → String → String → Fetched (Option OmdbData)) (i : Nat) (line : String) :
    moviePromise B lookup i line = survivorOf B lookup i line := by
  unfold moviePromise survivorOf
  cases parseLine line with
  | none => rfl
  | some ty =>
    obtain ⟨title, year⟩ := ty
    simp only []
    cases lookup i title year with
    | fetchRejects e => rfl
    | jsonRejects e => rfl
    | body d =>
      cases d with
      | none => rfl
      | some data =>
        simp only [lookupRecord, hasPoster]
        by_cases h1 : data.Response = .str "True" <;>
        by_cases h2 : data.Poster.truthy = true <;>
        by_cases h3 : data.Poster = .str "N/A" <;>
        by_cases h4 : B.parseFloat data.imdbRating = .nan <;>
        by_cases h5 : JsNum.le (.fin 7) (B.parseFloat data.imdbRating) = true <;>
        by_cases h6 : data.Plot = .str "N/A" <;>
        simp [h1, h2, h3, h4, h5, h6, isNaN]

theorem filterResponse_results (B : Builtins)
    (lookup : Nat → String → String → Fetched (Option OmdbData)) (aiResponse : String) :
    (filterResponse B lookup aiResponse).results
      = jsSort byRatingDesc (survivors B lookup (movieLines aiResponse)) := by
  simp only [filterResponse, survivors, List.filterMap_map]
  congr 1
  refine List.filterMap_congr (fun p _ => ?_)
  simp [moviePromise_eq_survivorOf]

/-- C6: when the model's request succeeds with text `aiResponse`, the freshly
computed `/api/filter` response is a success whose results are, up to order,
exactly the records of the parsed candidate lines whose catalog lookup
succeeded with `Response` `'True'`, a poster present and not `'N/A'`, and a
parseable rating of at least 7.0, one record per such line and none dropped;
`total_results` is their number. In particular twelve well-formed lines of
which exactly five resolve to such entries give exactly five results. -/
theorem filter_results_exact (env : Env) (B : Builtins) (now done : Int) (CACHE : Cache Payload)
    (genre page0 : JsVal) (geminiFetch : String → Except JsError GeminiResponse)
    (lookup : Nat → String → String → Fetched (Option OmdbData))
    (resp : GeminiResponse) (text : JsVal) (aiResponse : String)
    (hmiss : getCached CACHE now (filterKey B genre (orDefault page0 (.num (.fin 1)))) = none)
    (hcred : credentialMissing env.GEMINI_API_KEY "your_gemini_key_here" = false)
    (hfetch : geminiFetch (geminiModel env) = .ok resp) (hok : resp.ok = true)
    (hjson : resp.json = .ok text) (htext : firstText text = .ok aiResponse) :
    ∃ p : FilterResult,
      (filter env B now done CACHE genre page0 geminiFetch lookup).status = 200 ∧
      (filter env B now done CACHE genre page0 geminiFetch lookup).body = .payload (.filter p) ∧
      p.results.Perm (survivors B lookup (movieLines aiResponse)) ∧
      p.total_results = survivorCount B lookup (movieLines aiResponse) ∧
      p.results.length = survivorCount B lookup (movieLines aiResponse) ∧
      ((movieLines aiResponse).length = 12 →
        (∀ line ∈ movieLines aiResponse, (parseLine line).isSome = true) →
        survivorCount B lookup (movieLines aiResponse) = 5 → p.results.length = 5) := by
  have hperm : (filterResponse B lookup aiResponse).results.Perm
      (survivors B lookup (movieLines aiResponse)) := by
    rw [filterResponse_results]
    exact jsSort_perm _ _
  have hlen : (filterResponse B lookup aiResponse).results.length
      = survivorCount B lookup (movieLines aiResponse) := by
    rw [hperm.length_eq, survivors, survivorCount, List.length_filterMap_eq_countP]
  refine ⟨filterResponse B lookup aiResponse, ?_, ?_, hperm, ?_, hlen, fun _ _ h5 => ?_⟩
  · simp [filter, filterTry, hmiss, hcred, hfetch, hok, hjson, htext, catchAs]
  · simp [filter, filterTry, hmiss, hcred, hfetch, hok, hjson, htext, catchAs]
  · rw [← hlen]
    rfl
  · rw [hlen, h5]

/-- Witness of C6: twelve well-formed lines of which five resolve. -/
theorem filter_results_exact_witness :
    (movieLines twelveLines).length = 12 ∧
    (∀ line ∈ movieLines twelveLines, (parseLine line).isSome = true) ∧
    survivorCount sampleBuiltins twelveLookup (movieLines twelveLines) = 5 ∧
    ∃ p : FilterResult,
      (filter sampleEnv sampleBuiltins 1000 2000 emptyCache (.str "horror") (.num (.fin 1))
        (fun _ => .ok (geminiOk twelveLines)) twelveLookup).body = .payload (.filter p) ∧
      p.results.length = 5 := by
  have h12 : (movieLines twelveLines).length = 12 := by decide!
  have hall : ∀ line ∈ movieLines twelveLines, (parseLine line).isSome = true := by decide!
  have h5 : survivorCount sampleBuiltins twelveLookup (movieLines twelveLines) = 5 := by decide!
  obtain ⟨p, _, hb, _, _, _, hscen⟩ :=
    filter_results_exact sampleEnv sampleBuiltins 1000 2000 emptyCache (.str "horror")
      (.num (.fin 1)) (fun _ => .ok (geminiOk twelveLines)) twelveLookup
      (geminiOk twelveLines) (.str twelveLines) twelveLines rfl (by decide) rfl rfl rfl
      (congrArg Except.ok (by decide! : trim twelveLines = twelveLines))
  exact ⟨h12, hall, h5, p, hb, hscen h12 hall h5⟩

/-! ### The trending listing -/

theorem mapSet_mem {α : Type} (m : List (JsVal × α)) (k : JsVal) (v : α) (x : JsVal × α)
    (hx : x ∈ mapSet m k v) : x = (k, v) ∨ x ∈ m := by
  induction m with
  | nil => simpa [mapSet] using hx
  | cons y rest ih =>
    obtain ⟨k1, v1⟩ := y
    by_cases hk : k1 = k
    · simp only [mapSet, if_pos hk, List.mem_cons] at hx
      rcases hx with rfl | hx
      · exact Or.inl (by rw [hk])
      · exact Or.inr (List.mem_cons_of_mem _ hx)
    · simp only [mapSet, if_neg hk, List.mem_cons] at hx
      rcases hx with rfl | hx
      · exact Or.inr (List.mem_cons_self _ _)
      · rcases ih hx with h | h
        · exact Or.inl h
        · exact Or.inr (List.mem_cons_of_mem _ h)

theorem mapSet_key_mem {α : Type} (m : List (JsVal × α)) (k : JsVal) (v : α) (k2 : JsVal)
    (hx : k2 ∈ (mapSet m k v).map Prod.fst) : k2 = k ∨ k2 ∈ m.map Prod.fst := by
  obtain ⟨x, hx1, rfl⟩ := List.mem_map.mp hx
  rcases mapSet_mem m k v x hx1 with h | h
  · exact Or.inl (by rw [h])
  · exact Or.inr (List.mem_map.mpr ⟨x, h, rfl⟩)

theorem mapSet_nodup {α : Type} (m : List (JsVal × α)) (k : JsVal) (v : α)
    (hm : (m.map Prod.fst).Nodup) : ((mapSet m k v).map Prod.fst).Nodup := by
  induction m with
  | nil => simp [mapSet]
  | cons y rest ih =>
    obtain ⟨k1, v1⟩ := y
    simp only [List.map_cons, List.nodup_cons] at hm
    by_cases hk : k1 = k
    · simp only [mapSet, if_pos hk, List.map_cons, List.nodup_cons]
      exact hm
    · simp only [mapSet, if_neg hk, List.map_cons, List.nodup_cons]
      refine ⟨fun hmem => ?_, ih hm.2⟩
      rcases mapSet_key_mem rest k v k1 hmem with h | h
      · exact hk h
      · exact hm.1 h

theorem foldl_mapSet_nodup {α : Type} (pairs acc : List (JsVal × α))
    (hacc : (acc.map Prod.fst).Nodup) :
    ((pairs.foldl (fun m p => mapSet m p.1 p.2) acc).map Prod.fst).Nodup := by
  induction pairs generalizing acc with
  | nil => exact hacc
  | cons p rest ih => exact ih _ (mapSet_nodup acc p.1 p.2 hacc)

theorem foldl_mapSet_mem {α : Type} (pairs acc : List (JsVal × α)) (x : JsVal × α)
    (hx : x ∈ pairs.foldl (fun m p => mapSet m p.1 p.2) acc) : x ∈ acc ∨ x ∈ pairs := by
  induction pairs generalizing acc with
  | nil => exact Or.inl hx
  | cons p rest ih =>
    rcases ih _ hx with h | h
    · rcases mapSet_mem acc p.1 p.2 x h with h2 | h2
      · exact Or.inr (by rw [h2]; exact List.mem_cons_self _ _)
      · exact Or.inl h2
    · exact Or.inr (List.mem_cons_of_mem _ h)

theorem newMap_nodup {α : Type} (pairs : List (JsVal × α)) :
    ((newMap pairs).map Prod.fst).Nodup :=
  foldl_mapSet_nodup pairs [] (by simp)

theorem newMap_mem {α : Type} (pairs : List (JsVal × α)) (x : JsVal × α)
    (hx : x ∈ newMap pairs) : x ∈ pairs := by
  rcases foldl_mapSet_mem pairs [] x hx with h | h
  · simp at h
  · exact h

theorem keyedById_mem (allMovies : List (Option RawMovie)) (pairs : List (JsVal × RawMovie))
    (h : keyedById allMovies = .ok pairs) (x : JsVal × RawMovie) (hx : x ∈ pairs) :
    x.1 = x.2.imdbID ∧ some x.2 ∈ allMovies := by
  induction allMovies generalizing pairs with
  | nil =>
    simp only [keyedById, Except.ok.injEq] at h
    subst h
    simp at hx
  | cons e rest ih =>
    cases e with
    | none => simp [keyedById] at h
    | some m =>
      cases hr : keyedById rest with
      | error err => simp [keyedById, hr] at h
      | ok ps =>
        simp only [keyedById, hr, Except.ok.injEq] at h
        subst h
        rcases List.mem_cons.mp hx with rfl | hx
        · exact ⟨rfl, List.mem_cons_self _ _⟩
        · obtain ⟨h1, h2⟩ := ih ps hr hx
          exact ⟨h1, List.mem_cons_of_mem _ h2⟩

theorem trendingNormalized_spec (shuffle : List RawMovie → List RawMovie)
    (hshuffle : ∀ l, (shuffle l).Perm l) (allMovies : List (Option RawMovie))
    (p : TrendingResult) (h : trendingNormalized shuffle allMovies = .ok p) :
    (p.results.map Movie.id).Nodup ∧
    (∀ r ∈ p.results, ∃ m, some m ∈ allMovies ∧ hasPoster m.Poster = true ∧ r = normalize m) ∧
    p.results.length ≤ 72 ∧ p.total_results = p.results.length := by
  cases hk : keyedById allMovies with
  | error e => simp [trendingNormalized, hk] at h
  | ok pairs =>
    simp only [trendingNormalized, hk, Except.ok.injEq] at h
    subst h
    have hkeys : (mapValues (newMap pairs)).map RawMovie.imdbID = (newMap pairs).map Prod.fst := by
      simp only [mapValues, List.map_map]
      refine List.map_congr_left (fun x hx => ?_)
      exact ((keyedById_mem allMovies pairs hk x (newMap_mem pairs x hx)).1).symm
    have hnodup : ((mapValues (newMap pairs)).map RawMovie.imdbID).Nodup := by
      rw [hkeys]
      exact newMap_nodup pairs
    have hfilter : (((mapValues (newMap pairs)).filter
        (fun movie => hasPoster movie.Poster)).map RawMovie.imdbID).Nodup :=
      hnodup.sublist ((List.filter_sublist _).map _)
    have hshuf : ((shuffle ((mapValues (newMap pairs)).filter
        (fun movie => hasPoster movie.Poster))).map RawMovie.imdbID).Nodup :=
      ((hshuffle _).map _).nodup_iff.mpr hfilter
    refine ⟨?_, ?_, ?_, ?_⟩
    · have hid : (fun m : RawMovie => (normalize m).id) = RawMovie.imdbID := rfl
      simp only [List.map_map, Function.comp_def, hid]
      exact hshuf.sublist ((List.take_sublist _ _).map _)
    · intro r hr
      obtain ⟨m, hm, rfl⟩ := List.mem_map.mp hr
      have hm1 := (hshuffle _).mem_iff.mp (List.mem_of_mem_take hm)
      obtain ⟨hm2, hposter⟩ := List.mem_filter.mp hm1
      obtain ⟨x, hx, rfl⟩ := List.mem_map.mp hm2
      exact ⟨x.2, (keyedById_mem allMovies pairs hk x (newMap_mem pairs x hx)).2, hposter, rfl⟩
    · simp only [List.length_map, List.length_take]
      exact Nat.min_le_left _ _
    · simp

theorem trendingLoop_mem (fetchSearch : String → Fetched (Option SearchData))
    (Q : Option RawMovie → Prop) (terms : List String)
    (hQ : ∀ term ∈ terms, ∀ data xs, fetchSearch term = .body (some data) →
      data.Response = .str "True" → data.Search = .array xs → ∀ e ∈ xs.take 4, Q e)
    (hprim : Q (some primitiveEntry))
    (allMovies : List (Option RawMovie)) (calls : List Call)
    (out : List (Option RawMovie)) (calls2 : List Call)
    (h : trendingLoop fetchSearch terms allMovies calls = (.ok out, calls2))
    (hacc : ∀ e ∈ allMovies, Q e) : ∀ e ∈ out, Q e := by
  induction terms generalizing allMovies calls with
  | nil =>
    simp only [trendingLoop, Prod.mk.injEq, Except.ok.injEq] at h
    rw [← h.1]
    exact hacc
  | cons term rest ih =>
    have hrest : ∀ t ∈ rest, ∀ data xs, fetchSearch t = .body (some data) →
        data.Response = .str "True" → data.Search = .array xs → ∀ e ∈ xs.take 4, Q e :=
      fun t ht => hQ t (List.mem_cons_of_mem _ ht)
    cases hf : fetchSearch term with
    | fetchRejects e => simp [trendingLoop, hf] at h
    | jsonRejects e => simp [trendingLoop, hf] at h
    | body d =>
      cases d with
      | none => simp [trendingLoop, hf] at h
      | some data =>
        simp only [trendingLoop, hf] at h
        split at h
        · rename_i hcond
          simp only [Bool.and_eq_true, decide_eq_true_eq] at hcond
          cases hs : data.Search with
          | array xs =>
            simp only [hs, sliceTop4] at h
            refine ih hrest _ _ h (fun e he => ?_)
            rcases List.mem_append.mp he with he | he
            · exact hacc e he
            · exact hQ term (List.mem_cons_self _ _) data xs hf hcond.1 hs e he
          | value v =>
            cases v with
            | str t =>
              simp only [hs, sliceTop4] at h
              refine ih hrest _ _ h (fun e he => ?_)
              rcases List.mem_append.mp he with he | he
              · exact hacc e he
              · obtain ⟨_, _, rfl⟩ := List.mem_map.mp he
                exact hprim
            | undefined => simp [hs, sliceTop4] at h
            | null => simp [hs, sliceTop4] at h
            | bool b => simp [hs, sliceTop4] at h
            | num n => simp [hs, sliceTop4] at h
            | obj r => simp [hs, sliceTop4] at h
        · exact ih hrest _ _ h hacc

theorem trending_fresh (env : Env) (now done : Int) (CACHE : Cache Payload)
    (fetchSearch : String → Fetched (Option SearchData))
    (shuffle : List RawMovie → List RawMovie) (q : Payload)
    (hmiss : getCached CACHE now trendingKey = none)
    (hbody : (trending env now done CACHE fetchSearch shuffle).body = .payload q) :
    ∃ allMovies calls p, trendingLoop fetchSearch popularSearches [] [] = (.ok allMovies, calls) ∧
      trendingNormalized shuffle allMovies = .ok p ∧ q = .trending p ∧
      (trending env now done CACHE fetchSearch shuffle).cache
        = setCache CACHE done trendingKey (.trending p) := by
  simp only [trending, trendingTry, hmiss] at hbody ⊢
  by_cases hcred : credentialMissing env.OMDB_API_KEY "your_omdb_api_key_here" = true
  · simp [hcred, catchAs] at hbody
  · cases hl : trendingLoop fetchSearch popularSearches [] [] with
    | mk res calls =>
      cases res with
      | error e => simp [hcred, hl, catchAs] at hbody
      | ok allMovies =>
        cases hn : trendingNormalized shuffle allMovies with
        | error e => simp [hcred, hl, hn, catchAs] at hbody
        | ok p =>
          simp [hcred, hl, hn, catchAs] at hbody
          exact ⟨allMovies, calls, p, rfl, hn, hbody.symm, by simp [hcred, hn, catchAs]⟩

theorem getCached_earlier {α : Type} (CACHE : Cache α) (now t : Int) (key : String) (v : α)
    (ht : now ≤ t) (h : getCached CACHE t key = some v) : getCached CACHE now key = some v := by
  unfold getCached at h ⊢
  cases hc : CACHE key with
  | none => simp [hc] at h
  | some hit =>
    simp only [hc] at h ⊢
    split at h
    · rename_i hlt
      have : now - hit.t < TTL := by omega
      simpa [this] using h
    · simp at h

theorem hasPoster_iff (v : JsVal) :
    hasPoster v = true ↔ v.truthy = true ∧ v ≠ .str "N/A" := by
  simp [hasPoster]

/-- C7: no two records in the results of a `/api/trending` response have the
same id. A fresh response satisfies it for every collection of upstream
answers; a cached response is a payload found under the trending key, where
only this handler stores (`search_keeps_trending`, `filter_keeps_trending`,
`suggest_keeps_cache`), and every run leaves under that key a payload with the
property, for every later read of the cache. -/
theorem trending_ids_distinct (env : Env) (now done : Int) (CACHE : Cache Payload)
    (fetchSearch : String → Fetched (Option SearchData))
    (shuffle : List RawMovie → List RawMovie)
    (hshuffle : ∀ l, (shuffle l).Perm l)
    (hcache : ∀ q, getCached CACHE now trendingKey = some (.trending q) →
      (q.results.map Movie.id).Nodup) :
    (∀ p, (trending env now done CACHE fetchSearch shuffle).body = .payload (.trending p) →
      (p.results.map Movie.id).Nodup) ∧
    (∀ t q, now ≤ t →
      getCached (trending env now done CACHE fetchSearch shuffle).cache t trendingKey
        = some (.trending q) → (q.results.map Movie.id).Nodup) := by
  cases hg : getCached CACHE now trendingKey with
  | some cached =>
    have hrun : trending env now done CACHE fetchSearch shuffle
        = ⟨200, .payload cached, CACHE, []⟩ := by
      simp [trending, trendingTry, hg, catchAs]
    rw [hrun]
    refine ⟨fun p hp => ?_, fun t q ht hq => ?_⟩
    · simp only [Body.payload.injEq] at hp
      exact hcache p (by rw [hg, hp])
    · exact hcache q (getCached_earlier CACHE now t trendingKey _ ht hq)
  | none =>
    have hfresh : ∀ p, (trending env now done CACHE fetchSearch shuffle).body
        = .payload (.trending p) → (p.results.map Movie.id).Nodup := by
      intro p hp
      obtain ⟨allMovies, calls, p2, _, hn, hq, _⟩ :=
        trending_fresh env now done CACHE fetchSearch shuffle _ hg hp
      simp only [Payload.trending.injEq] at hq
      subst hq
      exact (trendingNormalized_spec shuffle hshuffle allMovies _ hn).1
    refine ⟨hfresh, fun t q ht hq => ?_⟩
    have hold : ∀ q2, getCached CACHE t trendingKey ≠ some q2 := by
      intro q2 h2
      have := getCached_earlier CACHE now t trendingKey q2 ht h2
      simp [hg] at this
    cases hres : (trendingTry env now done CACHE fetchSearch shuffle).result with
    | error e =>
      have hc : (trending env now done CACHE fetchSearch shuffle).cache = CACHE := by
        simp [trending, catchAs, hres]
      rw [hc] at hq
      exact absurd hq (hold _)
    | ok r =>
      obtain ⟨st, bd, ch⟩ := r
      have hb : (trending env now done CACHE fetchSearch shuffle).body = bd := by
        simp [trending, catchAs, hres]
      have hc : (trending env now done CACHE fetchSearch shuffle).cache = ch := by
        simp [trending, catchAs, hres]
      simp only [trendingTry, hg] at hres
      by_cases hcred : credentialMissing env.OMDB_API_KEY "your_omdb_api_key_here" = true
      · simp only [hcred, if_true, Except.ok.injEq, Prod.mk.injEq] at hres
        rw [hc, ← hres.2.2] at hq
        exact absurd hq (hold _)
      · cases hl : trendingLoop fetchSearch popularSearches [] [] with
        | mk res calls =>
          cases res with
          | error e => simp [hcred, hl] at hres
          | ok allMovies =>
            cases hn : trendingNormalized shuffle allMovies with
            | error e => simp [hcred, hl, hn] at hres
            | ok p =>
              simp [hcred, hl, hn] at hres
              obtain ⟨_, hres1, hres2⟩ := hres
              have hbp : (trending env now done CACHE fetchSearch shuffle).body
                  = .payload (.trending p) := by
                rw [hb, ← hres1]
              rw [hc, ← hres2] at hq
              simp only [getCached, setCache, if_true] at hq
              split at hq
              · simp only [Option.some.injEq, Payload.trending.injEq] at hq
                rw [← hq]
                exact hfresh p hbp
              · simp at hq

/-- Witness of C7: the sample run, in which two sub-searches return the same
movie. -/
theorem trending_ids_distinct_witness :
    (∀ l : List RawMovie, l.reverse.Perm l) ∧
    trendingRun.body = .payload (.trending ⟨trendingRunResults, 2⟩) ∧
    (trendingRunResults.map Movie.id).Nodup :=
  ⟨List.reverse_perm, by decide!,
    (trending_ids_distinct sampleEnv 1000 2000 emptyCache sampleSearch List.reverse
      List.reverse_perm (fun q h => by simp [getCached, emptyCache] at h)).1
      ⟨trendingRunResults, 2⟩ (by decide!)⟩

theorem filterPosters_mem (xs : List (Option RawMovie)) (ms : List RawMovie)
    (h : filterPosters xs = .ok ms) : ∀ m ∈ ms, hasPoster m.Poster = true := by
  induction xs generalizing ms with
  | nil =>
    simp only [filterPosters, Except.ok.injEq] at h
    subst h
    simp
  | cons e rest ih =>
    cases e with
    | none => simp [filterPosters] at h
    | some movie =>
      cases hr : filterPosters rest with
      | error err => simp [filterPosters, hr] at h
      | ok ms2 =>
        simp only [filterPosters, hr, Except.ok.injEq] at h
        subst h
        intro m hm
        by_cases hp : hasPoster movie.Poster = true
        · simp only [hp, if_true, List.mem_cons] at hm
          rcases hm with rfl | hm
          · exact hp
          · exact ih ms2 hr m hm
        · simp only [hp] at hm
          exact ih ms2 hr m hm

theorem searchResults_mem (f : SearchField) (rs : List Movie) (h : searchResults f = .ok rs) :
    ∀ r ∈ rs, hasPoster r.poster_path = true := by
  cases f with
  | array xs =>
    cases hf : filterPosters xs with
    | error e => simp [searchResults, hf] at h
    | ok ms =>
      simp only [searchResults, hf, Except.ok.injEq] at h
      subst h
      intro r hr
      obtain ⟨m, hm, rfl⟩ := List.mem_map.mp hr
      exact filterPosters_mem xs ms hf m hm
  | value v =>
    by_cases hv : v.truthy = true
    · simp [searchResults, hv] at h
    · simp [searchResults, hv] at h
      subst h
      simp

theorem search_fresh_posters (env : Env) (B : Builtins) (now done : Int) (CACHE : Cache Payload)
    (q0 year0 page0 : JsVal) (fetchSearch : String → Fetched (Option SearchData))
    (p : SearchResult)
    (hmiss : getCached CACHE now (searchKey B (orDefault q0 (.str "")) (orDefault year0 (.str ""))
      (orDefault page0 (.str "1"))) = none)
    (hbody : (search env B now done CACHE q0 year0 page0 fetchSearch).body
      = .payload (.search p)) :
    ∀ r ∈ p.results, hasPoster r.poster_path = true := by
  simp only [search, searchTry, hmiss] at hbody
  by_cases hcred : credentialMissing env.OMDB_API_KEY "your_omdb_api_key_here" = true
  · simp [hcred, catchAs] at hbody
  · cases hf : fetchSearch (if (orDefault q0 (.str "")).truthy = true
        then B.toStr (orDefault q0 (.str "")) else "avengers") with
    | fetchRejects e => simp [hcred, hf, catchAs] at hbody
    | jsonRejects e => simp [hcred, hf, catchAs] at hbody
    | body d =>
      cases d with
      | none => simp [hcred, hf, catchAs] at hbody
      | some data =>
        by_cases hr : data.Response = .str "False"
        · simp [hcred, hf, hr, catchAs] at hbody
          rw [← hbody]
          simp
        · cases hs : searchResults data.Search with
          | error e => simp [hcred, hf, hr, hs, catchAs] at hbody
          | ok results =>
            simp [hcred, hf, hr, hs, catchAs] at hbody
            rw [← hbody]
            exact searchResults_mem _ _ hs

/-- C8: every record in the results of a freshly computed trending, search or
genre-filter response has a `poster_path` that is present (truthy: not
`undefined`, `null` or `''`) and not the `'N/A'` sentinel. -/
theorem listings_have_posters (env : Env) (B : Builtins) (now done : Int)
    (CACHE : Cache Payload) (fetchSearch : String → Fetched (Option SearchData))
    (shuffle : List RawMovie → List RawMovie) (q0 year0 page0 genre fpage0 : JsVal)
    (geminiFetch : String → Except JsError GeminiResponse)
    (lookup : Nat → String → String → Fetched (Option OmdbData))
    (hshuffle : ∀ l, (shuffle l).Perm l) :
    (getCached CACHE now trendingKey = none →
      ∀ p, (trending env now done CACHE fetchSearch shuffle).body = .payload (.trending p) →
        ∀ r ∈ p.results, r.poster_path.truthy = true ∧ r.poster_path ≠ .str "N/A") ∧
    (getCached CACHE now (searchKey B (orDefault q0 (.str "")) (orDefault year0 (.str ""))
        (orDefault page0 (.str "1"))) = none →
      ∀ p, (search env B now done CACHE q0 year0 page0 fetchSearch).body
          = .payload (.search p) →
        ∀ r ∈ p.results, r.poster_path.truthy = true ∧ r.poster_path ≠ .str "N/A") ∧
    (getCached CACHE now (filterKey B genre (orDefault fpage0 (.num (.fin 1)))) = none →
      ∀ p, (filter env B now done CACHE genre fpage0 geminiFetch lookup).body
          = .payload (.filter p) →
        ∀ r ∈ p.results, r.poster_path.truthy = true ∧ r.poster_path ≠ .str "N/A") := by
  refine ⟨fun hmiss p hp r hr => ?_, fun hmiss p hp r hr => ?_, fun hmiss p hp r hr => ?_⟩
  · obtain ⟨allMovies, calls, p2, _, hn, hq, _⟩ :=
      trending_fresh env now done CACHE fetchSearch shuffle _ hmiss hp
    simp only [Payload.trending.injEq] at hq
    subst hq
    obtain ⟨m, _, hposter, rfl⟩ :=
      (trendingNormalized_spec shuffle hshuffle allMovies _ hn).2.1 r hr
    exact (hasPoster_iff _).mp hposter
  · exact (hasPoster_iff _).mp
      (search_fresh_posters env B now done CACHE q0 year0 page0 fetchSearch p hmiss hp r hr)
  · obtain ⟨resp, text, aiResponse, _, _, _, _, hq⟩ :=
      filter_fresh env B now done CACHE genre fpage0 geminiFetch lookup _ hmiss hp
    simp only [Payload.filter.injEq] at hq
    subst hq
    obtain ⟨a, ha⟩ := filterResponse_mem B lookup aiResponse r hr
    exact (hasPoster_iff _).mp (lookupRecord_floor B a r ha).2

/-- Witness of C8: the sample trending, search and filter runs. -/
theorem listings_have_posters_witness :
    (∀ l : List RawMovie, l.reverse.Perm l) ∧
    (trendingRun.body = .payload (.trending ⟨trendingRunResults, 2⟩) ∧
      ∀ r ∈ trendingRunResults, r.poster_path.truthy = true ∧ r.poster_path ≠ .str "N/A") ∧
    (searchRun.body = .payload (.search ⟨searchRunResults, .fin 2, .fin 1, none⟩) ∧
      ∀ r ∈ searchRunResults, r.poster_path.truthy = true ∧ r.poster_path ≠ .str "N/A") ∧
    (filterRun.body = .payload (.filter ⟨filterRunResults, 2⟩) ∧
      ∀ r ∈ filterRunResults, r.poster_path.truthy = true ∧ r.poster_path ≠ .str "N/A") :=
  have h := listings_have_posters sampleEnv sampleBuiltins 1000 2000 emptyCache sampleSearch
    List.reverse (.str "Avengers") .undefined .undefined (.str "thriller") .undefined
    (fun _ => .ok (geminiOk "1. Inception (2010)\nThe Room (2003)\n\nParasite (2019)\nEnjoy!"))
    sampleLookup List.reverse_perm
  ⟨List.reverse_perm,
    ⟨by decide!, h.1 rfl ⟨trendingRunResults, 2⟩ (by decide!)⟩,
    ⟨by decide!, h.2.1 rfl ⟨searchRunResults, .fin 2, .fin 1, none⟩ (by decide!)⟩,
    ⟨by decide!, h.2.2 rfl ⟨filterRunResults, 2⟩ (by decide!)⟩⟩

/-- C9: a freshly computed `/api/trending` response has at most 72 records,
every record is the normalization of one of the first 4 entries of the `Search`
array of some sub-search answer, and `total_results` is the number of
records. -/
theorem trending_bounded_from_top4 (env : Env) (now done : Int) (CACHE : Cache Payload)
    (fetchSearch : String → Fetched (Option SearchData))
    (shuffle : List RawMovie → List RawMovie) (p : TrendingResult)
    (hshuffle : ∀ l, (shuffle l).Perm l)
    (hmiss : getCached CACHE now trendingKey = none)
    (hbody : (trending env now done CACHE fetchSearch shuffle).body = .payload (.trending p)) :
    p.results.length ≤ 72 ∧
    (∀ r ∈ p.results, ∃ term ∈ popularSearches, ∃ data xs m,
      fetchSearch term = .body (some data) ∧ data.Response = .str "True" ∧
      data.Search = .array xs ∧ some m ∈ xs.take 4 ∧ r = normalize m) ∧
    p.total_results = p.results.length := by
  obtain ⟨allMovies, calls, p2, hloop, hn, hq, _⟩ :=
    trending_fresh env now done CACHE fetchSearch shuffle _ hmiss hbody
  simp only [Payload.trending.injEq] at hq
  subst hq
  obtain ⟨_, hfrom, hlen, htotal⟩ := trendingNormalized_spec shuffle hshuffle allMovies _ hn
  refine ⟨hlen, fun r hr => ?_, htotal⟩
  obtain ⟨m, hm, hposter, rfl⟩ := hfrom r hr
  have hQ := trendingLoop_mem fetchSearch
    (fun e => e = some primitiveEntry ∨ ∃ term ∈ popularSearches, ∃ data xs,
      fetchSearch term = .body (some data) ∧ data.Response = .str "True" ∧
      data.Search = .array xs ∧ e ∈ xs.take 4)
    popularSearches
    (fun term hterm data xs hf hr hs e he => Or.inr ⟨term, hterm, data, xs, hf, hr, hs, he⟩)
    (Or.inl rfl) [] [] allMovies calls hloop (by simp) (some m) hm
  rcases hQ with hprim | ⟨term, hterm, data, xs, hf, hresp, hs, he⟩
  · simp only [Option.some.injEq] at hprim
    subst hprim
    simp [hasPoster, primitiveEntry, JsVal.truthy] at hposter
  · exact ⟨term, hterm, data, xs, m, hf, hresp, hs, he, rfl⟩

/-- Witness of C9: the sample trending run. -/
theorem trending_bounded_from_top4_witness :
    (∀ l : List RawMovie, l.reverse.Perm l) ∧
    getCached (emptyCache : Cache Payload) 1000 trendingKey = none ∧
    trendingRun.body = .payload (.trending ⟨trendingRunResults, 2⟩) ∧
    trendingRunResults.length ≤ 72 :=
  ⟨List.reverse_perm, rfl, by decide!,
    (trending_bounded_from_top4 sampleEnv 1000 2000 emptyCache sampleSearch List.reverse
      ⟨trendingRunResults, 2⟩ List.reverse_perm rfl (by decide!)).1⟩

/-- C10 (defect of the code): with the credential configured and an empty
cache, the third of the 23 sub-searches rejects while the others answer; the
loop stops there, the handler answers status 500 with the failure as a
top-level error and stores nothing. -/
theorem trending_partial_failure_answers_500 :
    partialFailureRun.status = 500 ∧
    partialFailureRun.body = .error "Failed to fetch trending movies: socket hang up" ∧
    partialFailureRun.calls
      = [Call.omdbSearch "Avengers", Call.omdbSearch "Star Wars", Call.omdbSearch "Batman"] ∧
    (partialFailureRun.cache trendingKey).isNone = true := by
  decide!

/-! ### Who writes the trending entry -/

theorem searchKey_ne_trendingKey (B : Builtins) (q year page : JsVal) :
    searchKey B q year page ≠ trendingKey := by
  intro h
  have h2 := congrArg (fun s : String => s.data.head?) h
  simp [searchKey, trendingKey, String.data_append] at h2

theorem filterKey_ne_trendingKey (B : Builtins) (genre page : JsVal) :
    filterKey B genre page ≠ trendingKey := by
  intro h
  have h2 := congrArg (fun s : String => s.data.head?) h
  simp [filterKey, trendingKey, String.data_append] at h2

theorem setCache_other {α : Type} (CACHE : Cache α) (now : Int) (key k : String) (value : α)
    (h : key ≠ k) : setCache CACHE now key value k = CACHE k := by
  simp [setCache, Ne.symm h]

theorem search_keeps_trending (env : Env) (B : Builtins) (now done : Int)
    (CACHE : Cache Payload) (q0 year0 page0 : JsVal)
    (fetchSearch : String → Fetched (Option SearchData)) :
    (search env B now done CACHE q0 year0 page0 fetchSearch).cache trendingKey
      = CACHE trendingKey := by
  have hk := searchKey_ne_trendingKey B (orDefault q0 (.str "")) (orDefault year0 (.str ""))
    (orDefault page0 (.str "1"))
  simp only [search, searchTry]
  cases hg : getCached CACHE now (searchKey B (orDefault q0 (.str ""))
      (orDefault year0 (.str "")) (orDefault page0 (.str "1"))) with
  | some cached => simp [catchAs]
  | none =>
    by_cases hcred : credentialMissing env.OMDB_API_KEY "your_omdb_api_key_here" = true
    · simp [hcred, catchAs]
    · cases hf : fetchSearch (if (orDefault q0 (.str "")).truthy = true
          then B.toStr (orDefault q0 (.str "")) else "avengers") with
      | fetchRejects e => simp [hcred, hf, catchAs]
      | jsonRejects e => simp [hcred, hf, catchAs]
      | body d =>
        cases d with
        | none => simp [hcred, hf, catchAs]
        | some data =>
          by_cases hr : data.Response = .str "False"
          · simp [hcred, hf, hr, catchAs]
          · cases hs : searchResults data.Search with
            | error e => simp [hcred, hf, hr, hs, catchAs]
            | ok results => simp [hcred, hf, hr, hs, catchAs, setCache_other _ _ _ _ _ hk]

theorem filter_keeps_trending (env : Env) (B : Builtins) (now done : Int)
    (CACHE : Cache Payload) (genre page0 : JsVal)
    (geminiFetch : String → Except JsError GeminiResponse)
    (lookup : Nat → String → String → Fetched (Option OmdbData)) :
    (filter env B now done CACHE genre page0 geminiFetch lookup).cache trendingKey
      = CACHE trendingKey := by
  have hk := filterKey_ne_trendingKey B genre (orDefault page0 (.num (.fin 1)))
  simp only [filter, filterTry]
  cases hg : getCached CACHE now (filterKey B genre (orDefault page0 (.num (.fin 1)))) with
  | some cached => simp [catchAs]
  | none =>
    by_cases hcred : credentialMissing env.GEMINI_API_KEY "your_gemini_key_here" = true
    · simp [hcred, catchAs]
    · cases hf : geminiFetch (geminiModel env) with
      | error e => simp [hcred, hf, catchAs]
      | ok resp =>
        cases hok : resp.ok with
        | false => simp [hcred, hf, hok, catchAs]
        | true =>
          cases hj : resp.json with
          | error e => simp [hcred, hf, hok, hj, catchAs]
          | ok text =>
            cases ht : firstText text with
            | error e => simp [hcred, hf, hok, hj, ht, catchAs]
            | ok aiResponse =>
              simp [hcred, hf, hok, hj, ht, catchAs, setCache_other _ _ _ _ _ hk]

theorem suggest_keeps_cache (env : Env) (B : Builtins) (CACHE : Cache Payload)
    (prefs : JsVal) (sampleMovies : SampleMovies)
    (geminiFetch : String → Except JsError GeminiResponse)
    (omdbFetch : String → String → Fetched (Option OmdbData))
    (explainFetch : Except JsError GeminiResponse) :
    (suggest env B CACHE prefs sampleMovies geminiFetch omdbFetch explainFetch).cache
      = CACHE := by
  simp only [suggest]
  cases hres : (suggestTry env B CACHE prefs sampleMovies geminiFetch omdbFetch
      explainFetch).result with
  | error e => simp [catchAs, hres]
  | ok r =>
    obtain ⟨st, bd, ch⟩ := r
    simp only [catchAs, hres]
    simp only [suggestTry] at hres
    by_cases hcred : credentialMissing env.GEMINI_API_KEY "your_gemini_key_here" = true
    · simp [hcred] at hres
      exact hres.2.2.symm
    · cases hl : movieList B sampleMovies with
      | error e => simp [hcred, hl] at hres
      | ok l =>
        cases hm : modelAttempts env geminiFetch with
        | mk res calls =>
          cases res with
          | error e => simp [hcred, hl, hm] at hres
          | ok rm =>
            obtain ⟨resp, model⟩ := rm
            cases hok : resp.ok with
            | false =>
              cases htx : resp.text with
              | error e => simp [hcred, hl, hm, hok, htx] at hres
              | ok errorText =>
                simp [hcred, hl, hm, hok, htx] at hres
                exact hres.2.2.symm
            | true =>
              simp only [hcred, hl, hm, hok] at hres
              simp only [Bool.not_true, Bool.false_eq_true, if_false] at hres
              cases hj : resp.json with
              | error e => simp [suggestAfterModel, hj] at hres
              | ok text =>
                cases ht : firstText text with
                | error e => simp [suggestAfterModel, hj, ht] at hres
                | ok raw =>
                  cases ho : omdbFetch (suggestedTitle raw) (suggestedYear raw) with
                  | fetchRejects e => simp [suggestAfterModel, hj, ht, ho] at hres
                  | jsonRejects e => simp [suggestAfterModel, hj, ht, ho] at hres
                  | body d =>
                    cases d with
                    | none => simp [suggestAfterModel, hj, ht, ho] at hres
                    | some d =>
                      by_cases hr : d.Response = .str "False"
                      · simp [suggestAfterModel, hj, ht, ho, hr] at hres
                        exact hres.2.2.symm
                      · simp only [suggestAfterModel, hj, ht, ho, hr, if_false] at hres
                        exact (suggestResolved_body B CACHE prefs d explainFetch model _
                          st bd ch hres).1

/-! ### Failures inside the genre filter -/

theorem survivorOf_withFailures (B : Builtins)
    (lookup failure : Nat → String → String → Fetched (Option OmdbData))
    (failing : Nat → Bool)
    (hraise : ∀ i title year, failing i = true → raised (failure i title year) = true)
    (i : Nat) (line : String) :
    survivorOf B (withFailures lookup failure failing) i line
      = if failing i then none else survivorOf B lookup i line := by
  unfold survivorOf withFailures
  cases parseLine line with
  | none => simp
  | some ty =>
    obtain ⟨title, year⟩ := ty
    by_cases hf : failing i = true
    · have hr := hraise i title year hf
      simp only [hf, if_true]
      cases hfail : failure i title year with
      | fetchRejects e => rfl
      | jsonRejects e => rfl
      | body d => simp [hfail, raised] at hr
    · simp [hf]

/-- C11, as stated, fails: the model's request succeeds, with status 200, but
its body is not JSON or holds a number where the text is expected, and the
operation answers status 500 with the catch clause's error. -/
theorem filter_success_needs_readable_text :
    geminiUnparsable.ok = true ∧
    unparsableBodyRun.status = 500 ∧
    unparsableBodyRun.body
      = .error "Failed to filter movies: Unexpected token < in JSON at position 0" ∧
    numericTextRun.status = 500 ∧
    numericTextRun.body = .error ("Failed to filter movies: "
      ++ "geminiJson?.candidates?.[0]?.content?.parts?.[0]?.text?.trim is not a function") := by
  decide!

/-- C11, amended: when the model's request of a `/api/filter` run succeeds
with a body that parses and whose text is a string or missing, trimmed to
`aiResponse`, then whatever lookups raise (the positions marked by `failing`)
and whatever lines do not parse, the response is a success; its results are,
up to order, the records the other lines give with the catalog's answers, so a
failing or unparsable candidate contributes nothing and changes no other
record. When no line parses, in particular for an empty text, the results are
`[]` and `total_results` is 0. -/
theorem filter_absorbs_failures (env : Env) (B : Builtins) (now done : Int)
    (CACHE : Cache Payload) (genre page0 : JsVal)
    (geminiFetch : String → Except JsError GeminiResponse)
    (lookup failure : Nat → String → String → Fetched (Option OmdbData))
    (failing : Nat → Bool) (resp : GeminiResponse) (text : JsVal) (aiResponse : String)
    (hmiss : getCached CACHE now (filterKey B genre (orDefault page0 (.num (.fin 1)))) = none)
    (hcred : credentialMissing env.GEMINI_API_KEY "your_gemini_key_here" = false)
    (hfetch : geminiFetch (geminiModel env) = .ok resp) (hok : resp.ok = true)
    (hjson : resp.json = .ok text) (htext : firstText text = .ok aiResponse)
    (hraise : ∀ i title year, failing i = true → raised (failure i title year) = true) :
    ∃ p : FilterResult,
      (filter env B now done CACHE genre page0 geminiFetch
        (withFailures lookup failure failing)).status = 200 ∧
      (filter env B now done CACHE genre page0 geminiFetch
        (withFailures lookup failure failing)).body = .payload (.filter p) ∧
      p.results.Perm (((movieLines aiResponse).enum.filter (fun q => !failing q.1)).filterMap
        (fun q => survivorOf B lookup q.1 q.2)) ∧
      p.total_results = p.results.length ∧
      ((∀ line ∈ movieLines aiResponse, parseLine line = none) →
        p.results = [] ∧ p.total_results = 0) := by
  have hsurv : survivors B (withFailures lookup failure failing) (movieLines aiResponse)
      = ((movieLines aiResponse).enum.filter (fun q => !failing q.1)).filterMap
          (fun q => survivorOf B lookup q.1 q.2) := by
    rw [survivors, List.filterMap_filter]
    refine List.filterMap_congr (fun q _ => ?_)
    rw [survivorOf_withFailures B lookup failure failing hraise]
    by_cases hf : failing q.1 = true <;> simp [hf]
  have hperm : (filterResponse B (withFailures lookup failure failing) aiResponse).results.Perm
      (((movieLines aiResponse).enum.filter (fun q => !failing q.1)).filterMap
        (fun q => survivorOf B lookup q.1 q.2)) := by
    rw [filterResponse_results, hsurv]
    exact jsSort_perm _ _
  refine ⟨filterResponse B (withFailures lookup failure failing) aiResponse, ?_, ?_, hperm, rfl,
    fun hnone => ?_⟩
  · simp [filter, filterTry, hmiss, hcred, hfetch, hok, hjson, htext, catchAs]
  · simp [filter, filterTry, hmiss, hcred, hfetch, hok, hjson, htext, catchAs]
  · have hnil : ((movieLines aiResponse).enum.filter (fun q => !failing q.1)).filterMap
        (fun q => survivorOf B lookup q.1 q.2) = [] := by
      refine List.filterMap_eq_nil_iff.mpr (fun q hq => ?_)
      have hmem : q.2 ∈ movieLines aiResponse := by
        have := List.mem_of_mem_filter hq
        obtain ⟨i, line⟩ := q
        exact (List.mem_enum this).2 ▸ List.getElem_mem _
      simp [survivorOf, hnone q.2 hmem]
    have hres : (filterResponse B (withFailures lookup failure failing) aiResponse).results = [] :=
      List.Perm.eq_nil (hnil ▸ hperm)
    refine ⟨hres, ?_⟩
    show (filterResponse B (withFailures lookup failure failing) aiResponse).results.length = 0
    rw [hres]
    rfl

/-- Witness of C11: two of the four lookups of the sample run fail and the
record of the line rated 8.8 is still answered; a model answer without text
gives an empty success. -/
theorem filter_absorbs_failures_witness :
    raised (Fetched.fetchRejects ⟨"FetchError", "socket hang up"⟩
      : Fetched (Option OmdbData)) = true ∧
    failingLookupRun.status = 200 ∧
    failingLookupRun.body = .payload (.filter ⟨filterRunResults.take 1, 1⟩) ∧
    emptyTextRun.status = 200 ∧
    emptyTextRun.body = .payload (.filter ⟨[], 0⟩) ∧
    ∃ p : FilterResult, failingLookupRun.body = .payload (.filter p) ∧
      p.total_results = p.results.length := by
  have h := filter_absorbs_failures sampleEnv sampleBuiltins 1000 2000 emptyCache
    (.str "thriller") .undefined
    (fun _ => .ok (geminiOk "1. Inception (2010)\nThe Room (2003)\n\nParasite (2019)\nEnjoy!"))
    sampleLookup (fun _ _ _ => .fetchRejects ⟨"FetchError", "socket hang up"⟩)
    (fun i => decide (i = 0 ∨ i = 3))
    (geminiOk "1. Inception (2010)\nThe Room (2003)\n\nParasite (2019)\nEnjoy!")
    (.str "1. Inception (2010)\nThe Room (2003)\n\nParasite (2019)\nEnjoy!")
    "1. Inception (2010)\nThe Room (2003)\n\nParasite (2019)\nEnjoy!"
    rfl (by decide) rfl rfl rfl
    (congrArg Except.ok (by decide! :
      trim "1. Inception (2010)\nThe Room (2003)\n\nParasite (2019)\nEnjoy!"
        = "1. Inception (2010)\nThe Room (2003)\n\nParasite (2019)\nEnjoy!"))
    (fun _ _ _ _ => rfl)
  obtain ⟨p, _, hb, _, ht, _⟩ := h
  exact ⟨rfl, by decide!, by decide!, by decide!, by decide!, p, hb, ht⟩

/-! ### Credentials, missing parameters and not-found answers -/

/-- C12 (defect of the code): with the catalog credential unset, the
generative-model credential set and an empty cache, `/api/search` answers status
500 with the hint and sends no request, as the claim says; `/api/filter` and
`/api/suggest` do not test the catalog credential: they send their requests to
the model and to the catalog and answer status 200. -/
theorem catalog_credential_unchecked :
    credentialMissing geminiOnlyEnv.OMDB_API_KEY "your_omdb_api_key_here" = true ∧
    searchNoCatalogKeyRun.status = 500 ∧
    searchNoCatalogKeyRun.body = .error
      "OMDB_API_KEY not set. Get your free key at https://www.omdbapi.com/apikey.aspx" ∧
    searchNoCatalogKeyRun.calls = [] ∧
    filterNoCatalogKeyRun.status = 200 ∧
    filterNoCatalogKeyRun.body = .payload (.filter ⟨[], 0⟩) ∧
    filterNoCatalogKeyRun.calls
      = [Call.gemini "gemini-2.0-flash-exp", Call.omdbTitle "Inception" "2010"] ∧
    suggestNoCatalogKeyRun.status = 200 ∧
    suggestNoCatalogKeyRun.calls
      = [Call.gemini "gemini-2.0-flash-exp", Call.omdbTitle "Inception" "2010"] := by
  decide!

/-- C13: a `/api/movie` request without `id` is answered 400 whatever the cache
holds, with no upstream request and the cache untouched; with an id, no valid
cache entry, the credential configured and an upstream payload whose `Response`
is `'False'`, the answer is 404 with `{error: data.Error}` and nothing is
stored in the cache. -/
theorem movie_missing_id_and_not_found (env : Env) (B : Builtins) (now done : Int)
    (CACHE : Cache Payload) (id : JsVal) (fetchId : String → Fetched (Option OmdbData)) :
    (id.truthy = false →
      (movie env B now done CACHE id fetchId).status = 400 ∧
      (movie env B now done CACHE id fetchId).body = .error "id required" ∧
      (movie env B now done CACHE id fetchId).calls = [] ∧
      (movie env B now done CACHE id fetchId).cache = CACHE) ∧
    (∀ data : OmdbData, id.truthy = true → getCached CACHE now (movieKey B id) = none →
      credentialMissing env.OMDB_API_KEY "your_omdb_api_key_here" = false →
      fetchId (B.toStr id) = .body (some data) → data.Response = .str "False" →
      (movie env B now done CACHE id fetchId).status = 404 ∧
      (movie env B now done CACHE id fetchId).body = .upstreamError data.Error ∧
      (movie env B now done CACHE id fetchId).calls = [Call.omdbId (B.toStr id)] ∧
      (movie env B now done CACHE id fetchId).cache = CACHE) := by
  refine ⟨fun hid => ?_, fun data hid hmiss hcred hfetch hresp => ?_⟩
  · simp [movie, movieTry, hid, catchAs]
  · simp [movie, movieTry, hid, hmiss, hcred, hfetch, hresp, catchAs]

/-- Witness of C13: the request without `id`, and the request for
`tt9999999`, which the catalog does not know. -/
theorem movie_missing_id_and_not_found_witness :
    JsVal.undefined.truthy = false ∧
    (movie sampleEnv sampleBuiltins 1000 2000 warmSearchCache .undefined
      (fun _ => .body (some omdbNotFound))).status = 400 ∧
    (JsVal.str "tt9999999").truthy = true ∧
    unknownMovieRun.status = 404 ∧
    unknownMovieRun.body = .upstreamError (.str "Incorrect IMDb ID.") :=
  have h1 := (movie_missing_id_and_not_found sampleEnv sampleBuiltins 1000 2000 warmSearchCache
    .undefined (fun _ => .body (some omdbNotFound))).1 rfl
  have h2 := (movie_missing_id_and_not_found sampleEnv sampleBuiltins 1000 2000 emptyCache
    (.str "tt9999999")
    (fun _ => .body (some { omdbNotFound with Error := .str "Incorrect IMDb ID." }))).2
    { omdbNotFound with Error := .str "Incorrect IMDb ID." } (by decide) rfl (by decide) rfl rfl
  ⟨rfl, h1.1, by decide, h2.1, h2.2.1⟩

/-- C14: a `/api/search` run with the credential configured and no valid cache
entry, whose upstream payload has `Response === 'False'`, answers a success
with `results` `[]`, `total_results` 0, `page` the number read from the
requested page and `message` the upstream `Error`; nothing is cached. -/
theorem search_not_found (env : Env) (B : Builtins) (now done : Int) (CACHE : Cache Payload)
    (q0 year0 page0 : JsVal) (fetchSearch : String → Fetched (Option SearchData))
    (data : SearchData)
    (hmiss : getCached CACHE now (searchKey B (orDefault q0 (.str "")) (orDefault year0 (.str ""))
      (orDefault page0 (.str "1"))) = none)
    (hcred : credentialMissing env.OMDB_API_KEY "your_omdb_api_key_here" = false)
    (hfetch : fetchSearch (if (orDefault q0 (.str "")).truthy = true
      then B.toStr (orDefault q0 (.str "")) else "avengers") = .body (some data))
    (hresp : data.Response = .str "False") :
    (search env B now done CACHE q0 year0 page0 fetchSearch).status = 200 ∧
    (search env B now done CACHE q0 year0 page0 fetchSearch).body = .payload (.search
      { results := [], total_results := .fin 0,
        page := B.parseInt (orDefault page0 (.str "1")), message := some data.Error }) ∧
    (search env B now done CACHE q0 year0 page0 fetchSearch).cache = CACHE := by
  simp [search, searchTry, hmiss, hcred, hfetch, hresp, catchAs]

/-- Witness of C14: a search for `zzzz`, page 2, which the catalog does not
match. -/
theorem search_not_found_witness :
    searchNotFound.Response = .str "False" ∧
    noMatchRun.status = 200 ∧
    noMatchRun.body = .payload (.search
      { results := [], total_results := .fin 0, page := .fin 2,
        message := some (.str "Movie not found!") }) :=
  have h := search_not_found sampleEnv sampleBuiltins 1000 2000 emptyCache (.str "zzzz")
    .undefined (.str "2") sampleSearch searchNotFound rfl (by decide) rfl rfl
  ⟨rfl, h.1, h.2.1⟩

/-! ### Malformed entries -/

theorem filterPosters_ok (xs : List (Option RawMovie)) (h : xs.all Option.isSome = true) :
    filterPosters xs = .ok ((xs.filterMap id).filter (fun m => hasPoster m.Poster)) := by
  induction xs with
  | nil => rfl
  | cons e rest ih =>
    cases e with
    | none => simp at h
    | some m =>
      simp only [List.all_cons, Option.isSome_some, Bool.true_and] at h
      simp only [filterPosters, ih h, List.filterMap_cons_some, id, List.filter_cons]
      by_cases hp : hasPoster m.Poster = true <;> simp [hp]

theorem keyedById_ok (xs : List (Option RawMovie)) (h : xs.all Option.isSome = true) :
    ∃ pairs, keyedById xs = .ok pairs := by
  induction xs with
  | nil => exact ⟨[], rfl⟩
  | cons e rest ih =>
    cases e with
    | none => simp at h
    | some m =>
      simp only [List.all_cons, Option.isSome_some, Bool.true_and] at h
      obtain ⟨ps, hps⟩ := ih h
      exact ⟨(m.imdbID, m) :: ps, by simp [keyedById, hps]⟩

theorem trendingLoop_ok (fetchSearch : String → Fetched (Option SearchData))
    (terms : List String)
    (hanswers : ∀ term ∈ terms, ∃ data, fetchSearch term = .body (some data) ∧
      noNullEntry data.Search = true)
    (allMovies : List (Option RawMovie)) (calls : List Call)
    (hacc : allMovies.all Option.isSome = true) :
    ∃ out calls2, trendingLoop fetchSearch terms allMovies calls = (.ok out, calls2) ∧
      out.all Option.isSome = true := by
  induction terms generalizing allMovies calls with
  | nil => exact ⟨allMovies, calls, rfl, hacc⟩
  | cons term rest ih =>
    have hrest : ∀ t ∈ rest, ∃ data, fetchSearch t = .body (some data) ∧
        noNullEntry data.Search = true := fun t ht => hanswers t (List.mem_cons_of_mem _ ht)
    obtain ⟨data, hf, hnn⟩ := hanswers term (List.mem_cons_self _ _)
    simp only [trendingLoop, hf]
    cases hs : data.Search with
    | array xs =>
      have hxs : xs.all Option.isSome = true := by simpa [noNullEntry, hs] using hnn
      by_cases hr : data.Response = .str "True"
      · simp only [hr, SearchField.truthy, sliceTop4, decide_True, Bool.and_self, if_true]
        refine ih hrest _ _ ?_
        rw [List.all_append, hacc, Bool.true_and]
        exact List.all_eq_true.mpr (fun e he =>
          List.all_eq_true.mp hxs e (List.mem_of_mem_take he))
      · simp only [hr, decide_False, Bool.false_and, Bool.false_eq_true, if_false]
        exact ih hrest _ _ hacc
    | value v =>
      have hv : v.truthy = false := by simpa [noNullEntry, hs] using hnn
      simp only [SearchField.truthy, hv, Bool.and_false, Bool.false_eq_true, if_false]
      exact ih hrest _ _ hacc

/-- C15, as stated, fails: a `null` entry in the record list, next to a
well-formed poster-bearing entry, turns both the search and the trending
operation into a 500. -/
theorem null_entry_aborts :
    nullEntrySearchRun.status = 500 ∧
    nullEntrySearchRun.body = .error
      "Failed to fetch movies: Cannot read properties of null (reading 'Poster')" ∧
    nullEntryTrendingRun.status = 500 ∧
    nullEntryTrendingRun.body = .error
      "Failed to fetch trending movies: Cannot read properties of null (reading 'imdbID')" := by
  decide!

/-- C15, amended: for upstream record lists without a `null` entry, whose
entries may lack `imdbID`, `Title`, `Year` or `Poster`, no property access
fails: a search that is not a not-found answer is a success whose results are
exactly the records of the poster-bearing entries, in order, and a trending
run whose sub-searches all answer such lists is a success. -/
theorem normalization_of_non_null_entries (env : Env) (B : Builtins) (now done : Int)
    (CACHE : Cache Payload) (q0 year0 page0 : JsVal)
    (fetchSearch : String → Fetched (Option SearchData))
    (shuffle : List RawMovie → List RawMovie)
    (hcred : credentialMissing env.OMDB_API_KEY "your_omdb_api_key_here" = false) :
    (∀ data xs,
      getCached CACHE now (searchKey B (orDefault q0 (.str "")) (orDefault year0 (.str ""))
        (orDefault page0 (.str "1"))) = none →
      fetchSearch (if (orDefault q0 (.str "")).truthy = true
        then B.toStr (orDefault q0 (.str "")) else "avengers") = .body (some data) →
      data.Response ≠ .str "False" → data.Search = .array xs →
      xs.all Option.isSome = true →
      (search env B now done CACHE q0 year0 page0 fetchSearch).status = 200 ∧
      ∃ p, (search env B now done CACHE q0 year0 page0 fetchSearch).body
          = .payload (.search p) ∧
        p.results = (((xs.filterMap id).filter (fun m => hasPoster m.Poster)).map normalize)) ∧
    (getCached CACHE now trendingKey = none →
      (∀ term ∈ popularSearches, ∃ data, fetchSearch term = .body (some data) ∧
        noNullEntry data.Search = true) →
      (trending env now done CACHE fetchSearch shuffle).status = 200 ∧
      ∃ p, (trending env now done CACHE fetchSearch shuffle).body = .payload (.trending p)) := by
  refine ⟨fun data xs hmiss hfetch hresp hs hxs => ?_, fun hmiss hanswers => ?_⟩
  · have hr : searchResults data.Search
        = .ok (((xs.filterMap id).filter (fun m => hasPoster m.Poster)).map normalize) := by
      simp [hs, searchResults, filterPosters_ok xs hxs]
    simp [search, searchTry, hmiss, hcred, hfetch, hresp, hr, catchAs]
  · obtain ⟨out, calls2, hloop, hout⟩ :=
      trendingLoop_ok fetchSearch popularSearches hanswers [] [] rfl
    obtain ⟨pairs, hpairs⟩ := keyedById_ok out hout
    simp [trending, trendingTry, hmiss, hcred, hloop, trendingNormalized, hpairs, catchAs]

/-- Witness of C15 amended: a search whose two entries are partial. -/
theorem normalization_of_non_null_entries_witness :
    credentialMissing sampleEnv.OMDB_API_KEY "your_omdb_api_key_here" = false ∧
    (search sampleEnv sampleBuiltins 1000 2000 emptyCache (.str "Avengers") .undefined
      .undefined partialSearch).status = 200 ∧
    (search sampleEnv sampleBuiltins 1000 2000 emptyCache (.str "Avengers") .undefined
      .undefined partialSearch).body = .payload (.search
        ⟨[⟨.undefined, .undefined, .undefined, .str "https://img.example/1.jpg", ""⟩],
          .fin 2, .fin 1, none⟩) ∧
    (trending sampleEnv 1000 2000 emptyCache partialSearch List.reverse).status = 200 :=
  have h := normalization_of_non_null_entries sampleEnv sampleBuiltins 1000 2000 emptyCache
    (.str "Avengers") .undefined .undefined partialSearch List.reverse (by decide)
  ⟨by decide,
    (h.1 _ _ rfl rfl (by decide) rfl (by decide)).1,
    by decide!,
    (h.2 rfl (fun term _ => by
      by_cases ht : term = "Avengers"
      · exact ⟨_, if_pos ht, rfl⟩
      · exact ⟨_, if_neg ht, rfl⟩)).1⟩

/-! ### The detail record -/

/-- C16 (defect of the code): for an upstream payload with `Response` `'True'`
whose `Runtime`, `Director`, `Actors` and `Awards` are `'N/A'` and whose rating
is the string `abc`, the detail record keeps `'N/A'` in `runtime`, `director`,
`actors` and `awards` and has `vote_average` `NaN`; only `poster_path` and
`overview` are normalized. -/
theorem detail_keeps_sentinels :
    sentinelDetailRun.status = 200 ∧
    sentinelDetailRun.body = .payload (.movie
      { id := .str "tt0000001", title := .str "Untitled", release_date := .str "2001",
        poster_path := .null, overview := .str "", vote_average := .nan,
        runtime := .str "N/A", genre := .str "Action", director := .str "N/A",
        actors := .str "N/A", awards := .str "N/A" }) := by
  decide!

/-! ### The cached trending listing -/

/-- C17: when a `/api/trending` run on a cache without a valid trending entry
succeeds and stores its payload at time `done`, the payload is under the fixed
trending key, and a second run at a time `now2` with `now2 - done < 300000`, on
a cache with that entry, answers the same payload (same records, same order)
and sends no upstream request, whatever its environment and whatever the
upstream would answer. -/
theorem trending_second_call_cached (env env2 : Env) (now done now2 done2 : Int)
    (CACHE C2 : Cache Payload)
    (fetchSearch fetchSearch2 : String → Fetched (Option SearchData))
    (shuffle shuffle2 : List RawMovie → List RawMovie) (p : TrendingResult)
    (hmiss : getCached CACHE now trendingKey = none)
    (hbody : (trending env now done CACHE fetchSearch shuffle).body = .payload (.trending p))
    (hC2 : C2 trendingKey = (trending env now done CACHE fetchSearch shuffle).cache trendingKey)
    (hT : now2 - done < 300000) :
    (trending env now done CACHE fetchSearch shuffle).cache trendingKey
      = some ⟨.trending p, done⟩ ∧
    (trending env2 now2 done2 C2 fetchSearch2 shuffle2).status = 200 ∧
    (trending env2 now2 done2 C2 fetchSearch2 shuffle2).body = .payload (.trending p) ∧
    (trending env2 now2 done2 C2 fetchSearch2 shuffle2).calls = [] := by
  obtain ⟨allMovies, calls, p2, _, _, hq, hcache⟩ :=
    trending_fresh env now done CACHE fetchSearch shuffle _ hmiss hbody
  simp only [Payload.trending.injEq] at hq
  subst hq
  have hentry : (trending env now done CACHE fetchSearch shuffle).cache trendingKey
      = some ⟨.trending p, done⟩ := by
    rw [hcache]
    simp [setCache]
  have hTTL : TTL = 300000 := by decide
  have hhit : getCached C2 now2 trendingKey = some (.trending p) := by
    simp [getCached, hC2, hentry, hTTL, hT]
  refine ⟨hentry, ?_, ?_, ?_⟩ <;> simp [trending, trendingTry, hhit, catchAs]

/-- Witness of C17: the sample run stores at time 2000; a run at time 3000 with
no credential and a failing catalog answers the same two records. -/
theorem trending_second_call_cached_witness :
    getCached (emptyCache : Cache Payload) 1000 trendingKey = none ∧
    trendingRun.body = .payload (.trending ⟨trendingRunResults, 2⟩) ∧
    (3000 : Int) - 2000 < 300000 ∧
    (trending noKeyEnv 3000 4000 trendingRun.cache batmanDown id).body
      = .payload (.trending ⟨trendingRunResults, 2⟩) ∧
    (trending noKeyEnv 3000 4000 trendingRun.cache batmanDown id).calls = [] :=
  have h := trending_second_call_cached sampleEnv noKeyEnv 1000 2000 3000 4000 emptyCache
    trendingRun.cache sampleSearch batmanDown List.reverse id ⟨trendingRunResults, 2⟩
    rfl (by decide!) rfl (by decide)
  ⟨rfl, by decide!, by decide, h.2.2.1, h.2.2.2⟩

/-! ### Repeated ids -/

/-- C18 (defect of the code): when the model lists `Inception (2010)` twice and
both lookups resolve to the same catalog entry, the results of the
`/api/filter` response hold that record twice, so two records share an id. -/
theorem filter_repeats_id :
    repeatedTitleRun.status = 200 ∧
    repeatedTitleRun.body = .payload (.filter ⟨[inceptionRecord, inceptionRecord], 2⟩) ∧
    ¬ ([inceptionRecord, inceptionRecord].map FilterMovie.id).Nodup := by
  decide!

theorem loadMore_keeps_existing (st : ClientState) (answer : PageAnswer) :
    ∃ added, (loadMore st answer).allMovies = st.allMovies ++ added := by
  unfold loadMore
  cases hg : st.currentGenre with
  | none => exact ⟨[], by simp⟩
  | some genre =>
    simp only []
    split
    · cases answer with
      | rejects => exact ⟨[], by simp⟩
      | notOk => exact ⟨[], by simp⟩
      | results newMovies =>
        simp only [appendUnique]
        split
        · exact ⟨_, rfl⟩
        · exact ⟨[], by simp⟩
    · exact ⟨[], by simp⟩

/-- C20 (defect of the code): the client holds one movie (distinct ids), the
server answers a page with two records of the same new id, and after `loadMore`
the list holds both: the ids are no longer pairwise distinct. The movie held
before is still first. -/
theorem loadMore_keeps_repeat_within_page :
    (clientBefore.allMovies.map ClientMovie.id).Nodup ∧
    (loadMore clientBefore (.results pageWithRepeat)).allMovies
      = clientBefore.allMovies ++ pageWithRepeat ∧
    ¬ ((loadMore clientBefore (.results pageWithRepeat)).allMovies.map ClientMovie.id).Nodup := by
  decide!

/-! ### The line pattern -/

theorem yearGroup_cons6 (x1 x2 x3 x4 x5 x6 : Char) (t : List Char) :
    yearGroup (x1 :: x2 :: x3 :: x4 :: x5 :: x6 :: t)
      = if x1 = '(' ∧ x6 = ')' ∧ (isDigit x2 && isDigit x3 && isDigit x4 && isDigit x5) = true
        then some [x2, x3, x4, x5] else none := by
  unfold yearGroup
  split
  · rename_i heq
    simp only [List.cons.injEq] at heq
    obtain ⟨h1, h2, h3, h4, h5, h6, _⟩ := heq
    subst h1 h2 h3 h4 h5 h6
    simp
  · rename_i hno
    by_cases h1 : x1 = '('
    · by_cases h6 : x6 = ')'
      · subst h1 h6
        exact absurd rfl (hno x2 x3 x4 x5 t)
      · simp [h6]
    · simp [h1]

theorem yearGroup_append_space (s : List Char) (a b c d : Char) (hs : s ≠ [])
    (h : yearGroup s = none) : yearGroup (s ++ yearSuffix a b c d) = none := by
  rcases s with _ | ⟨x1, _ | ⟨x2, _ | ⟨x3, _ | ⟨x4, _ | ⟨x5, _ | ⟨x6, xs⟩⟩⟩⟩⟩⟩
  · exact absurd rfl hs
  · simp [yearSuffix, yearGroup_cons6, isDigit]
  · simp [yearSuffix, yearGroup_cons6, isDigit]
  · simp [yearSuffix, yearGroup_cons6, isDigit]
  · simp [yearSuffix, yearGroup_cons6, isDigit]
  · simp [yearSuffix, yearGroup_cons6, isDigit]
  · rw [yearGroup_cons6] at h
    simp only [List.cons_append]
    rw [yearGroup_cons6]
    exact h

theorem containsYearGroup_cons (c : Char) (cs : List Char)
    (h : containsYearGroup (c :: cs) = false) :
    yearGroup (c :: cs) = none ∧ containsYearGroup cs = false := by
  simp only [containsYearGroup, Bool.or_eq_false_iff] at h
  refine ⟨?_, h.2⟩
  cases hy : yearGroup (c :: cs) with
  | none => rfl
  | some y => simp [hy] at h

theorem yearGroup_of_contains_false (cs : List Char) (h : containsYearGroup cs = false) :
    yearGroup cs = none := by
  cases cs with
  | nil => rfl
  | cons c cs => exact (containsYearGroup_cons c cs h).1

theorem containsYearGroup_dropWhile (p : Char → Bool) (cs : List Char)
    (h : containsYearGroup cs = false) : containsYearGroup (cs.dropWhile p) = false := by
  induction cs with
  | nil => simpa using h
  | cons c cs ih =>
    by_cases hp : p c = true
    · rw [List.dropWhile_cons_of_pos hp]
      exact ih (containsYearGroup_cons c cs h).2
    · rw [List.dropWhile_cons_of_neg hp]
      exact h

theorem dropWhile_append_last (p : Char → Bool) (cs tail : List Char) (hne : cs ≠ [])
    (hlast : p (cs.getLast hne) = false) :
    (cs ++ tail).dropWhile p = cs.dropWhile p ++ tail ∧ cs.dropWhile p ≠ [] := by
  induction cs with
  | nil => exact absurd rfl hne
  | cons x xs ih =>
    by_cases hp : p x = true
    · cases xs with
      | nil => simp [hp] at hlast
      | cons y ys =>
        have hl2 : p ((y :: ys).getLast (List.cons_ne_nil _ _)) = false := by
          simpa [List.getLast_cons_cons] using hlast
        have := ih (List.cons_ne_nil _ _) hl2
        simpa [List.dropWhile_cons_of_pos hp] using this
    · simp [List.dropWhile_cons_of_neg hp]

theorem titleYear_append (T : List Char) (a b c d : Char) (hne : T ≠ [])
    (hlt : ∀ x ∈ T, isLineTerminator x = false)
    (hyg : containsYearGroup T = false)
    (hlast : isJsSpace (T.getLast hne) = false)
    (hd : (isDigit a && isDigit b && isDigit c && isDigit d) = true) :
    titleYear (T ++ yearSuffix a b c d) = some (T, [a, b, c, d]) := by
  induction T with
  | nil => exact absurd rfl hne
  | cons x xs ih =>
    have hx : isLineTerminator x = false := hlt x (List.mem_cons_self _ _)
    cases xs with
    | nil =>
      have hy : yearGroup ['(', a, b, c, d, ')'] = some [a, b, c, d] := by
        rw [yearGroup_cons6]
        simp [hd]
      simp only [List.cons_append, List.nil_append, titleYear, hx, yearSuffix]
      have hdrop : List.dropWhile isJsSpace [' ', '(', a, b, c, d, ')']
          = ['(', a, b, c, d, ')'] := by
        rw [List.dropWhile_cons_of_pos (by decide), List.dropWhile_cons_of_neg (by decide)]
      simp [hdrop, hy]
    | cons y ys =>
      have hne2 : (y :: ys) ≠ [] := List.cons_ne_nil _ _
      have hl2 : isJsSpace ((y :: ys).getLast hne2) = false := by
        simpa [List.getLast_cons_cons] using hlast
      have hyg2 : containsYearGroup (y :: ys) = false := (containsYearGroup_cons x _ hyg).2
      have hrec := ih hne2 (fun z hz => hlt z (List.mem_cons_of_mem _ hz)) hyg2 hl2
      obtain ⟨hdrop, hnonempty⟩ :=
        dropWhile_append_last isJsSpace (y :: ys) (yearSuffix a b c d) hne2 hl2
      have hnone : yearGroup (((y :: ys) ++ yearSuffix a b c d).dropWhile isJsSpace) = none := by
        rw [hdrop]
        exact yearGroup_append_space _ a b c d hnonempty
          (yearGroup_of_contains_false _ (containsYearGroup_dropWhile _ _ hyg2))
      rw [List.cons_append, titleYear]
      simp only [hx, Bool.false_eq_true, if_false, hnone, hrec]

theorem afterDot_ne_dot (c : Char) (cs : List Char) (hc : c ≠ '.') :
    afterDot (c :: cs) = none := by
  unfold afterDot
  split
  · rename_i heq
    simp only [List.cons.injEq] at heq
    exact absurd heq.1 hc
  · rfl

theorem afterDigits_none (l : List Char)
    (h : (l.dropWhile isDigit).head? ≠ some '.') : afterDigits l = none := by
  induction l with
  | nil => rfl
  | cons c cs ih =>
    by_cases hc : isDigit c = true
    · have hne : c ≠ '.' := by
        intro hdot
        rw [hdot] at hc
        exact absurd hc (by decide)
      rw [List.dropWhile_cons_of_pos hc] at h
      simp only [afterDigits, hc, if_true, ih h, afterDot_ne_dot c cs hne]
    · have hne : c ≠ '.' := by
        intro hdot
        rw [List.dropWhile_cons_of_neg hc, hdot] at h
        exact h rfl
      simp only [afterDigits, hc, Bool.false_eq_true, if_false, afterDot_ne_dot c cs hne]

theorem afterDigits_digits (N r : List Char) (res : List Char × List Char)
    (hN : ∀ x ∈ N, isDigit x = true) (hr : afterSpaces r = some res) :
    afterDigits (N ++ '.' :: r) = some res := by
  induction N with
  | nil =>
    have hdot : isDigit '.' = false := by decide
    simp only [List.nil_append, afterDigits, hdot, Bool.false_eq_true, if_false, afterDot, hr]
  | cons n ns ih =>
    have hn : isDigit n = true := hN n (List.mem_cons_self _ _)
    have := ih (fun x hx => hN x (List.mem_cons_of_mem _ hx))
    rw [List.cons_append, afterDigits, if_pos hn, this]

theorem head_dropWhile_append_space (xs tail : List Char)
    (h : (xs.dropWhile isDigit).head? ≠ some '.') :
    ((xs ++ ' ' :: tail).dropWhile isDigit).head? ≠ some '.' := by
  induction xs with
  | nil =>
    rw [List.nil_append, List.dropWhile_cons_of_neg (by decide)]
    simp
  | cons c cs ih =>
    by_cases hc : isDigit c = true
    · rw [List.dropWhile_cons_of_pos hc] at h
      rw [List.cons_append, List.dropWhile_cons_of_pos hc]
      exact ih h
    · rw [List.dropWhile_cons_of_neg hc] at h
      rw [List.cons_append, List.dropWhile_cons_of_neg hc]
      simpa using h

theorem lineMatch_title (T : List Char) (a b c d : Char) (hne : T ≠ [])
    (hlt : ∀ x ∈ T, isLineTerminator x = false)
    (hyg : containsYearGroup T = false)
    (hnum : startsNumbered T = false)
    (hlast : isJsSpace (T.getLast hne) = false)
    (hd : (isDigit a && isDigit b && isDigit c && isDigit d) = true) :
    lineMatch (T ++ yearSuffix a b c d) = some (T, [a, b, c, d]) := by
  have hty := titleYear_append T a b c d hne hlt hyg hlast hd
  cases T with
  | nil => exact absurd rfl hne
  | cons x xs =>
    by_cases hx : isDigit x = true
    · have hhead : (xs.dropWhile isDigit).head? ≠ some '.' := by
        simpa [startsNumbered, hx] using hnum
      have hnone : afterDigits (xs ++ yearSuffix a b c d) = none :=
        afterDigits_none _ (head_dropWhile_append_space xs _ hhead)
      simp only [lineMatch, List.cons_append, hx, if_true, hnone]
      exact hty
    · simp only [lineMatch, List.cons_append, hx, Bool.false_eq_true, if_false]
      exact hty

theorem lineMatch_numbered (N T : List Char) (a b c d : Char) (hN : N ≠ [])
    (hdigits : ∀ x ∈ N, isDigit x = true) (hne : T ≠ [])
    (hlt : ∀ x ∈ T, isLineTerminator x = false)
    (hyg : containsYearGroup T = false)
    (hfirst : isJsSpace (T.head hne) = false)
    (hlast : isJsSpace (T.getLast hne) = false)
    (hd : (isDigit a && isDigit b && isDigit c && isDigit d) = true) :
    lineMatch (N ++ '.' :: ' ' :: (T ++ yearSuffix a b c d)) = some (T, [a, b, c, d]) := by
  have hty := titleYear_append T a b c d hne hlt hyg hlast hd
  have hsp : afterSpaces (' ' :: (T ++ yearSuffix a b c d)) = some (T, [a, b, c, d]) := by
    cases T with
    | nil => exact absurd rfl hne
    | cons x xs =>
      have hx : isJsSpace x = false := by simpa using hfirst
      have h1 : afterSpaces (x :: (xs ++ yearSuffix a b c d)) = some (x :: xs, [a, b, c, d]) := by
        simp only [afterSpaces, hx, Bool.false_eq_true, if_false]
        exact hty
      have hspace : isJsSpace ' ' = true := by decide
      rw [List.cons_append, afterSpaces, if_pos hspace, h1]
  cases N with
  | nil => exact absurd rfl hN
  | cons n ns =>
    have hn : isDigit n = true := hdigits n (List.mem_cons_self _ _)
    have hrest := afterDigits_digits ns _ _
      (fun x hx => hdigits x (List.mem_cons_of_mem _ hx)) hsp
    simp only [lineMatch, List.cons_append, hn, if_true, hrest]

theorem containsYearGroup_of_yearGroup (l y : List Char) (h : yearGroup l = some y) :
    containsYearGroup l = true := by
  cases l with
  | nil => exact absurd h (by simp [yearGroup])
  | cons c cs => simp [containsYearGroup, h]

theorem containsYearGroup_of_dropWhile (p : Char → Bool) (cs : List Char)
    (h : containsYearGroup (cs.dropWhile p) = true) : containsYearGroup cs = true := by
  cases hc : containsYearGroup cs with
  | true => rfl
  | false => rw [containsYearGroup_dropWhile p cs hc] at h; exact absurd h (by decide)

theorem containsYearGroup_tail (c : Char) (cs : List Char) (h : containsYearGroup cs = true) :
    containsYearGroup (c :: cs) = true := by
  simp [containsYearGroup, h]

theorem titleYear_contains (cs : List Char) (r : List Char × List Char)
    (h : titleYear cs = some r) : containsYearGroup cs = true ∧ r.1 ≠ [] := by
  induction cs generalizing r with
  | nil => simp [titleYear] at h
  | cons c cs ih =>
    rw [titleYear] at h
    split at h
    · simp at h
    · split at h
      · rename_i y hy
        simp only [Option.some.injEq] at h
        subst h
        exact ⟨containsYearGroup_tail c cs (containsYearGroup_of_dropWhile _ cs
          (containsYearGroup_of_yearGroup _ _ hy)), by simp⟩
      · split at h
        · rename_i t y hrec
          simp only [Option.some.injEq] at h
          subst h
          exact ⟨containsYearGroup_tail c cs (ih _ hrec).1, by simp⟩
        · simp at h

theorem afterSpaces_contains (cs : List Char) (r : List Char × List Char)
    (h : afterSpaces cs = some r) : containsYearGroup cs = true ∧ r.1 ≠ [] := by
  induction cs generalizing r with
  | nil => simp [afterSpaces, titleYear] at h
  | cons c cs ih =>
    rw [afterSpaces] at h
    split at h
    · split at h
      · rename_i r2 hrec
        simp only [Option.some.injEq] at h
        subst h
        exact ⟨containsYearGroup_tail c cs (ih _ hrec).1, (ih _ hrec).2⟩
      · exact titleYear_contains _ _ h
    · exact titleYear_contains _ _ h

theorem afterDot_contains (cs : List Char) (r : List Char × List Char)
    (h : afterDot cs = some r) : containsYearGroup cs = true ∧ r.1 ≠ [] := by
  unfold afterDot at h
  split at h
  · rename_i rest
    exact ⟨containsYearGroup_tail _ _ (afterSpaces_contains _ _ h).1,
      (afterSpaces_contains _ _ h).2⟩
  · simp at h

theorem afterDigits_contains (cs : List Char) (r : List Char × List Char)
    (h : afterDigits cs = some r) : containsYearGroup cs = true ∧ r.1 ≠ [] := by
  induction cs generalizing r with
  | nil => simp [afterDigits, afterDot] at h
  | cons c cs ih =>
    rw [afterDigits] at h
    split at h
    · split at h
      · rename_i r2 hrec
        simp only [Option.some.injEq] at h
        subst h
        exact ⟨containsYearGroup_tail c cs (ih _ hrec).1, (ih _ hrec).2⟩
      · exact afterDot_contains _ _ h
    · exact afterDot_contains _ _ h

theorem lineMatch_contains (line : List Char) (r : List Char × List Char)
    (h : lineMatch line = some r) : containsYearGroup line = true ∧ r.1 ≠ [] := by
  unfold lineMatch at h
  simp only at h
  split at h
  · rename_i r2 hnum
    simp only [Option.some.injEq] at h
    subst h
    cases line with
    | nil => simp at hnum
    | cons c cs =>
      simp only at hnum
      split at hnum
      · exact ⟨containsYearGroup_tail c cs (afterDigits_contains _ _ hnum).1,
          (afterDigits_contains _ _ hnum).2⟩
      · simp at hnum
  · exact titleYear_contains _ _ h

theorem trimChars_eq_self (L : List Char) (hne : L ≠ [])
    (hfirst : isJsSpace (L.head hne) = false) (hlast : isJsSpace (L.getLast hne) = false) :
    trimChars L = L := by
  have h1 : L.dropWhile isJsSpace = L := by
    cases L with
    | nil => rfl
    | cons x xs =>
      have hx : ¬ isJsSpace x = true := by simpa using hfirst
      exact List.dropWhile_cons_of_neg hx
  have hrne : L.reverse ≠ [] := by simpa using hne
  have h2 : L.reverse.dropWhile isJsSpace = L.reverse := by
    cases hr : L.reverse with
    | nil => exact absurd hr hrne
    | cons x xs =>
      have hx : ¬ isJsSpace x = true := by
        have hh : L.reverse.head hrne = x := by simp [hr]
        rw [List.head_reverse] at hh
        rw [← hh]
        simpa using hlast
      exact List.dropWhile_cons_of_neg hx
  simp [trimChars, h1, h2]

theorem trimChars_eq_nil_iff (cs : List Char) :
    trimChars cs = [] ↔ ∀ x ∈ cs, isJsSpace x = true := by
  constructor
  · intro h
    have h1 : (cs.dropWhile isJsSpace).reverse.dropWhile isJsSpace = [] := by
      simpa [trimChars] using h
    have h2 : ∀ x ∈ cs.dropWhile isJsSpace, isJsSpace x = true := by
      intro x hx
      exact (List.dropWhile_eq_nil_iff.mp h1) x (List.mem_reverse.mpr hx)
    have h3 : cs.dropWhile isJsSpace = [] := by
      cases hd : cs.dropWhile isJsSpace with
      | nil => rfl
      | cons y ys =>
        have hne : cs.dropWhile isJsSpace ≠ [] := by simp [hd]
        have hnot := List.head_dropWhile_not isJsSpace cs hne
        have hy : isJsSpace y = true := h2 y (by simp [hd])
        have hhead : (cs.dropWhile isJsSpace).head hne = y := by simp [hd]
        rw [hhead, hy] at hnot
        exact absurd hnot (by decide)
    exact List.dropWhile_eq_nil_iff.mp h3
  · intro h
    have h3 : cs.dropWhile isJsSpace = [] := List.dropWhile_eq_nil_iff.mpr h
    simp [trimChars, h3]

theorem splitNewline_single (L : List Char) (h : ∀ x ∈ L, x ≠ '\n') :
    splitNewline L = [L] := by
  induction L with
  | nil => rfl
  | cons c cs ih =>
    have hc : c ≠ '\n' := h c (List.mem_cons_self _ _)
    have hcs := ih (fun x hx => h x (List.mem_cons_of_mem _ hx))
    simp [splitNewline, hc, hcs]

theorem movieLines_single (L : List Char) (hne : L ≠ []) (h : ∀ x ∈ L, x ≠ '\n')
    (hfirst : isJsSpace (L.head hne) = false) (hlast : isJsSpace (L.getLast hne) = false) :
    movieLines (String.mk L) = [String.mk L] := by
  have htrim : trim (String.mk L) ≠ "" := by
    intro hcontra
    have := congrArg String.data hcontra
    simp only [trim, trimChars_eq_self L hne hfirst hlast] at this
    exact hne this
  simp [movieLines, splitNewline_single L h, htrim]

theorem filterCalls_single (L : List Char) (t y : String) (hne : L ≠ [])
    (h : ∀ x ∈ L, x ≠ '\n')
    (hfirst : isJsSpace (L.head hne) = false) (hlast : isJsSpace (L.getLast hne) = false)
    (hparse : parseLine (String.mk L) = some (t, y)) :
    filterCalls (String.mk L) = [Call.omdbTitle t y] := by
  simp [filterCalls, movieLines_single L hne h hfirst hlast, hparse]

theorem isDigit_not_space (x : Char) (h : isDigit x = true) : isJsSpace x = false := by
  simp only [isDigit, Bool.and_eq_true, decide_eq_true_eq] at h
  simp only [isJsSpace, List.contains, List.elem, Bool.or_eq_false_iff, Bool.and_eq_false_iff,
    decide_eq_false_iff_not, beq_iff_eq]
  have h1 := h.1
  have h2 := h.2
  refine ⟨?_, ?_⟩
  · repeat' split
    all_goals first | rfl | (rename_i heq; simp at heq; omega)
  · left
    omega

theorem parseLine_of_lineMatch (L T Y : List Char) (hne : T ≠ [])
    (hfirst : isJsSpace (T.head hne) = false) (hlast : isJsSpace (T.getLast hne) = false)
    (h : lineMatch L = some (T, Y)) :
    parseLine (String.mk L) = some (String.mk T, String.mk Y) := by
  simp [parseLine, h, trim, trimChars_eq_self T hne hfirst hlast]

theorem not_newline_of_not_terminator (x : Char) (h : isLineTerminator x = false) :
    x ≠ '\n' := by
  intro hx
  rw [hx] at h
  exact absurd h (by decide)

theorem not_newline_of_digit (x : Char) (h : isDigit x = true) : x ≠ '\n' := by
  intro hx
  rw [hx] at h
  exact absurd h (by decide)

/-- C19, as stated, fails twice: the line ` (2014)` (after a first line), whose
captured text is one space, triggers a lookup with the empty title; and the
title `A\rB`, which is non-empty, has no white space at either end, no
parenthesised year and no leading number, gives a line that does not parse. -/
theorem linePattern_gaps :
    parseLine " (2014)" = some ("", "2014") ∧
    filterCalls "Heat (1995)\n (2014)"
      = [Call.omdbTitle "Heat" "1995", Call.omdbTitle "" "2014"] ∧
    ("A\rB".data ≠ [] ∧ isJsSpace 'A' = false ∧ isJsSpace 'B' = false ∧
      containsYearGroup "A\rB".data = false ∧ startsNumbered "A\rB".data = false) ∧
    parseLine (String.mk ("A\rB".data ++ yearSuffix '2' '0' '1' '0')) = none := by
  decide!

/-- C19, amended: for every title `T` that is non-empty, has no white space at
either end, no parenthesised four-digit group, no leading digits followed by
`.` and no line terminator, and every four digits `a b c d`, the line
`T (abcd)` and every numbered line `N. T (abcd)` (`N` a non-empty digit
string) parse to exactly title `T` and year `abcd` and, as a model answer,
trigger exactly one catalog lookup, for that title and year; a line without a
parenthesised four-digit group gives no candidate and no lookup; and the title
of a candidate is the trimmed text captured before the year, which is never
empty itself, so the title is empty exactly when that text is all white
space. -/
theorem linePattern_parses (T : List Char) (a b c d : Char) (hne : T ≠ [])
    (hfirst : isJsSpace (T.head hne) = false) (hlast : isJsSpace (T.getLast hne) = false)
    (hyg : containsYearGroup T = false) (hnum : startsNumbered T = false)
    (hlt : ∀ x ∈ T, isLineTerminator x = false)
    (hd : (isDigit a && isDigit b && isDigit c && isDigit d) = true) :
    (parseLine (String.mk (T ++ yearSuffix a b c d))
        = some (String.mk T, String.mk [a, b, c, d]) ∧
      filterCalls (String.mk (T ++ yearSuffix a b c d))
        = [Call.omdbTitle (String.mk T) (String.mk [a, b, c, d])]) ∧
    (∀ N : List Char, N ≠ [] → (∀ x ∈ N, isDigit x = true) →
      parseLine (String.mk (N ++ '.' :: ' ' :: (T ++ yearSuffix a b c d)))
        = some (String.mk T, String.mk [a, b, c, d]) ∧
      filterCalls (String.mk (N ++ '.' :: ' ' :: (T ++ yearSuffix a b c d)))
        = [Call.omdbTitle (String.mk T) (String.mk [a, b, c, d])]) ∧
    (∀ line : String, containsYearGroup line.data = false → parseLine line = none) ∧
    (∀ aiResponse : String,
      (∀ line ∈ movieLines aiResponse, containsYearGroup line.data = false) →
      filterCalls aiResponse = []) ∧
    (∀ (line t y : String), parseLine line = some (t, y) →
      ∃ cap, cap ≠ [] ∧ lineMatch line.data = some (cap, y.data) ∧
        t = trim (String.mk cap) ∧ (t = "" ↔ ∀ x ∈ cap, isJsSpace x = true)) := by
  have hdig : isDigit a = true ∧ isDigit b = true ∧ isDigit c = true ∧ isDigit d = true := by
    simp only [Bool.and_eq_true] at hd
    exact ⟨hd.1.1.1, hd.1.1.2, hd.1.2, hd.2⟩
  have hsuffix : ∀ x ∈ yearSuffix a b c d, x ≠ '\n' := by
    intro x hx
    simp only [yearSuffix, List.mem_cons, List.mem_singleton, List.not_mem_nil, or_false] at hx
    rcases hx with rfl | rfl | rfl | rfl | rfl | rfl | rfl
    · decide
    · decide
    · exact not_newline_of_digit _ hdig.1
    · exact not_newline_of_digit _ hdig.2.1
    · exact not_newline_of_digit _ hdig.2.2.1
    · exact not_newline_of_digit _ hdig.2.2.2
    · decide
  have hTnl : ∀ x ∈ T, x ≠ '\n' := fun x hx => not_newline_of_not_terminator x (hlt x hx)
  have hnone : ∀ line : String, containsYearGroup line.data = false → parseLine line = none := by
    intro line hline
    cases hm : lineMatch line.data with
    | none => simp [parseLine, hm]
    | some r =>
      have := (lineMatch_contains _ _ hm).1
      rw [hline] at this
      exact absurd this (by decide)
  refine ⟨?_, fun N hN hdigits => ?_, hnone, fun aiResponse hall => ?_, fun line t y hp => ?_⟩
  · have hparse := parseLine_of_lineMatch _ T [a, b, c, d] hne hfirst hlast
      (lineMatch_title T a b c d hne hlt hyg hnum hlast hd)
    refine ⟨hparse, ?_⟩
    have hLne : T ++ yearSuffix a b c d ≠ [] := by simp [hne]
    refine filterCalls_single _ _ _ hLne ?_ ?_ ?_ hparse
    · intro x hx
      rcases List.mem_append.mp hx with hx | hx
      · exact hTnl x hx
      · exact hsuffix x hx
    · rw [List.head_append_of_ne_nil hne]
      exact hfirst
    · have : (T ++ yearSuffix a b c d).getLast hLne = ')' := by
        simp [yearSuffix, List.getLast_append]
      rw [this]
      decide
  · have hparse := parseLine_of_lineMatch _ T [a, b, c, d] hne hfirst hlast
      (lineMatch_numbered N T a b c d hN hdigits hne hlt hyg hfirst hlast hd)
    refine ⟨hparse, ?_⟩
    have hLne : N ++ '.' :: ' ' :: (T ++ yearSuffix a b c d) ≠ [] := by simp
    refine filterCalls_single _ _ _ hLne ?_ ?_ ?_ hparse
    · intro x hx
      rcases List.mem_append.mp hx with hx | hx
      · exact not_newline_of_digit x (hdigits x hx)
      · rcases List.mem_cons.mp hx with rfl | hx
        · decide
        · rcases List.mem_cons.mp hx with rfl | hx
          · decide
          · rcases List.mem_append.mp hx with hx | hx
            · exact hTnl x hx
            · exact hsuffix x hx
    · rw [List.head_append_of_ne_nil hN]
      exact isDigit_not_space _ (hdigits _ (List.head_mem hN))
    · have : (N ++ '.' :: ' ' :: (T ++ yearSuffix a b c d)).getLast hLne = ')' := by
        simp [yearSuffix, List.getLast_append]
      rw [this]
      decide
  · simp only [filterCalls, List.filterMap_eq_nil_iff]
    intro line hline
    rw [hnone line (hall line hline)]
  · have hp2 := hp
    simp only [parseLine] at hp2
    split at hp2
    · rename_i cap yr hm
      simp only [Option.some.injEq, Prod.mk.injEq] at hp2
      obtain ⟨ht, hy⟩ := hp2
      refine ⟨cap, (lineMatch_contains _ _ hm).2, ?_, ht.symm, ?_⟩
      · rw [hm, ← hy]
      · rw [← ht, ← trimChars_eq_nil_iff]
        constructor
        · intro h
          simpa [trim] using congrArg String.data h
        · intro h
          simp [trim, h]
    · simp at hp2

/-- Witness of C19 amended: the title `Blade Runner 2049` with the year 2017,
alone and numbered `12.`. -/
theorem linePattern_parses_witness :
    (∃ hne : sampleTitle ≠ [], isJsSpace (sampleTitle.head hne) = false ∧
      isJsSpace (sampleTitle.getLast hne) = false) ∧
    containsYearGroup sampleTitle = false ∧ startsNumbered sampleTitle = false ∧
    (∀ x ∈ sampleTitle, isLineTerminator x = false) ∧
    parseLine (String.mk (sampleTitle ++ yearSuffix '2' '0' '1' '7'))
      = some ("Blade Runner 2049", "2017") ∧
    filterCalls (String.mk ("12".data ++ '.' :: ' ' :: (sampleTitle ++ yearSuffix '2' '0' '1' '7')))
      = [Call.omdbTitle "Blade Runner 2049" "2017"] :=
  have hne : sampleTitle ≠ [] := by decide
  have h := linePattern_parses sampleTitle '2' '0' '1' '7' hne rfl rfl (by decide)
    (by decide) (by decide) (by decide)
  ⟨⟨hne, rfl, rfl⟩, by decide, by decide, by decide, h.1.1,
    (h.2.1 "12".data (by decide) (by decide)).2⟩

/-! ### Cache keys -/

theorem split_at_colon (a a2 b b2 : List Char) (ha : ':' ∉ a) (ha2 : ':' ∉ a2)
    (h : a ++ ':' :: b = a2 ++ ':' :: b2) : a = a2 ∧ b = b2 := by
  induction a generalizing a2 with
  | nil =>
    cases a2 with
    | nil => exact ⟨rfl, by simpa using h⟩
    | cons y ys =>
      simp only [List.nil_append, List.cons_append, List.cons.injEq] at h
      exact absurd (h.1 ▸ List.mem_cons_self _ _) ha2
  | cons x xs ih =>
    cases a2 with
    | nil =>
      simp only [List.nil_append, List.cons_append, List.cons.injEq] at h
      exact absurd (h.1 ▸ List.mem_cons_self _ _) ha
    | cons y ys =>
      simp only [List.cons_append, List.cons.injEq] at h
      obtain ⟨hxy, hrest⟩ := h
      obtain ⟨h1, h2⟩ := ih ys (fun hm => ha (List.mem_cons_of_mem _ hm))
        (fun hm => ha2 (List.mem_cons_of_mem _ hm)) hrest
      exact ⟨by rw [hxy, h1], h2⟩

theorem split_at_last_colon (a a2 b b2 : List Char) (hb : ':' ∉ b) (hb2 : ':' ∉ b2)
    (h : a ++ ':' :: b = a2 ++ ':' :: b2) : a = a2 ∧ b = b2 := by
  have hrev : b.reverse ++ ':' :: a.reverse = b2.reverse ++ ':' :: a2.reverse := by
    have := congrArg List.reverse h
    simpa using this
  obtain ⟨h1, h2⟩ := split_at_colon _ _ _ _ (by simpa using hb) (by simpa using hb2) hrev
  exact ⟨List.reverse_injective h2, List.reverse_injective h1⟩

theorem key3_left (q y p q2 y2 p2 : List Char)
    (hq : ':' ∉ q) (hy : ':' ∉ y) (hq2 : ':' ∉ q2) (hy2 : ':' ∉ y2)
    (h : q ++ ':' :: (y ++ ':' :: p) = q2 ++ ':' :: (y2 ++ ':' :: p2)) :
    q = q2 ∧ y = y2 ∧ p = p2 := by
  obtain ⟨h1, h2⟩ := split_at_colon _ _ _ _ hq hq2 h
  obtain ⟨h3, h4⟩ := split_at_colon _ _ _ _ hy hy2 h2
  exact ⟨h1, h3, h4⟩

theorem key3_right (q y p q2 y2 p2 : List Char)
    (hy : ':' ∉ y) (hp : ':' ∉ p) (hy2 : ':' ∉ y2) (hp2 : ':' ∉ p2)
    (h : q ++ ':' :: (y ++ ':' :: p) = q2 ++ ':' :: (y2 ++ ':' :: p2)) :
    q = q2 ∧ y = y2 ∧ p = p2 := by
  have h' : (q ++ ':' :: y) ++ ':' :: p = (q2 ++ ':' :: y2) ++ ':' :: p2 := by
    simpa using h
  obtain ⟨h1, h2⟩ := split_at_last_colon _ _ _ _ hp hp2 h'
  obtain ⟨h3, h4⟩ := split_at_last_colon _ _ _ _ hy hy2 h1
  exact ⟨h3, h4, h2⟩

theorem searchKey_data (B : Builtins) (q year page : JsVal) :
    (searchKey B q year page).data
      = "search:".data ++ ((B.toStr q).data ++ ':' :: ((B.toStr year).data
          ++ ':' :: (B.toStr page).data)) := by
  simp [searchKey, String.data_append]

theorem filterKey_data (B : Builtins) (genre page : JsVal) :
    (filterKey B genre page).data
      = "filter:".data ++ ((B.toStr genre).data ++ ':' :: (B.toStr page).data) := by
  simp [filterKey, String.data_append]

theorem movieKey_data (B : Builtins) (id : JsVal) :
    (movieKey B id).data = "movie:".data ++ (B.toStr id).data := by
  simp [movieKey, String.data_append]

theorem keys_of_operations_differ (B : Builtins) (q year page id genre fpage : JsVal) :
    trendingKey ≠ searchKey B q year page ∧ trendingKey ≠ movieKey B id ∧
    trendingKey ≠ filterKey B genre fpage ∧ searchKey B q year page ≠ movieKey B id ∧
    searchKey B q year page ≠ filterKey B genre fpage ∧
    movieKey B id ≠ filterKey B genre fpage := by
  refine ⟨?_, ?_, ?_, ?_, ?_, ?_⟩ <;>
  · intro h
    have h2 := congrArg (fun s : String => s.data.head?) h
    simp [searchKey, filterKey, movieKey, trendingKey, String.data_append] at h2

theorem digitChar_ne_colon (d : Nat) (h : d < 10) : Nat.digitChar d ≠ ':' := by
  interval_cases d <;> decide

theorem digitChar_inj (d e : Nat) (hd : d < 10) (he : e < 10)
    (h : Nat.digitChar d = Nat.digitChar e) : d = e := by
  interval_cases d <;> interval_cases e <;> first | rfl | exact absurd h (by decide)

theorem map_digitChar_inj (l l2 : List Nat) (hl : ∀ d ∈ l, d < 10) (hl2 : ∀ d ∈ l2, d < 10)
    (h : l.map Nat.digitChar = l2.map Nat.digitChar) : l = l2 := by
  induction l generalizing l2 with
  | nil =>
    cases l2 with
    | nil => rfl
    | cons y ys => simp at h
  | cons x xs ih =>
    cases l2 with
    | nil => simp at h
    | cons y ys =>
      simp only [List.map_cons, List.cons.injEq] at h
      have h1 := digitChar_inj x y (hl x (List.mem_cons_self _ _))
        (hl2 y (List.mem_cons_self _ _)) h.1
      have h2 := ih ys (fun d hd => hl d (List.mem_cons_of_mem _ hd))
        (fun d hd => hl2 d (List.mem_cons_of_mem _ hd)) h.2
      rw [h1, h2]

theorem decimal_no_colon (n : Nat) : ':' ∉ decimal n := by
  unfold decimal
  split
  · decide
  · intro hm
    obtain ⟨d, hd, hc⟩ := List.mem_map.mp hm
    exact digitChar_ne_colon d (Nat.digits_lt_base (by norm_num) (List.mem_reverse.mp hd)) hc

theorem decimal_ne_zero (m : Nat) (hm : m ≠ 0) : decimal m ≠ ['0'] := by
  intro h
  simp only [decimal, hm, if_false] at h
  have h2 : ((Nat.digits 10 m).reverse).map Nat.digitChar = [0].map Nat.digitChar := by
    simpa using h
  have h3 := map_digitChar_inj _ _
    (fun d hd => Nat.digits_lt_base (by norm_num) (List.mem_reverse.mp hd))
    (by simp) h2
  have h4 : Nat.digits 10 m = [0] := by
    have := congrArg List.reverse h3
    simpa using this
  have h5 := Nat.getLast_digit_ne_zero 10 hm
  simp [h4] at h5

theorem decimal_injective (n m : Nat) (h : decimal n = decimal m) : n = m := by
  by_cases hn : n = 0
  · by_cases hm : m = 0
    · rw [hn, hm]
    · exact absurd (by rw [← h, hn]; rfl) (decimal_ne_zero m hm)
  · by_cases hm : m = 0
    · exact absurd (by rw [h, hm]; rfl) (decimal_ne_zero n hn)
    · simp only [decimal, hn, hm, if_false] at h
      have h3 := map_digitChar_inj _ _
        (fun d hd => Nat.digits_lt_base (by norm_num) (List.mem_reverse.mp hd))
        (fun d hd => Nat.digits_lt_base (by norm_num) (List.mem_reverse.mp hd)) h
      exact Nat.digits.injective 10 (List.reverse_injective h3)

theorem searchKey_renderings (B : Builtins) (q y p q2 y2 p2 : JsVal)
    (hc : (':' ∉ (B.toStr y).data ∧ ':' ∉ (B.toStr p).data ∧
        ':' ∉ (B.toStr y2).data ∧ ':' ∉ (B.toStr p2).data) ∨
      (':' ∉ (B.toStr q).data ∧ ':' ∉ (B.toStr y).data ∧
        ':' ∉ (B.toStr q2).data ∧ ':' ∉ (B.toStr y2).data))
    (h : searchKey B q y p = searchKey B q2 y2 p2) :
    B.toStr q = B.toStr q2 ∧ B.toStr y = B.toStr y2 ∧ B.toStr p = B.toStr p2 := by
  have hd := congrArg String.data h
  rw [searchKey_data, searchKey_data] at hd
  have hd2 := List.append_cancel_left hd
  rcases hc with ⟨hy, hp, hy2, hp2⟩ | ⟨hq, hy, hq2, hy2⟩
  · obtain ⟨h1, h2, h3⟩ := key3_right _ _ _ _ _ _ hy hp hy2 hp2 hd2
    exact ⟨String.ext h1, String.ext h2, String.ext h3⟩
  · obtain ⟨h1, h2, h3⟩ := key3_left _ _ _ _ _ _ hq hy hq2 hy2 hd2
    exact ⟨String.ext h1, String.ext h2, String.ext h3⟩

theorem filterKey_renderings (B : Builtins) (g p g2 p2 : JsVal)
    (hc : (':' ∉ (B.toStr p).data ∧ ':' ∉ (B.toStr p2).data) ∨
      (':' ∉ (B.toStr g).data ∧ ':' ∉ (B.toStr g2).data))
    (h : filterKey B g p = filterKey B g2 p2) :
    B.toStr g = B.toStr g2 ∧ B.toStr p = B.toStr p2 := by
  have hd := congrArg String.data h
  rw [filterKey_data, filterKey_data] at hd
  have hd2 := List.append_cancel_left hd
  rcases hc with ⟨hp, hp2⟩ | ⟨hg, hg2⟩
  · obtain ⟨h1, h2⟩ := split_at_last_colon _ _ _ _ hp hp2 hd2
    exact ⟨String.ext h1, String.ext h2⟩
  · obtain ⟨h1, h2⟩ := split_at_colon _ _ _ _ hg hg2 hd2
    exact ⟨String.ext h1, String.ext h2⟩

/-- C21, as stated, fails: the searches `(q, year, page)` =
`("Mission: Impossible", "", "1")` and `("Mission", " Impossible:", "1")` have
the same cache key, so the second request, run on the cache the first one
left, is answered with the payload computed for the first and sends no
upstream request; and the filters `("sci:fi", "1")` and `("sci", "fi:1")` have
the same key. -/
theorem cache_keys_collide :
    searchKey sampleBuiltins (.str "Mission: Impossible") (.str "") (.str "1")
      = searchKey sampleBuiltins (.str "Mission") (.str " Impossible:") (.str "1") ∧
    missionRun.body = .payload (.search ⟨missionResults, .fin 2, .fin 1, none⟩) ∧
    missionRun.calls = [Call.omdbSearch "Mission: Impossible"] ∧
    collidingRun.status = 200 ∧
    collidingRun.body = .payload (.search ⟨missionResults, .fin 2, .fin 1, none⟩) ∧
    collidingRun.calls = [] ∧
    filterKey sampleBuiltins (.str "sci:fi") (.str "1")
      = filterKey sampleBuiltins (.str "sci") (.str "fi:1") := by
  decide!

/-- C21, amended: with `String(s) = s` on strings, the cache keys of different
operations never coincide; `id ↦ movie:id` is injective on strings;
`(q, year, page) ↦ search:q:year:page` is injective on the string triples
whose year and page contain no `:`, and on those whose q and year contain no
`:`; `(genre, page) ↦ filter:genre:page` is injective on the string pairs whose
page contains no `:`, and on those whose genre contains no `:`; and, `String(n)`
being the decimal numeral of a non-negative safe integer `n` (below `2 ^ 53`),
it is injective on the pairs of any string genre and such a page number, the
page the server defaults to and the client sends. For parameters of any type the
same holds of their renderings: equal keys give equal `String(·)` of each
parameter when the renderings named above contain no `:`. For such parameters
equal keys mean the same operation with equal parameters. -/
theorem cache_keys_injective (B : Builtins) (hstr : ∀ s : String, B.toStr (.str s) = s) :
    (∀ q year page id genre fpage : JsVal,
      trendingKey ≠ searchKey B q year page ∧ trendingKey ≠ movieKey B id ∧
      trendingKey ≠ filterKey B genre fpage ∧ searchKey B q year page ≠ movieKey B id ∧
      searchKey B q year page ≠ filterKey B genre fpage ∧
      movieKey B id ≠ filterKey B genre fpage) ∧
    (∀ id id2 : String, movieKey B (.str id) = movieKey B (.str id2) → id = id2) ∧
    (∀ q y p q2 y2 p2 : String,
      ((':' ∉ y.data ∧ ':' ∉ p.data ∧ ':' ∉ y2.data ∧ ':' ∉ p2.data) ∨
        (':' ∉ q.data ∧ ':' ∉ y.data ∧ ':' ∉ q2.data ∧ ':' ∉ y2.data)) →
      searchKey B (.str q) (.str y) (.str p) = searchKey B (.str q2) (.str y2) (.str p2) →
      q = q2 ∧ y = y2 ∧ p = p2) ∧
    (∀ g p g2 p2 : String,
      ((':' ∉ p.data ∧ ':' ∉ p2.data) ∨ (':' ∉ g.data ∧ ':' ∉ g2.data)) →
      filterKey B (.str g) (.str p) = filterKey B (.str g2) (.str p2) →
      g = g2 ∧ p = p2) ∧
    ((∀ n : Nat, n < 2 ^ 53 → B.toStr (.num (.fin (n : ℚ))) = String.mk (decimal n)) →
      ∀ (g g2 : String) (n n2 : Nat), n < 2 ^ 53 → n2 < 2 ^ 53 →
        filterKey B (.str g) (.num (.fin (n : ℚ)))
          = filterKey B (.str g2) (.num (.fin (n2 : ℚ))) →
        g = g2 ∧ n = n2) ∧
    (∀ id id2 : JsVal, movieKey B id = movieKey B id2 → B.toStr id = B.toStr id2) ∧
    (∀ q y p q2 y2 p2 : JsVal,
      ((':' ∉ (B.toStr y).data ∧ ':' ∉ (B.toStr p).data ∧
          ':' ∉ (B.toStr y2).data ∧ ':' ∉ (B.toStr p2).data) ∨
        (':' ∉ (B.toStr q).data ∧ ':' ∉ (B.toStr y).data ∧
          ':' ∉ (B.toStr q2).data ∧ ':' ∉ (B.toStr y2).data)) →
      searchKey B q y p = searchKey B q2 y2 p2 →
      B.toStr q = B.toStr q2 ∧ B.toStr y = B.toStr y2 ∧ B.toStr p = B.toStr p2) ∧
    (∀ g p g2 p2 : JsVal,
      ((':' ∉ (B.toStr p).data ∧ ':' ∉ (B.toStr p2).data) ∨
        (':' ∉ (B.toStr g).data ∧ ':' ∉ (B.toStr g2).data)) →
      filterKey B g p = filterKey B g2 p2 →
      B.toStr g = B.toStr g2 ∧ B.toStr p = B.toStr p2) := by
  have hmovie : ∀ id id2 : JsVal, movieKey B id = movieKey B id2 → B.toStr id = B.toStr id2 := by
    intro id id2 h
    have hd := congrArg String.data h
    rw [movieKey_data, movieKey_data] at hd
    exact String.ext (List.append_cancel_left hd)
  refine ⟨keys_of_operations_differ B, fun id id2 h => ?_, fun q y p q2 y2 p2 hc h => ?_,
    fun g p g2 p2 hc h => ?_, fun hnum g g2 n n2 hn hn2 h => ?_, hmovie,
    searchKey_renderings B, filterKey_renderings B⟩
  · simpa [hstr] using hmovie _ _ h
  · simpa [hstr] using searchKey_renderings B _ _ _ _ _ _ (by simpa [hstr] using hc) h
  · simpa [hstr] using filterKey_renderings B _ _ _ _ (by simpa [hstr] using hc) h
  · have hr := filterKey_renderings B _ _ _ _
      (Or.inl ⟨by rw [hnum n hn]; exact decimal_no_colon n,
        by rw [hnum n2 hn2]; exact decimal_no_colon n2⟩) h
    rw [hstr, hstr, hnum n hn, hnum n2 hn2] at hr
    exact ⟨hr.1, decimal_injective n n2 (congrArg String.data hr.2)⟩

/-- Witness of C21 amended: built-ins that render a string as itself and a
non-negative safe integer in decimal; the key of the search for
`Mission: Impossible`, year 1996, page 1 differs from the trending key, and
equals the key of a search for `(q, "1996", "1")` only when `q` is
`Mission: Impossible`; the key of the filter for `sci:fi`, page number 1,
equals the key of a filter for a genre and a page number only when they are
`sci:fi` and 1. -/
theorem cache_keys_injective_witness :
    (∀ s : String, decimalBuiltins.toStr (.str s) = s) ∧
    (∀ n : Nat, n < 2 ^ 53 →
      decimalBuiltins.toStr (.num (.fin (n : ℚ))) = String.mk (decimal n)) ∧
    trendingKey ≠ searchKey decimalBuiltins (.str "Mission: Impossible") (.str "1996")
      (.str "1") ∧
    (∀ q : String,
      searchKey decimalBuiltins (.str "Mission: Impossible") (.str "1996") (.str "1")
        = searchKey decimalBuiltins (.str q) (.str "1996") (.str "1") →
      "Mission: Impossible" = q) ∧
    (∀ (g2 : String) (n2 : Nat), n2 < 2 ^ 53 →
      filterKey decimalBuiltins (.str "sci:fi") (.num (.fin ((1 : Nat) : ℚ)))
        = filterKey decimalBuiltins (.str g2) (.num (.fin (n2 : ℚ))) →
      "sci:fi" = g2 ∧ 1 = n2) :=
  have hnum : ∀ n : Nat, n < 2 ^ 53 →
      decimalBuiltins.toStr (.num (.fin (n : ℚ))) = String.mk (decimal n) :=
    fun n _ => by simp [decimalBuiltins]
  have h := cache_keys_injective decimalBuiltins (fun _ => rfl)
  ⟨fun _ => rfl, hnum,
    (h.1 (.str "Mission: Impossible") (.str "1996") (.str "1") .undefined .undefined
      .undefined).1,
    fun q hq => (h.2.2.1 "Mission: Impossible" "1996" "1" q "1996" "1"
      (Or.inl ⟨by decide, by decide, by decide, by decide⟩) hq).1,
    fun g2 n2 hn2 hk => h.2.2.2.2.1 hnum "sci:fi" g2 1 n2 (by norm_num) hn2 hk⟩

end MovieMate

